import Mathlib

/-!
# Format negotiation and the sharded unary program factory

A shallow embedding of

* `tt_eager/tt_dnn/op_library/auto_format.cpp` (`AutoFormat::move_tensor_to_device`,
  `AutoFormat::move_tensor_to_device_and_pad`, `AutoFormat::format_input_tensor`,
  `AutoFormat::format_output_tensor`), and
* `ttnn/cpp/ttnn/operations/eltwise/unary/device/unary_program_factory_sharded.hpp`
  (`unary_sharded` and the override callback it returns),

followed by the properties proved about them.

The device-native and host-side primitives (`tilize`, `pad`, `data_transfer_to_device`, ...)
are black boxes of the negotiator.  They are embedded as an interpretation
`Primitives = Prim → Tensor → Tensor` of primitive requests; every call is also written to a
call log, so that statements of the form "no primitive is invoked" can be made.
-/

namespace tt_metal

/-! ## Constants and machine arithmetic -/

/-- Tile height of `tt::constants` (the `32` of the tile-legality rule). -/
def TILE_HEIGHT : Nat := 32

/-- Tile width of `tt::constants`. -/
def TILE_WIDTH : Nat := 32

/-- Number of values of a `uint32_t`. -/
def U32 : Nat := 4294967296

/-- Number of values of a 64-bit `size_t`. -/
def U64 : Nat := 18446744073709551616

/-- The `uint32_t` subtraction `a - 1` (wraps at zero), as in `shape[i] - 1`. -/
def u32_pred (a : Nat) : Nat := (a + (U32 - 1)) % U32

/-- The `uint32_t` expression `e - s + 1` (wrapping), the extent of the index range `s..e`. -/
def u32_extent (s e : Nat) : Nat := (e + (U32 - s % U32) + 1) % U32

/-! ## Data model of the negotiator -/

/-- Modelled from the spec: the `Layout` enumeration is declared outside the sources given;
§3 of the specification lists the layouts as row-major | tiled. -/
inductive Layout where
  | ROW_MAJOR
  | TILE
  deriving DecidableEq

/-- Modelled from the spec: storage location (host | device); the source only ever tests
`storage_type() == StorageType::DEVICE`. -/
inductive StorageType where
  | HOST
  | DEVICE
  deriving DecidableEq

/-- Modelled from the spec: where a buffer lives, bulk off-chip (`DRAM`) or core-local
(`L1`). -/
inductive BufferType where
  | DRAM
  | L1
  deriving DecidableEq

/-- Modelled from the spec: how a device buffer is distributed (interleaved | sharded). -/
inductive TensorMemoryLayout where
  | INTERLEAVED
  | SHARDED
  deriving DecidableEq

/-- Modelled from the spec: memory placement of a device tensor. -/
structure MemoryConfig where
  memory_layout : TensorMemoryLayout
  buffer_type : BufferType
  deriving DecidableEq

/-- The constant `operation::DEFAULT_OUTPUT_MEMORY_CONFIG` ("interleaved in DRAM",
`operations.cpp` line 96). -/
def DEFAULT_OUTPUT_MEMORY_CONFIG : MemoryConfig :=
  { memory_layout := TensorMemoryLayout.INTERLEAVED, buffer_type := BufferType.DRAM }

/-- A device handle (`Device*`), forwarded uninterpreted. -/
abbrev Device := Nat

/-- The `float pad_value`, forwarded uninterpreted to the padding primitives. -/
abbrev PadValue := Int

/-- The legacy (padded) shape.  The negotiator addresses it as four `uint32_t` dimensions
(`shape[0] .. shape[3]`); two legacy shapes compare equal when their dimensions do. -/
structure Shape where
  d0 : Nat
  d1 : Nat
  d2 : Nat
  d3 : Nat
  deriving DecidableEq

/-- Every dimension fits a `uint32_t`. -/
def Shape.is_u32 (s : Shape) : Prop := s.d0 < U32 ∧ s.d1 < U32 ∧ s.d2 < U32 ∧ s.d3 < U32

instance (s : Shape) : Decidable s.is_u32 := by
  unfold Shape.is_u32
  infer_instance

/-- Dimension-wise order on shapes. -/
def Shape.le (s p : Shape) : Prop := s.d0 ≤ p.d0 ∧ s.d1 ≤ p.d1 ∧ s.d2 ≤ p.d2 ∧ s.d3 ≤ p.d3

instance (s p : Shape) : Decidable (s.le p) := by
  unfold Shape.le
  infer_instance

/-- The start index `{0, 0, 0, 0}`. -/
def Shape.zero : Shape := { d0 := 0, d1 := 0, d2 := 0, d3 := 0 }

/-- The end index `{shape[0] - 1, shape[1] - 1, shape[2] - 1, shape[3] - 1}` handed to the
unpadding primitives. -/
def Shape.last_index (shape : Shape) : Shape :=
  { d0 := u32_pred shape.d0, d1 := u32_pred shape.d1, d2 := u32_pred shape.d2,
    d3 := u32_pred shape.d3 }

/-- The shape an unpadding primitive is asked for by an index range `start .. end`. -/
def Shape.of_range (output_tensor_start output_tensor_end : Shape) : Shape :=
  { d0 := u32_extent output_tensor_start.d0 output_tensor_end.d0,
    d1 := u32_extent output_tensor_start.d1 output_tensor_end.d1,
    d2 := u32_extent output_tensor_start.d2 output_tensor_end.d2,
    d3 := u32_extent output_tensor_start.d3 output_tensor_end.d3 }

/-- A tensor as the negotiator sees it: logical shape (`get_shape()`), legacy shape
(`get_legacy_shape()`, the padded device shape), layout, storage location, memory placement
and the logical payload (the elements by logical index, whatever their physical
arrangement). -/
structure Tensor where
  shape : Shape
  legacy_shape : Shape
  layout : Layout
  storage_type : StorageType
  memory_config : MemoryConfig
  data : List Int
  deriving DecidableEq

/-- Modelled from the spec: `AutoFormat::legal_tile_shape` is declared in `auto_format.hpp`,
which is not among the sources; §4.1: "a shape is legal for tiled layout only if its last two
dimensions are each divisible by the tile height/width". -/
def legal_tile_shape (shape : Shape) : Bool :=
  shape.d2 % TILE_HEIGHT == 0 && shape.d3 % TILE_WIDTH == 0

/-- Modelled from the spec: `AutoFormat::legal_rm_shape` is declared in `auto_format.hpp`;
§4.1: "any shape is legal for row-major". -/
def legal_rm_shape (_shape : Shape) : Bool := true

/-- Modelled from the spec: `AutoFormat::legal_device_shape` is declared in `auto_format.hpp`;
legality of a shape for device placement in a layout is legality for that layout. -/
def legal_device_shape (shape : Shape) (layout : Layout) : Bool :=
  match layout with
  | Layout.ROW_MAJOR => legal_rm_shape shape
  | Layout.TILE => legal_tile_shape shape

/-! ## Primitives -/

/-- A request to one of the black-box primitives, with its non-tensor arguments in the order of
the call in the source. -/
inductive Prim where
  | data_transfer_to_device (device : Device) (mem_config : MemoryConfig)
  | data_transfer_to_host
  | tilize (mem_config : MemoryConfig)
  | untilize (mem_config : MemoryConfig)
  | pad (padded_shape : Shape) (input_tensor_start : Shape) (pad_value : PadValue)
      (mem_config : MemoryConfig)
  | tilize_with_val_padding (padded_shape : Shape) (pad_value : PadValue)
      (mem_config : MemoryConfig)
  | pad_on_host (padded_shape : Shape) (input_tensor_start : Shape) (pad_value : PadValue)
  | layout_conversion_on_host (target_layout : Layout)
  | unpad (output_tensor_start : Shape) (output_tensor_end : Shape) (mem_config : MemoryConfig)
  | untilize_with_unpadding (output_tensor_end : Shape) (mem_config : MemoryConfig)
  | unpad_on_host (output_tensor_start : Shape) (output_tensor_end : Shape)
  deriving DecidableEq

/-- An interpretation of the primitives: what each request returns on a tensor. -/
abbrev Primitives := Prim → Tensor → Tensor

/-- One entry of the call log: the request and the tensor it was applied to. -/
structure Call where
  prim : Prim
  operand : Tensor
  deriving DecidableEq

/-- A tensor value together with the primitive calls that produced it. -/
structure Traced where
  tensor : Tensor
  calls : List Call

/-- The tensor handed in by the caller: no primitive has been called. -/
def Traced.start (input : Tensor) : Traced := { tensor := input, calls := [] }

/-- Call a primitive on the current tensor and log the call. -/
def Traced.invoke (P : Primitives) (x : Traced) (c : Prim) : Traced :=
  { tensor := P c x.tensor, calls := x.calls ++ [{ prim := c, operand := x.tensor }] }

/-- The shape a request asks for, given the operand's shape. -/
def Prim.asked_shape : Prim → Shape → Shape
  | Prim.pad padded_shape _ _ _, _ => padded_shape
  | Prim.tilize_with_val_padding padded_shape _ _, _ => padded_shape
  | Prim.pad_on_host padded_shape _ _, _ => padded_shape
  | Prim.unpad s e _, _ => Shape.of_range s e
  | Prim.untilize_with_unpadding e _, _ => Shape.of_range Shape.zero e
  | Prim.unpad_on_host s e, _ => Shape.of_range s e
  | _, shape => shape

/-- The layout a request asks for, given the operand's layout. -/
def Prim.asked_layout : Prim → Layout → Layout
  | Prim.tilize _, _ => Layout.TILE
  | Prim.untilize _, _ => Layout.ROW_MAJOR
  | Prim.tilize_with_val_padding _ _ _, _ => Layout.TILE
  | Prim.layout_conversion_on_host target_layout, _ => target_layout
  | Prim.untilize_with_unpadding _ _, _ => Layout.ROW_MAJOR
  | _, layout => layout

/-- Where the result of a request lives: the two transfers move the tensor, the device
primitives return device tensors and the host primitives return host tensors. -/
def Prim.asked_storage : Prim → StorageType
  | Prim.data_transfer_to_host => StorageType.HOST
  | Prim.pad_on_host _ _ _ => StorageType.HOST
  | Prim.layout_conversion_on_host _ => StorageType.HOST
  | Prim.unpad_on_host _ _ => StorageType.HOST
  | _ => StorageType.DEVICE

/-- The contract assumed of the primitives: each one yields the shape and the layout it is
asked for and leaves the other of the two unchanged. -/
def PrimitivesOk (P : Primitives) : Prop :=
  ∀ (c : Prim) (t : Tensor),
    (P c t).legacy_shape = c.asked_shape t.legacy_shape ∧
    (P c t).layout = c.asked_layout t.layout

/-- The residency part of the contract: each primitive returns its result where it works. -/
def PrimitivesPlace (P : Primitives) : Prop :=
  ∀ (c : Prim) (t : Tensor), (P c t).storage_type = c.asked_storage

/-! ## `auto_format.cpp` -/

namespace AutoFormat

/-- `data_transfer_to_device(input, device, mem_config)`. -/
def data_transfer_to_device (P : Primitives) (input : Traced) (device : Device)
    (mem_config : MemoryConfig) : Traced :=
  input.invoke P (Prim.data_transfer_to_device device mem_config)

/-- `data_transfer_to_host(input)`. -/
def data_transfer_to_host (P : Primitives) (input : Traced) : Traced :=
  input.invoke P Prim.data_transfer_to_host

/-- `tilize(input, mem_config)`. -/
def tilize (P : Primitives) (input : Traced) (mem_config : MemoryConfig) : Traced :=
  input.invoke P (Prim.tilize mem_config)

/-- `untilize(input, mem_config)`. -/
def untilize (P : Primitives) (input : Traced) (mem_config : MemoryConfig) : Traced :=
  input.invoke P (Prim.untilize mem_config)

/-- `ttnn::pad(input, padded_shape, input_tensor_start, pad_value, mem_config)`. -/
def pad (P : Primitives) (input : Traced) (padded_shape input_tensor_start : Shape)
    (pad_value : PadValue) (mem_config : MemoryConfig) : Traced :=
  input.invoke P (Prim.pad padded_shape input_tensor_start pad_value mem_config)

/-- `tilize_with_val_padding(input, padded_shape, pad_value, mem_config)`. -/
def tilize_with_val_padding (P : Primitives) (input : Traced) (padded_shape : Shape)
    (pad_value : PadValue) (mem_config : MemoryConfig) : Traced :=
  input.invoke P (Prim.tilize_with_val_padding padded_shape pad_value mem_config)

/-- `pad_on_host(input, padded_shape, input_tensor_start, pad_value)`. -/
def pad_on_host (P : Primitives) (input : Traced) (padded_shape input_tensor_start : Shape)
    (pad_value : PadValue) : Traced :=
  input.invoke P (Prim.pad_on_host padded_shape input_tensor_start pad_value)

/-- `layout_conversion_on_host(input, target_layout)`. -/
def layout_conversion_on_host (P : Primitives) (input : Traced) (target_layout : Layout) :
    Traced :=
  input.invoke P (Prim.layout_conversion_on_host target_layout)

/-- `unpad(input, output_tensor_start, output_tensor_end, mem_config)`. -/
def unpad (P : Primitives) (input : Traced) (output_tensor_start output_tensor_end : Shape)
    (mem_config : MemoryConfig) : Traced :=
  input.invoke P (Prim.unpad output_tensor_start output_tensor_end mem_config)

/-- `untilize_with_unpadding(input, output_tensor_end, mem_config)`. -/
def untilize_with_unpadding (P : Primitives) (input : Traced) (output_tensor_end : Shape)
    (mem_config : MemoryConfig) : Traced :=
  input.invoke P (Prim.untilize_with_unpadding output_tensor_end mem_config)

/-- `unpad_on_host(input, output_tensor_start, output_tensor_end)`. -/
def unpad_on_host (P : Primitives) (input : Traced)
    (output_tensor_start output_tensor_end : Shape) : Traced :=
  input.invoke P (Prim.unpad_on_host output_tensor_start output_tensor_end)

/-- `AutoFormat::move_tensor_to_device` (lines 25-31). -/
def move_tensor_to_device (P : Primitives) (input : Traced) (device : Device)
    (mem_config : MemoryConfig) : Traced :=
  if input.tensor.storage_type ≠ StorageType.DEVICE then
    data_transfer_to_device P input device mem_config
  else
    input

/-- The memory configuration chosen at lines 75-80 and 138-143. -/
def select_mem_config (t : Tensor) (target_mem_config : Option MemoryConfig) : MemoryConfig :=
  match target_mem_config with
  | some m => m
  | none =>
    if t.storage_type = StorageType.DEVICE then t.memory_config
    else DEFAULT_OUTPUT_MEMORY_CONFIG

/-- The device-side conversions of `format_input_tensor` (lines 87-105): `some r` when the
branch returns `r`, `none` when control falls through to the host fallback. -/
def format_input_device_side (P : Primitives) (formatted_input : Traced) (padded_shape : Shape)
    (pad_value : PadValue) (target_layout : Layout) (pad_input convert_layout : Bool)
    (mem_config : MemoryConfig) : Option Traced :=
  if convert_layout && !pad_input then
    if target_layout = Layout.TILE ∧ formatted_input.tensor.layout = Layout.ROW_MAJOR then
      some (tilize P formatted_input mem_config)
    else if target_layout = Layout.ROW_MAJOR ∧ formatted_input.tensor.layout = Layout.TILE then
      some (untilize P formatted_input mem_config)
    else
      none
  else if !convert_layout && pad_input then
    if formatted_input.tensor.layout = Layout.ROW_MAJOR ∨
        formatted_input.tensor.layout = Layout.TILE then
      some (pad P formatted_input padded_shape Shape.zero pad_value mem_config)
    else
      none
  else if convert_layout && pad_input then
    if formatted_input.tensor.layout = Layout.ROW_MAJOR ∧ target_layout = Layout.TILE then
      some (tilize_with_val_padding P formatted_input padded_shape pad_value mem_config)
    else if formatted_input.tensor.layout = Layout.TILE ∧ target_layout = Layout.ROW_MAJOR then
      let formatted_input := untilize P formatted_input mem_config
      some (pad P formatted_input padded_shape Shape.zero pad_value mem_config)
    else
      none
  else
    none

/-- The host-side conversions of `format_input_tensor` and the final placement
(lines 110-123). -/
def format_input_host_side (P : Primitives) (formatted_input : Traced) (device : Device)
    (padded_shape : Shape) (pad_value : PadValue) (target_layout : Layout)
    (pad_input convert_layout : Bool) (mem_config : MemoryConfig) : Traced :=
  let padded : Traced × Bool :=
    if pad_input then
      let row_major : Traced × Bool :=
        if formatted_input.tensor.layout ≠ Layout.ROW_MAJOR then
          let converted := layout_conversion_on_host P formatted_input Layout.ROW_MAJOR
          (converted, decide (converted.tensor.layout ≠ target_layout))
        else
          (formatted_input, convert_layout)
      (pad_on_host P row_major.1 padded_shape Shape.zero pad_value, row_major.2)
    else
      (formatted_input, convert_layout)
  let formatted_input :=
    if padded.2 then layout_conversion_on_host P padded.1 target_layout else padded.1
  move_tensor_to_device P formatted_input device mem_config

/-- `AutoFormat::format_input_tensor` (lines 61-124).  The two-argument call of
`move_tensor_to_device` at line 72 takes the default memory configuration. -/
def format_input_tensor (P : Primitives) (input : Tensor) (device : Device)
    (padded_shape : Shape) (pad_value : PadValue) (target_layout : Layout)
    (target_mem_config : Option MemoryConfig) : Traced :=
  let pad_input : Bool := decide (input.legacy_shape ≠ padded_shape)
  let convert_layout : Bool := decide (input.layout ≠ target_layout)
  if !pad_input && !convert_layout then
    move_tensor_to_device P (Traced.start input) device DEFAULT_OUTPUT_MEMORY_CONFIG
  else
    let mem_config := select_mem_config input target_mem_config
    let formatted_input := Traced.start input
    if formatted_input.tensor.storage_type = StorageType.DEVICE then
      match format_input_device_side P formatted_input padded_shape pad_value target_layout
          pad_input convert_layout mem_config with
      | some result => result
      | none =>
        format_input_host_side P (data_transfer_to_host P formatted_input) device padded_shape
          pad_value target_layout pad_input convert_layout mem_config
    else
      format_input_host_side P formatted_input device padded_shape pad_value target_layout
        pad_input convert_layout mem_config

/-- The device shape requested at lines 51-56: the first two dimensions as they are, the
last two rounded up to the next multiple of the tile dimension when they are not one already
(`uint32_t` arithmetic). -/
def new_device_shape (device_shape : Shape) : Shape :=
  { d0 := device_shape.d0,
    d1 := device_shape.d1,
    d2 := if device_shape.d2 % TILE_HEIGHT ≠ 0 then
        ((device_shape.d2 / TILE_HEIGHT + 1) * TILE_HEIGHT) % U32
      else device_shape.d2,
    d3 := if device_shape.d3 % TILE_WIDTH ≠ 0 then
        ((device_shape.d3 / TILE_WIDTH + 1) * TILE_WIDTH) % U32
      else device_shape.d3 }

/-- The logical shape requested at line 50: the four dimensions of `get_shape()`. -/
def new_intended_shape (intended_shape : Shape) : Shape :=
  { d0 := intended_shape.d0, d1 := intended_shape.d1, d2 := intended_shape.d2,
    d3 := intended_shape.d3 }

/-- `AutoFormat::move_tensor_to_device_and_pad` (lines 47-59).  The shape built at line 57
carries the logical dimensions next to the device dimensions; `format_input_tensor` compares
and pads by the device dimensions. -/
def move_tensor_to_device_and_pad (P : Primitives) (input : Tensor) (device : Device)
    (target_layout : Layout) (target_mem_config : Option MemoryConfig) : Traced :=
  let intended_shape := input.shape
  let device_shape := input.legacy_shape
  let new_shape : Shape × Shape :=
    (new_intended_shape intended_shape, new_device_shape device_shape)
  format_input_tensor P input device new_shape.2 0 target_layout target_mem_config

/-- The device-side conversions of `format_output_tensor` (lines 147-197): `some r` when the
branch returns `r`, `none` when control falls through to the host fallback. -/
def format_output_device_side (P : Primitives) (formatted_output : Traced) (shape : Shape)
    (target_layout : Layout) (unpad_output convert_layout : Bool) (mem_config : MemoryConfig) :
    Option Traced :=
  if !unpad_output && convert_layout then
    if target_layout = Layout.TILE ∧ formatted_output.tensor.layout = Layout.ROW_MAJOR then
      if legal_tile_shape formatted_output.tensor.legacy_shape then
        some (tilize P formatted_output mem_config)
      else
        some formatted_output
    else if target_layout = Layout.ROW_MAJOR ∧
        formatted_output.tensor.layout = Layout.TILE then
      some (untilize P formatted_output mem_config)
    else
      none
  else if unpad_output && !convert_layout then
    if (formatted_output.tensor.layout = Layout.TILE ∧ legal_tile_shape shape) ∨
        (formatted_output.tensor.layout = Layout.ROW_MAJOR ∧ legal_rm_shape shape) then
      some (unpad P formatted_output Shape.zero shape.last_index mem_config)
    else if formatted_output.tensor.layout = Layout.TILE ∧ legal_rm_shape shape then
      some (untilize_with_unpadding P formatted_output shape.last_index mem_config)
    else
      none
  else if unpad_output && convert_layout then
    if formatted_output.tensor.layout = Layout.TILE ∧ target_layout = Layout.ROW_MAJOR ∧
        legal_rm_shape shape then
      some (untilize_with_unpadding P formatted_output shape.last_index mem_config)
    else if formatted_output.tensor.layout = Layout.ROW_MAJOR ∧ target_layout = Layout.TILE ∧
        legal_tile_shape shape then
      let formatted_output := unpad P formatted_output Shape.zero shape.last_index mem_config
      some (tilize P formatted_output mem_config)
    else
      none
  else
    none

/-- The host-side conversions of `format_output_tensor` and the final placement
(lines 202-232). -/
def format_output_host_side (P : Primitives) (formatted_output : Traced) (shape : Shape)
    (device : Device) (target_layout : Layout) (unpad_output convert_layout : Bool)
    (mem_config : MemoryConfig) : Traced :=
  let unpadded : Traced × Bool :=
    if unpad_output then
      let row_major : Traced × Bool :=
        if formatted_output.tensor.layout ≠ Layout.ROW_MAJOR then
          let converted := layout_conversion_on_host P formatted_output Layout.ROW_MAJOR
          (converted, decide (converted.tensor.layout ≠ target_layout))
        else
          (formatted_output, convert_layout)
      (unpad_on_host P row_major.1 Shape.zero shape.last_index, row_major.2)
    else
      (formatted_output, convert_layout)
  let formatted_output :=
    if unpadded.2 then
      if target_layout = Layout.TILE ∧ ¬ legal_tile_shape unpadded.1.tensor.legacy_shape then
        if unpadded.1.tensor.layout ≠ Layout.ROW_MAJOR then
          layout_conversion_on_host P unpadded.1 Layout.ROW_MAJOR
        else
          unpadded.1
      else
        layout_conversion_on_host P unpadded.1 target_layout
    else
      unpadded.1
  if formatted_output.tensor.storage_type ≠ StorageType.DEVICE then
    if legal_device_shape formatted_output.tensor.legacy_shape formatted_output.tensor.layout then
      move_tensor_to_device P formatted_output device mem_config
    else
      formatted_output
  else
    formatted_output

/-- `AutoFormat::format_output_tensor` (lines 126-233). -/
def format_output_tensor (P : Primitives) (output : Tensor) (shape : Shape) (device : Device)
    (target_layout : Layout) (target_mem_config : Option MemoryConfig) : Traced :=
  let unpad_output : Bool := decide (output.legacy_shape ≠ shape)
  let convert_layout : Bool := decide (output.layout ≠ target_layout)
  if !unpad_output && !convert_layout then
    Traced.start output
  else
    let mem_config := select_mem_config output target_mem_config
    let formatted_output := Traced.start output
    if formatted_output.tensor.storage_type = StorageType.DEVICE then
      match format_output_device_side P formatted_output shape target_layout unpad_output
          convert_layout mem_config with
      | some result => result
      | none =>
        format_output_host_side P (data_transfer_to_host P formatted_output) shape device
          target_layout unpad_output convert_layout mem_config
    else
      format_output_host_side P formatted_output shape device target_layout unpad_output
        convert_layout mem_config

end AutoFormat

/-! ## A reference interpretation of the primitives -/

/-- Number of elements of a shape. -/
def Shape.volume (s : Shape) : Nat := s.d0 * s.d1 * s.d2 * s.d3

/-- What padding and unpadding do to the logical payload: `pad s p v d` pads a payload `d` of
shape `s` to shape `p` with the value `v`; `unpad p s d` cuts a payload of shape `p` back to
shape `s`. -/
structure PayloadOps where
  pad : Shape → Shape → PadValue → List Int → List Int
  unpad : Shape → Shape → List Int → List Int

/-- The payload a request asks for, given the operand's shape and payload: the padding
primitives pad it, the unpadding primitives cut it, the layout conversions and the transfers
leave the logical payload as it is. -/
def Prim.asked_data (D : PayloadOps) : Prim → Shape → List Int → List Int
  | Prim.pad padded_shape _ pad_value _, s, d => D.pad s padded_shape pad_value d
  | Prim.tilize_with_val_padding padded_shape pad_value _, s, d =>
    D.pad s padded_shape pad_value d
  | Prim.pad_on_host padded_shape _ pad_value, s, d => D.pad s padded_shape pad_value d
  | Prim.unpad st e _, s, d => D.unpad s (Shape.of_range st e) d
  | Prim.untilize_with_unpadding e _, s, d => D.unpad s (Shape.of_range Shape.zero e) d
  | Prim.unpad_on_host st e, s, d => D.unpad s (Shape.of_range st e) d
  | _, _, d => d

/-- The payload part of the contract of the primitives. -/
def PrimitivesPayload (D : PayloadOps) (P : Primitives) : Prop :=
  ∀ (c : Prim) (t : Tensor), (P c t).data = c.asked_data D t.legacy_shape t.data

/-- Unpad-after-pad is the identity on payloads. -/
def PayloadOps.unpad_pad (D : PayloadOps) : Prop :=
  ∀ (s p : Shape) (v : PadValue) (d : List Int), s.le p → D.unpad p s (D.pad s p v d) = d

/-- The memory configuration of the result of a request: the one passed, if one is passed. -/
def Prim.asked_mem_config : Prim → MemoryConfig → MemoryConfig
  | Prim.data_transfer_to_device _ m, _ => m
  | Prim.tilize m, _ => m
  | Prim.untilize m, _ => m
  | Prim.pad _ _ _ m, _ => m
  | Prim.tilize_with_val_padding _ _ m, _ => m
  | Prim.unpad _ _ m, _ => m
  | Prim.untilize_with_unpadding _ m, _ => m
  | _, m => m

/-- A reference payload semantics on the flat element list: padding appends the pad value up
to the padded volume, unpadding drops as many elements from the end. -/
def reference_payload : PayloadOps :=
  { pad := fun s p v d => d ++ List.replicate (p.volume - s.volume) v,
    unpad := fun p s d => d.take (d.length - (p.volume - s.volume)) }

/-- A reference interpretation: every primitive returns exactly what it is asked for. -/
def reference_primitives : Primitives := fun c t =>
  { shape := t.shape,
    legacy_shape := c.asked_shape t.legacy_shape,
    layout := c.asked_layout t.layout,
    storage_type := c.asked_storage,
    memory_config := c.asked_mem_config t.memory_config,
    data := c.asked_data reference_payload t.legacy_shape t.data }

/-- The L1 interleaved memory configuration used in the examples. -/
def L1_MEMORY_CONFIG : MemoryConfig :=
  { memory_layout := TensorMemoryLayout.INTERLEAVED, buffer_type := BufferType.L1 }

end tt_metal

/-! ## `unary_program_factory_sharded.hpp` -/

namespace ttnn.operations.unary

open tt_metal

/-- Modelled from the spec: a core of the grid. -/
structure CoreCoord where
  x : Nat
  y : Nat
  deriving DecidableEq

/-- Modelled from the spec: a rectangle of cores, corners included. -/
structure CoreRange where
  start_coord : CoreCoord
  end_coord : CoreCoord
  deriving DecidableEq

/-- Number of cores of a rectangle. -/
def CoreRange.size (r : CoreRange) : Nat :=
  (r.end_coord.x - r.start_coord.x + 1) * (r.end_coord.y - r.start_coord.y + 1)

/-- Modelled from the spec: a core grid, "the set of compute cores a sharded tensor spans",
as a list of core rectangles. -/
abbrev CoreRangeSet := List CoreRange

/-- Modelled from the spec: the shard spec, "a core grid plus the per-shard shape"
(`shape[0]` the shard height, `shape[1]` the shard width, both `uint32_t`). -/
structure ShardSpec where
  grid : CoreRangeSet
  shape : Nat × Nat
  deriving DecidableEq

/-- The core count of a shard spec: the number of cores of its grid. -/
def ShardSpec.num_cores (s : ShardSpec) : Nat := (s.grid.map CoreRange.size).sum

/-- Modelled from the spec: the data type of a tensor, "including compressed block formats";
`BFLOAT8_B` is the one the factory names. -/
inductive DataType where
  | BFLOAT16
  | FLOAT32
  | UINT32
  | BFLOAT8_B
  | BFLOAT4_B
  deriving DecidableEq

/-- Modelled from the spec: the device data format a data type is stored in. -/
inductive DataFormat where
  | Float16_b
  | Float32
  | UInt32
  | Bfp8_b
  | Bfp4_b
  deriving DecidableEq

/-- Modelled from the spec: the buffer handle of a device tensor, with its address and the
placement it answers to the "per-buffer placement query (bulk vs core-local)". -/
structure Buffer where
  address : Nat
  buffer_type : BufferType
  deriving DecidableEq

/-- The device-resident sharded tensor `unary_sharded` is given: what the factory reads of it
through `get_dtype()`, `shard_spec().value()` and `buffer()`. -/
structure DeviceTensor where
  dtype : DataType
  shard_spec : ShardSpec
  buffer : Buffer
  deriving DecidableEq

/-- An operation kind of the op-chain (an enumerator, uninterpreted). -/
abbrev UnaryOpType := Nat

/-- One entry of the op-chain: the operation and its parameters. -/
structure UnaryWithParam where
  op_type : UnaryOpType
  params : List Int
  deriving DecidableEq

/-- What the factory takes from code outside the sources given: the data-format tables
(`datatype_to_dataformat_converter`, `detail::TileSize`, `datum_size`), the constant
`L1_ALIGNMENT`, the staging-resource identifiers `tt::CB::c_in0` and `tt::CB::c_out0`, and the
op-chain helpers `utils::get_op_approx_mode` and `utils::get_block_defines`. -/
structure Externals where
  datatype_to_dataformat_converter : DataType → DataFormat
  TileSize : DataFormat → Nat
  datum_size : DataFormat → Nat
  L1_ALIGNMENT : Nat
  c_in0 : Nat
  c_out0 : Nat
  get_op_approx_mode : UnaryOpType → Bool
  get_block_defines : List UnaryWithParam → List (String × String)

/-- The tables hold `uint32_t` values, the tile sizes and the alignment are not zero. -/
def Externals.ok (E : Externals) : Prop :=
  (∀ df, 0 < E.TileSize df ∧ E.TileSize df < U32 ∧ E.datum_size df < U32) ∧
  0 < E.L1_ALIGNMENT ∧ E.L1_ALIGNMENT < U32

/-- Modelled from the spec: `round_up_to_mul16` is declared outside the sources given;
"shard row width is rounded up to an alignment boundary". -/
def round_up_to_mul16 (val : Nat) : Nat := (val + 15) / 16 * 16

/-- Modelled from the spec: `round_up_to_mul32` is declared outside the sources given;
"tile byte size, rounded up to a page-alignment boundary". -/
def round_up_to_mul32 (val : Nat) : Nat := (val + 31) / 32 * 32

/-- The number of low bits of a `uint32_t` value `n ≥ 2^24` that a 24-bit significand cannot
hold: the bit length of `n` less 24. -/
def float_shift (n : Nat) : Nat :=
  if n < 33554432 then 1
  else if n < 67108864 then 2
  else if n < 134217728 then 3
  else if n < 268435456 then 4
  else if n < 536870912 then 5
  else if n < 1073741824 then 6
  else if n < 2147483648 then 7
  else 8

/-- The conversion of a `uint32_t` to `float`: the nearest value with a 24-bit significand,
ties to the even significand.  The result is an integer and is returned as such. -/
def float_of_u32 (n : Nat) : Nat :=
  if n < 16777216 then n
  else
    let shift := float_shift n
    let q := n / 2 ^ shift
    let r := n % 2 ^ shift
    let half := 2 ^ (shift - 1)
    let q := if half < r ∨ (r = half ∧ q % 2 = 1) then q + 1 else q
    q * 2 ^ shift

/-- The expression `ceil(x / (float) tile)` stored into a `uint32_t`, for a tile dimension that
is a power of two (the division of a float by it is then exact). -/
def ceil_div_float (x tile : Nat) : Nat := ((float_of_u32 x + (tile - 1)) / tile) % U32

/-- A fatal failure: a `TT_FATAL` with its message format and the values it formats, or the
`std::out_of_range` of `vector::at`. -/
inductive Failure where
  | fatal (message : String) (args : List Nat)
  | out_of_range
  deriving DecidableEq

/-- Modelled from the spec: the configuration of a staging resource (circular buffer): total
size, the data format and page size given per resource identifier, and the address of the
tensor buffer it is overlaid on. -/
structure CircularBufferConfig where
  total_size : Nat
  data_format_spec : List (Nat × DataFormat)
  page_sizes : List (Nat × Nat)
  globally_allocated_address : Option Nat
  deriving DecidableEq

/-- `CircularBufferConfig(total_size, data_format_spec)`. -/
def CircularBufferConfig.create (total_size : Nat) (data_format_spec : List (Nat × DataFormat)) :
    CircularBufferConfig :=
  { total_size := total_size, data_format_spec := data_format_spec, page_sizes := [],
    globally_allocated_address := none }

/-- `set_page_size(buffer_index, page_size)`. -/
def CircularBufferConfig.set_page_size (c : CircularBufferConfig) (buffer_index page_size : Nat) :
    CircularBufferConfig :=
  { c with page_sizes := c.page_sizes ++ [(buffer_index, page_size)] }

/-- `set_globally_allocated_address(buffer)`: overlay the resource on the buffer. -/
def CircularBufferConfig.set_globally_allocated_address (c : CircularBufferConfig)
    (buffer : Buffer) : CircularBufferConfig :=
  { c with globally_allocated_address := some buffer.address }

/-- A staging resource of a program: its core set and its configuration. -/
structure CircularBuffer where
  core_ranges : CoreRangeSet
  config : CircularBufferConfig
  deriving DecidableEq

/-- The math fidelity of a compute task. -/
inductive MathFidelity where
  | LoFi
  | HiFi2
  | HiFi3
  | HiFi4
  deriving DecidableEq

/-- `ReaderDataMovementConfig(compile_args, defines)`. -/
structure ReaderDataMovementConfig where
  compile_args : List Nat
  defines : List (String × String)
  deriving DecidableEq

/-- The fields of `ComputeConfig` the factory sets. -/
structure ComputeConfig where
  math_fidelity : MathFidelity
  fp32_dest_acc_en : Bool
  preserve_fp32_precision : Bool
  math_approx_mode : Bool
  compile_args : List Nat
  defines : List (String × String)
  deriving DecidableEq

/-- The configuration of a kernel task, by role. -/
inductive KernelConfig where
  | reader (config : ReaderDataMovementConfig)
  | compute (config : ComputeConfig)
  deriving DecidableEq

/-- A kernel task: the kernel source, the target core set and the configuration with the
compile-time arguments. -/
structure Kernel where
  file_name : String
  core_spec : CoreRangeSet
  config : KernelConfig
  deriving DecidableEq

/-- The runtime arguments set for a kernel on a core set. -/
structure RuntimeArgs where
  kernel : Nat
  core_spec : CoreRangeSet
  args : List Nat
  deriving DecidableEq

/-- Modelled from the spec: a program, the kernel tasks with their runtime arguments and the
staging resources they use.  Handles are positions in the lists. -/
structure Program where
  circular_buffers : List CircularBuffer
  kernels : List Kernel
  runtime_args : List RuntimeArgs
  deriving DecidableEq

/-- `CreateProgram()`. -/
def CreateProgram : Program := { circular_buffers := [], kernels := [], runtime_args := [] }

/-- `CreateCircularBuffer(program, core_spec, config)`: adds the resource and returns its
handle. -/
def CreateCircularBuffer (program : Program) (core_spec : CoreRangeSet)
    (config : CircularBufferConfig) : Program × Nat :=
  ({ program with
      circular_buffers := program.circular_buffers ++ [{ core_ranges := core_spec, config := config }] },
    program.circular_buffers.length)

/-- `CreateKernel(program, file_name, core_spec, config)`: adds the task and returns its
handle. -/
def CreateKernel (program : Program) (file_name : String) (core_spec : CoreRangeSet)
    (config : KernelConfig) : Program × Nat :=
  ({ program with
      kernels := program.kernels ++ [{ file_name := file_name, core_spec := core_spec, config := config }] },
    program.kernels.length)

/-- `SetRuntimeArgs(program, kernel_id, core_spec, runtime_args)`. -/
def SetRuntimeArgs (program : Program) (kernel_id : Nat) (core_spec : CoreRangeSet)
    (runtime_args : List Nat) : Program :=
  { program with
      runtime_args := program.runtime_args ++
        [{ kernel := kernel_id, core_spec := core_spec, args := runtime_args }] }

/-- Modelled from the spec: `UpdateDynamicCircularBufferAddress(program, cb_handle, buffer)`
rewrites the backing address of the staging resource `cb_handle` to the buffer's address. -/
def UpdateDynamicCircularBufferAddress (program : Program) (cb_handle : Nat) (buffer : Buffer) :
    Program :=
  { program with
      circular_buffers := program.circular_buffers.modify
        (fun cb => { cb with config := cb.config.set_globally_allocated_address buffer })
        cb_handle }

/-- `vector::at(0)`. -/
def at0 (tensors : List DeviceTensor) : Except Failure DeviceTensor :=
  match tensors with
  | [] => Except.error Failure.out_of_range
  | t :: _ => Except.ok t

/-- The lambda `override_runtime_args_callback` (lines 133-143) with its captures
`unary_reader_kernel_id`, `cb_src0` and `out_cb`; the program is passed by reference and is
returned updated. -/
def override_runtime_args_callback (_unary_reader_kernel_id cb_src0 out_cb : Nat)
    (program : Program) (input_tensors : List DeviceTensor)
    (_optional_input_tensors : List (Option DeviceTensor)) (output_tensors : List DeviceTensor) :
    Except Failure Program :=
  match at0 input_tensors with
  | Except.error e => Except.error e
  | Except.ok input0 =>
    let src_buffer := input0.buffer
    match at0 output_tensors with
    | Except.error e => Except.error e
    | Except.ok output0 =>
      let dst_buffer := output0.buffer
      let program := UpdateDynamicCircularBufferAddress program cb_src0 src_buffer
      let program := UpdateDynamicCircularBufferAddress program out_cb dst_buffer
      Except.ok program

/-- The result `operation::ProgramWithCallbacks`: the program and the override callback. -/
structure ProgramWithCallbacks where
  program : Program
  override_runtime_arguments_callback :
    Program → List DeviceTensor → List (Option DeviceTensor) → List DeviceTensor →
      Except Failure Program

/-- The computation of `num_tile_per_core` (lines 43-59) for the input shard spec, the input
data type, its data format and the input tile size. -/
def num_tile_per_core (E : Externals) (shard_spec : ShardSpec) (dtype : DataType)
    (act_df : DataFormat) (input_tile_size : Nat) : Except Failure Nat :=
  if dtype = DataType.BFLOAT8_B then
    let ntiles_along_width := ceil_div_float shard_spec.shape.2 TILE_WIDTH
    let ntiles_along_height := ceil_div_float shard_spec.shape.1 TILE_HEIGHT
    Except.ok ((ntiles_along_width * ntiles_along_height) % U32)
  else if ¬ ((shard_spec.shape.2 * E.datum_size act_df) % U32) % E.L1_ALIGNMENT = 0 then
    Except.error (Failure.fatal "Shard width should be multiple of L1_ADRESS_ALIGNMENT" [])
  else
    let shard_height := shard_spec.shape.1 % U64
    let shard_width := round_up_to_mul16 shard_spec.shape.2 % U64
    let shard_size_in_bytes := (shard_height * shard_width * E.datum_size act_df) % U64
    if ¬ shard_size_in_bytes % input_tile_size = 0 then
      Except.error (Failure.fatal "Shard Size must be multiple of input_tile_size" [])
    else
      Except.ok ((((shard_size_in_bytes + input_tile_size - 1) % U64) / input_tile_size) % U32)

/-- The part of `unary_sharded` after the tile count is known (lines 61-145). -/
def unary_sharded_build (E : Externals) (input output : DeviceTensor)
    (op_chain : List UnaryWithParam) (fp32_dest_acc_en preserve_fp32_precision : Bool)
    (program : Program) (all_cores : CoreRangeSet) (act_df out_df : DataFormat)
    (input_tile_size num_tile_per_core : Nat) : Except Failure ProgramWithCallbacks :=
  let in_cb_id := E.c_in0
  let buffering_factor := 1
  let aligned_input_tile_nbytes := round_up_to_mul32 input_tile_size % U32
  let in_cb_pagesize := aligned_input_tile_nbytes
  let in_cb_npages := (num_tile_per_core * buffering_factor) % U32
  let cb_src0_config :=
    ((CircularBufferConfig.create ((in_cb_pagesize * in_cb_npages) % U32) [(in_cb_id, act_df)]
      ).set_page_size in_cb_id in_cb_pagesize).set_globally_allocated_address input.buffer
  let created := CreateCircularBuffer program all_cores cb_src0_config
  let program := created.1
  let cb_src0 := created.2
  let out_cb_id := E.c_out0
  let out_cb_config :=
    ((CircularBufferConfig.create ((in_cb_pagesize * in_cb_npages) % U32) [(out_cb_id, out_df)]
      ).set_page_size out_cb_id in_cb_pagesize).set_globally_allocated_address output.buffer
  let created := CreateCircularBuffer program all_cores out_cb_config
  let program := created.1
  let out_cb := created.2
  let src_buffer := input.buffer
  let dst_buffer := output.buffer
  let src_is_dram : Bool := if src_buffer.buffer_type = BufferType.DRAM then true else false
  if src_is_dram ≠ false then
    Except.error (Failure.fatal "Input buffer should be in L1" [])
  else
    let reader_compile_time_args := [in_cb_id]
    let dst_is_dram : Bool := if dst_buffer.buffer_type = BufferType.DRAM then true else false
    if dst_is_dram ≠ false then
      Except.error (Failure.fatal "Output buffer should be in L1" [])
    else
      let kernel_defines : List (String × String) := []
      let created := CreateKernel program
        "ttnn/cpp/ttnn/operations/eltwise/unary/device/kernels/dataflow/reader_unary_sharded.cpp"
        all_cores
        (KernelConfig.reader
          { compile_args := reader_compile_time_args, defines := kernel_defines })
      let program := created.1
      let unary_reader_kernel_id := created.2
      let compute_kernel_args_group_1 := [1, num_tile_per_core]
      let math_approx_mode := op_chain.all (fun u => E.get_op_approx_mode u.op_type)
      let unary_defines := E.get_block_defines op_chain
      let created := CreateKernel program "tt_metal/kernels/compute/eltwise_sfpu.cpp" all_cores
        (KernelConfig.compute
          { math_fidelity := MathFidelity.HiFi4,
            fp32_dest_acc_en := fp32_dest_acc_en,
            preserve_fp32_precision := preserve_fp32_precision,
            math_approx_mode := math_approx_mode,
            compile_args := compute_kernel_args_group_1,
            defines := unary_defines })
      let program := created.1
      let program := SetRuntimeArgs program unary_reader_kernel_id all_cores [num_tile_per_core]
      Except.ok
        { program := program,
          override_runtime_arguments_callback :=
            override_runtime_args_callback unary_reader_kernel_id cb_src0 out_cb }

/-- The function `unary_sharded` (lines 19-146). -/
def unary_sharded (E : Externals) (input output : DeviceTensor)
    (op_chain : List UnaryWithParam) (fp32_dest_acc_en preserve_fp32_precision : Bool) :
    Except Failure ProgramWithCallbacks :=
  let program := CreateProgram
  let shard_spec := input.shard_spec
  let all_cores := shard_spec.grid
  let ncores := shard_spec.num_cores
  let out_shard_spec := output.shard_spec
  if ¬ out_shard_spec.num_cores = ncores then
    Except.error (Failure.fatal
      "Output tensor should have same number of cores \x7b\x7d as input tensor \x7b\x7d"
      [out_shard_spec.num_cores, ncores])
  else
    let act_df := E.datatype_to_dataformat_converter input.dtype
    let out_df := E.datatype_to_dataformat_converter output.dtype
    let input_tile_size := E.TileSize act_df
    let output_tile_size := E.TileSize out_df
    if ¬ input_tile_size = output_tile_size then
      Except.error (Failure.fatal "Input and output tile size should be same" [])
    else
      match num_tile_per_core E shard_spec input.dtype act_df input_tile_size with
      | Except.error e => Except.error e
      | Except.ok n =>
        unary_sharded_build E input output op_chain fp32_dest_acc_en preserve_fp32_precision
          program all_cores act_df out_df input_tile_size n

/-- Example tables: bfloat16 and float32 tiles of 32 x 32 elements of 2 and 4 bytes, block
formats of 1088 and 576 bytes per tile, 16-byte L1 alignment. -/
def example_externals : Externals :=
  { datatype_to_dataformat_converter := fun d =>
      match d with
      | DataType.BFLOAT16 => DataFormat.Float16_b
      | DataType.FLOAT32 => DataFormat.Float32
      | DataType.UINT32 => DataFormat.UInt32
      | DataType.BFLOAT8_B => DataFormat.Bfp8_b
      | DataType.BFLOAT4_B => DataFormat.Bfp4_b,
    TileSize := fun df =>
      match df with
      | DataFormat.Float16_b => 2048
      | DataFormat.Float32 => 4096
      | DataFormat.UInt32 => 4096
      | DataFormat.Bfp8_b => 1088
      | DataFormat.Bfp4_b => 576,
    datum_size := fun df =>
      match df with
      | DataFormat.Float16_b => 2
      | DataFormat.Float32 => 4
      | DataFormat.UInt32 => 4
      | DataFormat.Bfp8_b => 1
      | DataFormat.Bfp4_b => 1,
    L1_ALIGNMENT := 16,
    c_in0 := 0,
    c_out0 := 16,
    get_op_approx_mode := fun _ => false,
    get_block_defines := fun _ => [] }

end ttnn.operations.unary

/-! ## The program built by the factory, and example tensors -/

namespace ttnn.operations.unary

open tt_metal

/-- A staging resource with its backing address blanked, to compare resources up to their
addresses. -/
def CircularBuffer.without_address (cb : CircularBuffer) : CircularBuffer :=
  { cb with config := { cb.config with globally_allocated_address := none } }

/-- The program `unary_sharded` builds when the per-core tile count is `n`, written out: the
input and the output staging resource, the data-supply and the compute task, and the runtime
arguments of the data-supply task. -/
def built_program (E : Externals) (input output : DeviceTensor) (op_chain : List UnaryWithParam)
    (fp32_dest_acc_en preserve_fp32_precision : Bool) (n : Nat) : Program :=
  let act_df := E.datatype_to_dataformat_converter input.dtype
  let out_df := E.datatype_to_dataformat_converter output.dtype
  let pagesize := round_up_to_mul32 (E.TileSize act_df) % U32
  let npages := (n * 1) % U32
  { circular_buffers :=
      [{ core_ranges := input.shard_spec.grid,
         config :=
          { total_size := (pagesize * npages) % U32,
            data_format_spec := [(E.c_in0, act_df)],
            page_sizes := [(E.c_in0, pagesize)],
            globally_allocated_address := some input.buffer.address } },
       { core_ranges := input.shard_spec.grid,
         config :=
          { total_size := (pagesize * npages) % U32,
            data_format_spec := [(E.c_out0, out_df)],
            page_sizes := [(E.c_out0, pagesize)],
            globally_allocated_address := some output.buffer.address } }],
    kernels :=
      [{ file_name :=
          "ttnn/cpp/ttnn/operations/eltwise/unary/device/kernels/dataflow/reader_unary_sharded.cpp",
         core_spec := input.shard_spec.grid,
         config := KernelConfig.reader { compile_args := [E.c_in0], defines := [] } },
       { file_name := "tt_metal/kernels/compute/eltwise_sfpu.cpp",
         core_spec := input.shard_spec.grid,
         config := KernelConfig.compute
          { math_fidelity := MathFidelity.HiFi4,
            fp32_dest_acc_en := fp32_dest_acc_en,
            preserve_fp32_precision := preserve_fp32_precision,
            math_approx_mode := op_chain.all (fun u => E.get_op_approx_mode u.op_type),
            compile_args := [1, n],
            defines := E.get_block_defines op_chain } }],
    runtime_args := [{ kernel := 0, core_spec := input.shard_spec.grid, args := [n] }] }

/-- A grid of one core. -/
def grid_1 : CoreRangeSet :=
  [{ start_coord := { x := 0, y := 0 }, end_coord := { x := 0, y := 0 } }]

/-- A grid of three cores. -/
def grid_3 : CoreRangeSet :=
  [{ start_coord := { x := 0, y := 0 }, end_coord := { x := 2, y := 0 } }]

/-- A grid of four cores. -/
def grid_4 : CoreRangeSet :=
  [{ start_coord := { x := 0, y := 0 }, end_coord := { x := 3, y := 0 } }]

/-- A bfloat16 input on four cores, shards of 32 x 32 elements, core-local buffer. -/
def example_input_4 : DeviceTensor :=
  { dtype := DataType.BFLOAT16, shard_spec := { grid := grid_4, shape := (32, 32) },
    buffer := { address := 4096, buffer_type := BufferType.L1 } }

/-- A bfloat16 output on four cores, shards of 32 x 32 elements, core-local buffer. -/
def example_output_4 : DeviceTensor :=
  { dtype := DataType.BFLOAT16, shard_spec := { grid := grid_4, shape := (32, 32) },
    buffer := { address := 8192, buffer_type := BufferType.L1 } }

/-- The same output on three cores. -/
def example_output_3 : DeviceTensor :=
  { dtype := DataType.BFLOAT16, shard_spec := { grid := grid_3, shape := (32, 32) },
    buffer := { address := 8192, buffer_type := BufferType.L1 } }

/-- The four-core input in another buffer. -/
def example_input_moved : DeviceTensor :=
  { dtype := DataType.BFLOAT16, shard_spec := { grid := grid_4, shape := (32, 32) },
    buffer := { address := 65536, buffer_type := BufferType.L1 } }

/-- The four-core output in another buffer. -/
def example_output_moved : DeviceTensor :=
  { dtype := DataType.BFLOAT16, shard_spec := { grid := grid_4, shape := (32, 32) },
    buffer := { address := 131072, buffer_type := BufferType.L1 } }

/-- A bfloat16 input with shards of 64 rows of 4 elements: 8 bytes per row. -/
def example_input_64x4 : DeviceTensor :=
  { dtype := DataType.BFLOAT16, shard_spec := { grid := grid_4, shape := (64, 4) },
    buffer := { address := 4096, buffer_type := BufferType.L1 } }

/-- The output that goes with `example_input_64x4`. -/
def example_output_64x4 : DeviceTensor :=
  { dtype := DataType.BFLOAT16, shard_spec := { grid := grid_4, shape := (64, 4) },
    buffer := { address := 8192, buffer_type := BufferType.L1 } }

/-- A bfloat16 input whose shard has `2^22` rows of `2^21` elements: `2^33` tiles. -/
def example_input_huge : DeviceTensor :=
  { dtype := DataType.BFLOAT16, shard_spec := { grid := grid_1, shape := (4194304, 2097152) },
    buffer := { address := 4096, buffer_type := BufferType.L1 } }

/-- The output that goes with `example_input_huge`. -/
def example_output_huge : DeviceTensor :=
  { dtype := DataType.BFLOAT16, shard_spec := { grid := grid_1, shape := (4194304, 2097152) },
    buffer := { address := 8192, buffer_type := BufferType.L1 } }

/-- A `BFLOAT8_B` input whose shard has 32 rows of `2^24 + 1` elements. -/
def example_input_block : DeviceTensor :=
  { dtype := DataType.BFLOAT8_B, shard_spec := { grid := grid_1, shape := (32, 16777217) },
    buffer := { address := 4096, buffer_type := BufferType.L1 } }

/-- The output that goes with `example_input_block`. -/
def example_output_block : DeviceTensor :=
  { dtype := DataType.BFLOAT8_B, shard_spec := { grid := grid_1, shape := (32, 16777217) },
    buffer := { address := 8192, buffer_type := BufferType.L1 } }

/-- The plan for `example_input_4` and `example_output_4`: one tile per core. -/
def example_plan : ProgramWithCallbacks :=
  { program := built_program example_externals example_input_4 example_output_4 [] false false 1,
    override_runtime_arguments_callback := override_runtime_args_callback 0 0 1 }

/-- The approximate-evaluation flag of a kernel task: compute tasks have one. -/
def Kernel.math_approx_mode (k : Kernel) : Option Bool :=
  match k.config with
  | KernelConfig.compute config => some config.math_approx_mode
  | KernelConfig.reader _ => none

/-- A float32 output on four cores, shards of 32 x 32 elements: tiles of 4096 bytes. -/
def example_output_float32 : DeviceTensor :=
  { dtype := DataType.FLOAT32, shard_spec := { grid := grid_4, shape := (32, 32) },
    buffer := { address := 8192, buffer_type := BufferType.L1 } }

/-- The four-core bfloat16 input in a DRAM buffer. -/
def example_input_dram : DeviceTensor :=
  { dtype := DataType.BFLOAT16, shard_spec := { grid := grid_4, shape := (32, 32) },
    buffer := { address := 4096, buffer_type := BufferType.DRAM } }

/-- A bfloat16 input whose shard has `2^16` rows of `2^15` elements: `2^21` tiles of 2048
bytes, `2^32` bytes. -/
def example_input_4g : DeviceTensor :=
  { dtype := DataType.BFLOAT16, shard_spec := { grid := grid_1, shape := (65536, 32768) },
    buffer := { address := 4096, buffer_type := BufferType.L1 } }

/-- The output that goes with `example_input_4g`. -/
def example_output_4g : DeviceTensor :=
  { dtype := DataType.BFLOAT16, shard_spec := { grid := grid_1, shape := (65536, 32768) },
    buffer := { address := 8192, buffer_type := BufferType.L1 } }

/-- An op-chain of two operations. -/
def example_op_chain : List UnaryWithParam :=
  [{ op_type := 3, params := [] }, { op_type := 7, params := [1] }]

/-- Example tables in which the operation kinds below 5 permit approximate evaluation. -/
def example_externals_approx : Externals :=
  { example_externals with get_op_approx_mode := fun op_type => decide (op_type < 5) }

/-- Another grid of four cores: a square of 2 x 2 cores away from the origin. -/
def grid_4_square : CoreRangeSet :=
  [{ start_coord := { x := 4, y := 4 }, end_coord := { x := 5, y := 5 } }]

/-- The four-core bfloat16 output sharded over the square grid. -/
def example_output_4_square : DeviceTensor :=
  { dtype := DataType.BFLOAT16, shard_spec := { grid := grid_4_square, shape := (32, 32) },
    buffer := { address := 8192, buffer_type := BufferType.L1 } }

/-- The core sets of a program, in order: those of the staging resources, of the kernel tasks
and of the runtime arguments. -/
def Program.core_sets (program : Program) : List CoreRangeSet :=
  program.circular_buffers.map CircularBuffer.core_ranges ++
    program.kernels.map Kernel.core_spec ++
    program.runtime_args.map RuntimeArgs.core_spec

end ttnn.operations.unary

/-! ## Example tensors -/

namespace tt_metal

/-- A host-resident row-major tensor of shape `[1, 1, 30, 30]`. -/
def example_host_row_major : Tensor :=
  { shape := { d0 := 1, d1 := 1, d2 := 30, d3 := 30 },
    legacy_shape := { d0 := 1, d1 := 1, d2 := 30, d3 := 30 },
    layout := Layout.ROW_MAJOR,
    storage_type := StorageType.HOST,
    memory_config := DEFAULT_OUTPUT_MEMORY_CONFIG,
    data := List.replicate 900 7 }

/-- A device-resident tiled tensor of shape `[1, 1, 32, 32]`. -/
def example_device_tiled : Tensor :=
  { shape := { d0 := 1, d1 := 1, d2 := 32, d3 := 32 },
    legacy_shape := { d0 := 1, d1 := 1, d2 := 32, d3 := 32 },
    layout := Layout.TILE,
    storage_type := StorageType.DEVICE,
    memory_config := L1_MEMORY_CONFIG,
    data := List.replicate 1024 7 }

/-- A host-resident tensor of shape `[1, 1, 30, 30]` whose layout field says tiled although
the shape is not tile-legal. -/
def example_host_tiled_30 : Tensor :=
  { shape := { d0 := 1, d1 := 1, d2 := 30, d3 := 30 },
    legacy_shape := { d0 := 1, d1 := 1, d2 := 30, d3 := 30 },
    layout := Layout.TILE,
    storage_type := StorageType.HOST,
    memory_config := DEFAULT_OUTPUT_MEMORY_CONFIG,
    data := List.replicate 900 7 }

/-- The shape `[1, 1, 30, 30]`. -/
def shape_30 : Shape := { d0 := 1, d1 := 1, d2 := 30, d3 := 30 }

/-- The shape `[1, 1, 32, 32]`. -/
def shape_32 : Shape := { d0 := 1, d1 := 1, d2 := 32, d3 := 32 }

/-- A host-resident tiled tensor of shape `[1, 1, 32, 32]`. -/
def example_host_tiled_32 : Tensor :=
  { shape := { d0 := 1, d1 := 1, d2 := 32, d3 := 32 },
    legacy_shape := { d0 := 1, d1 := 1, d2 := 32, d3 := 32 },
    layout := Layout.TILE,
    storage_type := StorageType.HOST,
    memory_config := DEFAULT_OUTPUT_MEMORY_CONFIG,
    data := List.replicate 1024 7 }

/-- The requests to the host pad and host unpad primitives. -/
def Prim.is_host_pad_or_unpad : Prim → Bool
  | Prim.pad_on_host _ _ _ => true
  | Prim.unpad_on_host _ _ => true
  | _ => false

/-- The requests to the host-to-device transfer. -/
def Prim.is_transfer_to_device : Prim → Bool
  | Prim.data_transfer_to_device _ _ => true
  | _ => false

/-- A call is a legal placement if, when it is a transfer to the device, the shape of the
tensor transferred is legal for device placement in that tensor's layout. -/
def Call.transfers_legal (k : Call) : Prop :=
  k.prim.is_transfer_to_device = true →
    legal_device_shape k.operand.legacy_shape k.operand.layout = true

/-- A call respects the host padding precondition if, when it is `pad_on_host` or
`unpad_on_host`, its operand is host-resident and row-major. -/
def Call.pads_host_row_major (k : Call) : Prop :=
  k.prim.is_host_pad_or_unpad = true →
    k.operand.storage_type = StorageType.HOST ∧ k.operand.layout = Layout.ROW_MAJOR

/-- First step of the host part of `format_output_tensor` (lines 203-211): the unpadding,
after a conversion to row-major if the layout is another; with the updated `convert_layout`. -/
def AutoFormat.format_output_unpadded (P : Primitives) (formatted_output : Traced)
    (shape : Shape) (target_layout : Layout) (unpad_output convert_layout : Bool) :
    Traced × Bool :=
  if unpad_output then
    let row_major : Traced × Bool :=
      if formatted_output.tensor.layout ≠ Layout.ROW_MAJOR then
        let converted :=
          AutoFormat.layout_conversion_on_host P formatted_output Layout.ROW_MAJOR
        (converted, decide (converted.tensor.layout ≠ target_layout))
      else
        (formatted_output, convert_layout)
    (AutoFormat.unpad_on_host P row_major.1 Shape.zero shape.last_index, row_major.2)
  else
    (formatted_output, convert_layout)

/-- Second step of the host part of `format_output_tensor` (lines 213-222): the layout
conversion, to row-major when tiled is requested for a shape that is not tile-legal. -/
def AutoFormat.format_output_converted (P : Primitives) (unpadded : Traced × Bool)
    (target_layout : Layout) : Traced :=
  if unpadded.2 then
    if target_layout = Layout.TILE ∧ ¬ legal_tile_shape unpadded.1.tensor.legacy_shape then
      if unpadded.1.tensor.layout ≠ Layout.ROW_MAJOR then
        AutoFormat.layout_conversion_on_host P unpadded.1 Layout.ROW_MAJOR
      else
        unpadded.1
    else
      AutoFormat.layout_conversion_on_host P unpadded.1 target_layout
  else
    unpadded.1

/-- Third step of the host part of `format_output_tensor` (lines 224-232): the placement on
the device, if the shape is legal for the layout. -/
def AutoFormat.format_output_placed (P : Primitives) (formatted_output : Traced)
    (device : Device) (mem_config : MemoryConfig) : Traced :=
  if formatted_output.tensor.storage_type ≠ StorageType.DEVICE then
    if legal_device_shape formatted_output.tensor.legacy_shape
        formatted_output.tensor.layout then
      AutoFormat.move_tensor_to_device P formatted_output device mem_config
    else
      formatted_output
  else
    formatted_output

/-- First step of the host part of `format_input_tensor` (lines 111-117): the padding, after
a conversion to row-major if the layout is another; with the updated `convert_layout`. -/
def AutoFormat.format_input_padded (P : Primitives) (formatted_input : Traced)
    (padded_shape : Shape) (pad_value : PadValue) (target_layout : Layout)
    (pad_input convert_layout : Bool) : Traced × Bool :=
  if pad_input then
    let row_major : Traced × Bool :=
      if formatted_input.tensor.layout ≠ Layout.ROW_MAJOR then
        let converted :=
          AutoFormat.layout_conversion_on_host P formatted_input Layout.ROW_MAJOR
        (converted, decide (converted.tensor.layout ≠ target_layout))
      else
        (formatted_input, convert_layout)
    (AutoFormat.pad_on_host P row_major.1 padded_shape Shape.zero pad_value, row_major.2)
  else
    (formatted_input, convert_layout)

/-- A device-resident row-major tensor of shape `[1, 1, 32, 32]`. -/
def example_device_row_major : Tensor :=
  { shape := { d0 := 1, d1 := 1, d2 := 32, d3 := 32 },
    legacy_shape := { d0 := 1, d1 := 1, d2 := 32, d3 := 32 },
    layout := Layout.ROW_MAJOR,
    storage_type := StorageType.DEVICE,
    memory_config := L1_MEMORY_CONFIG,
    data := List.replicate 1024 7 }

/-- The requests of the host fallback of `format_input_tensor` (lines 107-120): the transfer
to the host, `pad_on_host` and `layout_conversion_on_host`. -/
def Prim.is_host_fallback : Prim → Bool
  | Prim.data_transfer_to_host => true
  | Prim.pad_on_host _ _ _ => true
  | Prim.layout_conversion_on_host _ => true
  | _ => false

/-- The device-native requests of the device branch of `format_input_tensor` (lines 88-105):
`tilize`, `untilize`, `ttnn::pad` and `tilize_with_val_padding`. -/
def Prim.is_device_native_input : Prim → Bool
  | Prim.tilize _ => true
  | Prim.untilize _ => true
  | Prim.pad _ _ _ _ => true
  | Prim.tilize_with_val_padding _ _ _ => true
  | _ => false

/-- The device-native requests of the device branch of `format_output_tensor`
(lines 148-197): `tilize`, `untilize`, `unpad` and `untilize_with_unpadding`. -/
def Prim.is_device_native_output : Prim → Bool
  | Prim.tilize _ => true
  | Prim.untilize _ => true
  | Prim.unpad _ _ _ => true
  | Prim.untilize_with_unpadding _ _ => true
  | _ => false

/-! ## Properties of the negotiator -/

/-- The reference interpretation yields the shape and layout it is asked for. -/
theorem reference_primitives_ok : PrimitivesOk reference_primitives := by
  intro c t
  exact ⟨rfl, rfl⟩

/-- The reference interpretation follows the reference payload semantics. -/
theorem reference_primitives_payload :
    PrimitivesPayload reference_payload reference_primitives := by
  intro c t
  rfl

/-- In the reference payload semantics unpad-after-pad is the identity. -/
theorem reference_payload_unpad_pad : reference_payload.unpad_pad := by
  intro s p v d _
  simp [reference_payload]

/-- The index range `0 .. shape - 1` asks for `shape`, for `uint32_t` dimensions (a
dimension 0 wraps to the last index `2^32 - 1` and back). -/
theorem Shape.of_range_last_index (s : Shape) (h : s.is_u32) :
    Shape.of_range Shape.zero s.last_index = s := by
  obtain ⟨a, b, c, d⟩ := s
  simp only [Shape.is_u32, U32] at h
  simp only [Shape.of_range, Shape.last_index, Shape.zero, u32_extent, u32_pred, U32,
    Shape.mk.injEq]
  omega

namespace AutoFormat

/-- Moving a tensor to the device changes neither its shape nor its layout. -/
theorem move_tensor_to_device_meta (P : Primitives) (hP : PrimitivesOk P) (x : Traced)
    (d : Device) (m : MemoryConfig) :
    (move_tensor_to_device P x d m).tensor.legacy_shape = x.tensor.legacy_shape ∧
    (move_tensor_to_device P x d m).tensor.layout = x.tensor.layout := by
  unfold move_tensor_to_device data_transfer_to_device Traced.invoke
  split
  · exact hP _ _
  · exact ⟨rfl, rfl⟩

/-- Moving a tensor to the device leaves its payload as it is. -/
theorem move_tensor_to_device_data (D : PayloadOps) (P : Primitives)
    (hD : PrimitivesPayload D P) (x : Traced) (d : Device) (m : MemoryConfig) :
    (move_tensor_to_device P x d m).tensor.data = x.tensor.data := by
  unfold move_tensor_to_device data_transfer_to_device Traced.invoke
  split
  · exact hD _ _
  · rfl

/-- Shape and layout of the result of `format_input_tensor`. -/
theorem format_input_tensor_meta (P : Primitives) (hP : PrimitivesOk P)
    (input : Tensor) (device : Device) (padded_shape : Shape) (pad_value : PadValue)
    (target_layout : Layout) (target_mem_config : Option MemoryConfig) :
    (format_input_tensor P input device padded_shape pad_value target_layout
        target_mem_config).tensor.legacy_shape = padded_shape ∧
    (format_input_tensor P input device padded_shape pad_value target_layout
        target_mem_config).tensor.layout = target_layout := by
  have hs := fun c t => (hP c t).1
  have hl := fun c t => (hP c t).2
  have hm1 := fun x d m => (move_tensor_to_device_meta P hP x d m).1
  have hm2 := fun x d m => (move_tensor_to_device_meta P hP x d m).2
  obtain ⟨logical, shape, layout, storage, mc, data⟩ := input
  by_cases hpad : shape = padded_shape <;>
  cases layout <;> cases target_layout <;> cases storage <;>
  simp [format_input_tensor, format_input_device_side, format_input_host_side,
    Traced.start, Traced.invoke, hm1, hm2,
    data_transfer_to_host, tilize, untilize, pad, tilize_with_val_padding, pad_on_host,
    layout_conversion_on_host, hs, hl, Prim.asked_shape, Prim.asked_layout, hpad]

/-- Payload of the result of `format_input_tensor`: padded exactly when the shape differs. -/
theorem format_input_tensor_data (D : PayloadOps) (P : Primitives) (hP : PrimitivesOk P)
    (hD : PrimitivesPayload D P)
    (input : Tensor) (device : Device) (padded_shape : Shape) (pad_value : PadValue)
    (target_layout : Layout) (target_mem_config : Option MemoryConfig) :
    (format_input_tensor P input device padded_shape pad_value target_layout
        target_mem_config).tensor.data =
      if input.legacy_shape = padded_shape then input.data
      else D.pad input.legacy_shape padded_shape pad_value input.data := by
  have hs := fun c t => (hP c t).1
  have hl := fun c t => (hP c t).2
  have hm := fun x d m => move_tensor_to_device_data D P hD x d m
  obtain ⟨logical, shape, layout, storage, mc, data⟩ := input
  by_cases hpad : shape = padded_shape <;>
  cases layout <;> cases target_layout <;> cases storage <;>
  simp [format_input_tensor, format_input_device_side, format_input_host_side,
    Traced.start, Traced.invoke, hm, hD _ _, Prim.asked_data,
    data_transfer_to_host, tilize, untilize, pad, tilize_with_val_padding, pad_on_host,
    layout_conversion_on_host, hs, hl, Prim.asked_shape, Prim.asked_layout, hpad]

/-- Shape and layout of the result of `format_output_tensor`, and the early return. -/
theorem format_output_tensor_meta (P : Primitives) (hP : PrimitivesOk P)
    (output : Tensor) (shape : Shape) (hshape : shape.is_u32) (device : Device)
    (target_layout : Layout) (target_mem_config : Option MemoryConfig) :
    (format_output_tensor P output shape device target_layout
        target_mem_config).tensor.legacy_shape = shape ∧
    (target_layout = Layout.ROW_MAJOR ∨ legal_tile_shape shape = true →
      (format_output_tensor P output shape device target_layout
        target_mem_config).tensor.layout = target_layout) ∧
    (target_layout = Layout.TILE ∧ legal_tile_shape shape = false →
      (output.legacy_shape ≠ shape ∨ output.layout ≠ Layout.TILE) →
      (format_output_tensor P output shape device target_layout
        target_mem_config).tensor.layout = Layout.ROW_MAJOR) ∧
    (output.legacy_shape = shape ∧ output.layout = target_layout →
      format_output_tensor P output shape device target_layout target_mem_config =
        Traced.start output) := by
  have hs := fun c t => (hP c t).1
  have hl := fun c t => (hP c t).2
  have hm1 := fun x d m => (move_tensor_to_device_meta P hP x d m).1
  have hm2 := fun x d m => (move_tensor_to_device_meta P hP x d m).2
  have hr := Shape.of_range_last_index shape hshape
  obtain ⟨logical, s, layout, storage, mc, data⟩ := output
  by_cases hpad : s = shape <;> by_cases hleg : legal_tile_shape shape = true <;>
  cases layout <;> cases target_layout <;> cases storage <;>
  simp [format_output_tensor, format_output_device_side, format_output_host_side,
    Traced.start, Traced.invoke, hm1, hm2, legal_rm_shape, legal_device_shape,
    data_transfer_to_host, tilize, untilize, unpad, untilize_with_unpadding, unpad_on_host,
    layout_conversion_on_host, hs, hl, Prim.asked_shape, Prim.asked_layout, hpad, hleg, hr]
  all_goals (split_ifs <;> simp [hm1, hm2, hs, hl, Prim.asked_shape, Prim.asked_layout, hr])

/-- Payload of the result of `format_output_tensor`: cut exactly when the shape differs. -/
theorem format_output_tensor_data (D : PayloadOps) (P : Primitives) (hP : PrimitivesOk P)
    (hD : PrimitivesPayload D P)
    (output : Tensor) (shape : Shape) (hshape : shape.is_u32) (device : Device)
    (target_layout : Layout) (target_mem_config : Option MemoryConfig) :
    (format_output_tensor P output shape device target_layout
        target_mem_config).tensor.data =
      if output.legacy_shape = shape then output.data
      else D.unpad output.legacy_shape shape output.data := by
  have hs := fun c t => (hP c t).1
  have hl := fun c t => (hP c t).2
  have hm := fun x d m => move_tensor_to_device_data D P hD x d m
  have hr := Shape.of_range_last_index shape hshape
  obtain ⟨logical, s, layout, storage, mc, data⟩ := output
  by_cases hpad : s = shape <;> by_cases hleg : legal_tile_shape shape = true <;>
  cases layout <;> cases target_layout <;> cases storage <;>
  simp [format_output_tensor, format_output_device_side, format_output_host_side,
    Traced.start, Traced.invoke, hm, legal_rm_shape, legal_device_shape, hD _ _,
    Prim.asked_data, data_transfer_to_host, tilize, untilize, unpad, untilize_with_unpadding,
    unpad_on_host, layout_conversion_on_host, hs, hl, Prim.asked_shape, Prim.asked_layout,
    hpad, hleg, hr]
  all_goals
    (split_ifs <;>
      simp [hm, hD _ _, Prim.asked_data, hs, hl, Prim.asked_shape, Prim.asked_layout, hr])

/-- Claim C1: whatever the input tensor (host- or device-resident, row-major or tiled), the
padded shape and the target layout, if every primitive yields the shape and layout it is
asked for, `format_input_tensor` returns a tensor of the requested padded shape in the
requested layout. -/
theorem format_input_tensor_shape_and_layout (P : Primitives) (hP : PrimitivesOk P)
    (input : Tensor) (device : Device) (padded_shape : Shape) (pad_value : PadValue)
    (target_layout : Layout) (target_mem_config : Option MemoryConfig) :
    (format_input_tensor P input device padded_shape pad_value target_layout
        target_mem_config).tensor.legacy_shape = padded_shape ∧
    (format_input_tensor P input device padded_shape pad_value target_layout
        target_mem_config).tensor.layout = target_layout :=
  format_input_tensor_meta P hP input device padded_shape pad_value target_layout
    target_mem_config

/-- Witness of C1: the host-resident row-major `[1, 1, 30, 30]` tensor formatted to
`[1, 1, 32, 32]` tiled under the reference primitives. -/
theorem format_input_tensor_shape_and_layout_witness :
    PrimitivesOk reference_primitives ∧
    (format_input_tensor reference_primitives example_host_row_major 0 shape_32 0 Layout.TILE
        none).tensor.legacy_shape = shape_32 ∧
    (format_input_tensor reference_primitives example_host_row_major 0 shape_32 0 Layout.TILE
        none).tensor.layout = Layout.TILE :=
  ⟨reference_primitives_ok,
    format_input_tensor_shape_and_layout reference_primitives reference_primitives_ok
      example_host_row_major 0 shape_32 0 Layout.TILE none⟩

/-- Counterexample to C2 as stated: a tensor that already has the target shape
`[1, 1, 30, 30]` and the tiled layout is returned as it is, so the result of a request for
tiled layout on a shape that is not tile-legal is tiled, not row-major. -/
theorem format_output_tensor_returns_tiled_counterexample :
    legal_tile_shape shape_30 = false ∧
    (format_output_tensor reference_primitives example_host_tiled_30 shape_30 0 Layout.TILE
        none).tensor.layout = Layout.TILE ∧
    (format_output_tensor reference_primitives example_host_tiled_30 shape_30 0 Layout.TILE
        none).tensor.layout ≠ Layout.ROW_MAJOR := by
  decide

/-- Claim C2, amended: for every output tensor, target shape (of `uint32_t` dimensions) and
target layout, with primitives that yield what they are asked for, `format_output_tensor`
returns a tensor of the target shape; its layout is the target layout when that is row-major
or the target shape is tile-legal; it is row-major when tiled layout is requested for a shape
that is not tile-legal and the output differs from the target in shape or layout; an output
that already has the target shape and layout is returned unchanged, no primitive called. -/
theorem format_output_tensor_shape_and_layout (P : Primitives) (hP : PrimitivesOk P)
    (output : Tensor) (shape : Shape) (hshape : shape.is_u32) (device : Device)
    (target_layout : Layout) (target_mem_config : Option MemoryConfig) :
    (format_output_tensor P output shape device target_layout
        target_mem_config).tensor.legacy_shape = shape ∧
    (target_layout = Layout.ROW_MAJOR ∨ legal_tile_shape shape = true →
      (format_output_tensor P output shape device target_layout
        target_mem_config).tensor.layout = target_layout) ∧
    (target_layout = Layout.TILE ∧ legal_tile_shape shape = false →
      (output.legacy_shape ≠ shape ∨ output.layout ≠ Layout.TILE) →
      (format_output_tensor P output shape device target_layout
        target_mem_config).tensor.layout = Layout.ROW_MAJOR) ∧
    (output.legacy_shape = shape ∧ output.layout = target_layout →
      format_output_tensor P output shape device target_layout target_mem_config =
        Traced.start output) :=
  format_output_tensor_meta P hP output shape hshape device target_layout target_mem_config

/-- Witness of C2: the device-resident tiled `[1, 1, 32, 32]` tensor formatted to
`[1, 1, 30, 30]` with tiled layout requested comes back row-major. -/
theorem format_output_tensor_shape_and_layout_witness :
    PrimitivesOk reference_primitives ∧ shape_30.is_u32 ∧
    (format_output_tensor reference_primitives example_device_tiled shape_30 0 Layout.TILE
        none).tensor.legacy_shape = shape_30 ∧
    (format_output_tensor reference_primitives example_device_tiled shape_30 0 Layout.TILE
        none).tensor.layout = Layout.ROW_MAJOR :=
  ⟨reference_primitives_ok, by decide,
    (format_output_tensor_shape_and_layout reference_primitives reference_primitives_ok
      example_device_tiled shape_30 (by decide) 0 Layout.TILE none).1,
    (format_output_tensor_shape_and_layout reference_primitives reference_primitives_ok
      example_device_tiled shape_30 (by decide) 0 Layout.TILE none).2.2.1
      ⟨rfl, by decide⟩ (Or.inl (by decide))⟩

/-- Claim C3: idempotence of `format_input_tensor`.  For a tensor that already has the padded
shape and the target layout, whatever the pad value and the optional memory configuration:
a device-resident input is returned itself with an empty call log; a host-resident input is
answered by exactly one call, the transfer of the input to the device. -/
theorem format_input_tensor_idempotent (P : Primitives) (input : Tensor) (device : Device)
    (padded_shape : Shape) (pad_value : PadValue) (target_layout : Layout)
    (target_mem_config : Option MemoryConfig)
    (hshape : input.legacy_shape = padded_shape) (hlayout : input.layout = target_layout) :
    (input.storage_type = StorageType.DEVICE →
      format_input_tensor P input device padded_shape pad_value target_layout target_mem_config =
        { tensor := input, calls := [] }) ∧
    (input.storage_type = StorageType.HOST →
      format_input_tensor P input device padded_shape pad_value target_layout target_mem_config =
        { tensor := P (Prim.data_transfer_to_device device DEFAULT_OUTPUT_MEMORY_CONFIG) input,
          calls := [{ prim := Prim.data_transfer_to_device device DEFAULT_OUTPUT_MEMORY_CONFIG,
                      operand := input }] }) := by
  constructor <;> intro h <;>
  simp [format_input_tensor, move_tensor_to_device, data_transfer_to_device, Traced.start,
    Traced.invoke, hshape, hlayout, h]

/-- Witness of C3: the device-resident tiled `[1, 1, 32, 32]` tensor asked for in its own
shape and layout. -/
theorem format_input_tensor_idempotent_witness :
    example_device_tiled.legacy_shape = shape_32 ∧ example_device_tiled.layout = Layout.TILE ∧
    format_input_tensor reference_primitives example_device_tiled 0 shape_32 5 Layout.TILE
        (some L1_MEMORY_CONFIG) = { tensor := example_device_tiled, calls := [] } :=
  ⟨rfl, rfl,
    (format_input_tensor_idempotent reference_primitives example_device_tiled 0 shape_32 5
      Layout.TILE (some L1_MEMORY_CONFIG) rfl rfl).1 rfl⟩

/-- Counterexample to C4 as stated: the host-resident `[1, 1, 30, 30]` tensor marked tiled,
formatted to the tile-legal `[1, 1, 32, 32]` and back to its own shape and layout, comes back
row-major: the round trip does not reproduce the layout. -/
theorem format_round_trip_layout_counterexample :
    PrimitivesOk reference_primitives ∧
    PrimitivesPayload reference_payload reference_primitives ∧
    reference_payload.unpad_pad ∧
    legal_tile_shape shape_32 = true ∧
    example_host_tiled_30.legacy_shape.le shape_32 ∧
    (format_output_tensor reference_primitives
        (format_input_tensor reference_primitives example_host_tiled_30 0 shape_32 0 Layout.TILE
          none).tensor
        example_host_tiled_30.legacy_shape 0 example_host_tiled_30.layout none).tensor.layout ≠
      example_host_tiled_30.layout :=
  ⟨reference_primitives_ok, reference_primitives_payload, reference_payload_unpad_pad,
    by decide, by decide, by decide⟩

/-- Claim C4, amended: round trip.  Let `t` be a tensor whose shape (of `uint32_t` dimensions)
is legal for its layout, `p` a tile-legal padded shape at least `t`'s shape in every
dimension, and let the primitives yield what they are asked for and satisfy
unpad-after-pad = identity on payloads (layout conversions and transfers leave the logical
payload as it is).  Then `format_input_tensor` to `p` in tiled layout followed by
`format_output_tensor` to `t`'s shape and layout yields `t`'s shape, `t`'s layout and `t`'s
payload. -/
theorem format_round_trip (D : PayloadOps) (P : Primitives) (hP : PrimitivesOk P)
    (hD : PrimitivesPayload D P) (hlaw : D.unpad_pad)
    (t : Tensor) (p : Shape) (device : Device) (pad_value : PadValue)
    (mem_in mem_out : Option MemoryConfig)
    (_hp : legal_tile_shape p = true) (hle : t.legacy_shape.le p)
    (hu32 : t.legacy_shape.is_u32)
    (hlegal : legal_device_shape t.legacy_shape t.layout = true) :
    (format_output_tensor P
        (format_input_tensor P t device p pad_value Layout.TILE mem_in).tensor
        t.legacy_shape device t.layout mem_out).tensor.legacy_shape = t.legacy_shape ∧
    (format_output_tensor P
        (format_input_tensor P t device p pad_value Layout.TILE mem_in).tensor
        t.legacy_shape device t.layout mem_out).tensor.layout = t.layout ∧
    (format_output_tensor P
        (format_input_tensor P t device p pad_value Layout.TILE mem_in).tensor
        t.legacy_shape device t.layout mem_out).tensor.data = t.data := by
  have hin := format_input_tensor_meta P hP t device p pad_value Layout.TILE mem_in
  have hind := format_input_tensor_data D P hP hD t device p pad_value Layout.TILE mem_in
  have hout := format_output_tensor_meta P hP
    (format_input_tensor P t device p pad_value Layout.TILE mem_in).tensor
    t.legacy_shape hu32 device t.layout mem_out
  have houtd := format_output_tensor_data D P hP hD
    (format_input_tensor P t device p pad_value Layout.TILE mem_in).tensor
    t.legacy_shape hu32 device t.layout mem_out
  refine ⟨hout.1, hout.2.1 ?_, ?_⟩
  · cases hl : t.layout
    · exact Or.inl rfl
    · right
      rw [hl] at hlegal
      exact hlegal
  · rw [houtd, hin.1, hind]
    by_cases h : t.legacy_shape = p
    · simp [h]
    · have h2 : ¬ p = t.legacy_shape := fun e => h e.symm
      simp only [h, h2, if_false]
      exact hlaw _ _ _ _ hle

/-- Witness of C4: the host-resident row-major `[1, 1, 30, 30]` tensor, padded to
`[1, 1, 32, 32]` tiled and formatted back. -/
theorem format_round_trip_witness :
    PrimitivesOk reference_primitives ∧
    PrimitivesPayload reference_payload reference_primitives ∧
    reference_payload.unpad_pad ∧
    legal_tile_shape shape_32 = true ∧
    example_host_row_major.legacy_shape.le shape_32 ∧
    example_host_row_major.legacy_shape.is_u32 ∧
    legal_device_shape example_host_row_major.legacy_shape example_host_row_major.layout = true ∧
    (format_output_tensor reference_primitives
        (format_input_tensor reference_primitives example_host_row_major 0 shape_32 0
          Layout.TILE none).tensor
        example_host_row_major.legacy_shape 0 example_host_row_major.layout
        none).tensor.data = example_host_row_major.data :=
  ⟨reference_primitives_ok, reference_primitives_payload, reference_payload_unpad_pad,
    by decide, by decide, by decide, by decide,
    (format_round_trip reference_payload reference_primitives reference_primitives_ok
      reference_primitives_payload reference_payload_unpad_pad example_host_row_major shape_32
      0 0 none none (by decide) (by decide) (by decide) (by decide)).2.2⟩

/-- The reference interpretation returns every result where the primitive works. -/
theorem reference_primitives_place : PrimitivesPlace reference_primitives := by
  intro c t
  rfl

/-- Under the residency contract `move_tensor_to_device` returns a device-resident tensor. -/
theorem move_tensor_to_device_storage (P : Primitives) (hS : PrimitivesPlace P) (x : Traced)
    (d : Device) (m : MemoryConfig) :
    (move_tensor_to_device P x d m).tensor.storage_type = StorageType.DEVICE := by
  unfold move_tensor_to_device data_transfer_to_device Traced.invoke
  split
  · exact hS _ _
  · rename_i h
    exact not_not.mp h

/-- Claim C15, at the failing input: a host-resident tiled `[1, 1, 32, 32]` tensor asked for
in its own shape and layout is returned by `format_output_tensor` as it is, host-resident and
with no transfer, while `format_input_tensor` transfers the same tensor to the device. -/
theorem format_output_tensor_leaves_host_tensor_on_host :
    example_host_tiled_32.storage_type = StorageType.HOST ∧
    example_host_tiled_32.legacy_shape = shape_32 ∧
    example_host_tiled_32.layout = Layout.TILE ∧
    (format_output_tensor reference_primitives example_host_tiled_32 shape_32 0 Layout.TILE
        none).tensor.storage_type = StorageType.HOST ∧
    (format_output_tensor reference_primitives example_host_tiled_32 shape_32 0 Layout.TILE
        none).calls = [] ∧
    (format_input_tensor reference_primitives example_host_tiled_32 0 shape_32 0 Layout.TILE
        none).tensor.storage_type = StorageType.DEVICE := by
  decide

/-- Claim C16: for a host-resident row-major input whose shape differs from the padded shape,
with tiled target layout, `format_input_tensor` makes exactly three calls, in this order:
`pad_on_host` to the padded shape with the pad value, `layout_conversion_on_host` to tiled,
`data_transfer_to_device`; with primitives that yield what they are asked for, where they
work, the result is device-resident, tiled and of the padded shape. -/
theorem format_input_tensor_host_pad_tilize (P : Primitives) (hP : PrimitivesOk P)
    (hS : PrimitivesPlace P) (input : Tensor) (device : Device) (padded_shape : Shape)
    (pad_value : PadValue) (target_mem_config : Option MemoryConfig)
    (hhost : input.storage_type = StorageType.HOST)
    (hrm : input.layout = Layout.ROW_MAJOR)
    (hshape : input.legacy_shape ≠ padded_shape) :
    (format_input_tensor P input device padded_shape pad_value Layout.TILE
        target_mem_config).calls =
      [{ prim := Prim.pad_on_host padded_shape Shape.zero pad_value, operand := input },
       { prim := Prim.layout_conversion_on_host Layout.TILE,
         operand := P (Prim.pad_on_host padded_shape Shape.zero pad_value) input },
       { prim := Prim.data_transfer_to_device device
           (select_mem_config input target_mem_config),
         operand := P (Prim.layout_conversion_on_host Layout.TILE)
           (P (Prim.pad_on_host padded_shape Shape.zero pad_value) input) }] ∧
    (format_input_tensor P input device padded_shape pad_value Layout.TILE
        target_mem_config).tensor =
      P (Prim.data_transfer_to_device device (select_mem_config input target_mem_config))
        (P (Prim.layout_conversion_on_host Layout.TILE)
          (P (Prim.pad_on_host padded_shape Shape.zero pad_value) input)) ∧
    (format_input_tensor P input device padded_shape pad_value Layout.TILE
        target_mem_config).tensor.storage_type = StorageType.DEVICE ∧
    (format_input_tensor P input device padded_shape pad_value Layout.TILE
        target_mem_config).tensor.layout = Layout.TILE ∧
    (format_input_tensor P input device padded_shape pad_value Layout.TILE
        target_mem_config).tensor.legacy_shape = padded_shape := by
  have hmeta := format_input_tensor_meta P hP input device padded_shape pad_value Layout.TILE
    target_mem_config
  have hconv : (P (Prim.layout_conversion_on_host Layout.TILE)
      (P (Prim.pad_on_host padded_shape Shape.zero pad_value) input)).storage_type =
      StorageType.HOST := hS _ _
  have hrun : format_input_tensor P input device padded_shape pad_value Layout.TILE
      target_mem_config =
      { tensor := P (Prim.data_transfer_to_device device
            (select_mem_config input target_mem_config))
          (P (Prim.layout_conversion_on_host Layout.TILE)
            (P (Prim.pad_on_host padded_shape Shape.zero pad_value) input)),
        calls :=
          [{ prim := Prim.pad_on_host padded_shape Shape.zero pad_value, operand := input },
           { prim := Prim.layout_conversion_on_host Layout.TILE,
             operand := P (Prim.pad_on_host padded_shape Shape.zero pad_value) input },
           { prim := Prim.data_transfer_to_device device
               (select_mem_config input target_mem_config),
             operand := P (Prim.layout_conversion_on_host Layout.TILE)
               (P (Prim.pad_on_host padded_shape Shape.zero pad_value) input) }] } := by
    simp [format_input_tensor, format_input_host_side, move_tensor_to_device,
      data_transfer_to_device, pad_on_host, layout_conversion_on_host, Traced.start,
      Traced.invoke, hhost, hrm, hshape, hconv]
  refine ⟨by rw [hrun], by rw [hrun], ?_, hmeta.2, hmeta.1⟩
  rw [hrun]
  exact hS _ _

/-- Witness of C16: shape `[1, 1, 30, 30]`, padded shape `[1, 1, 32, 32]`, pad value 0. -/
theorem format_input_tensor_host_pad_tilize_witness :
    PrimitivesOk reference_primitives ∧ PrimitivesPlace reference_primitives ∧
    example_host_row_major.storage_type = StorageType.HOST ∧
    example_host_row_major.layout = Layout.ROW_MAJOR ∧
    example_host_row_major.legacy_shape ≠ shape_32 ∧
    (format_input_tensor reference_primitives example_host_row_major 0 shape_32 0 Layout.TILE
        none).calls.map Call.prim =
      [Prim.pad_on_host shape_32 Shape.zero 0, Prim.layout_conversion_on_host Layout.TILE,
       Prim.data_transfer_to_device 0 DEFAULT_OUTPUT_MEMORY_CONFIG] ∧
    (format_input_tensor reference_primitives example_host_row_major 0 shape_32 0 Layout.TILE
        none).tensor.storage_type = StorageType.DEVICE :=
  ⟨reference_primitives_ok, reference_primitives_place, rfl, rfl, by decide, by decide,
    (format_input_tensor_host_pad_tilize reference_primitives reference_primitives_ok
      reference_primitives_place example_host_row_major 0 shape_32 0 none rfl rfl
      (by decide)).2.2.1⟩

/-- A property of all calls survives one more call that has it. -/
theorem forall_calls_invoke (Q : Call → Prop) (P : Primitives) (x : Traced) (c : Prim)
    (hx : ∀ k ∈ x.calls, Q k) (hc : Q { prim := c, operand := x.tensor }) :
    ∀ k ∈ (x.invoke P c).calls, Q k := by
  intro k hk
  simp only [Traced.invoke, List.mem_append, List.mem_singleton] at hk
  rcases hk with hk | hk
  · exact hx k hk
  · rw [hk]
    exact hc

/-- A property of all calls survives `move_tensor_to_device` if the transfer has it. -/
theorem forall_calls_move (Q : Call → Prop) (P : Primitives) (x : Traced) (d : Device)
    (m : MemoryConfig) (hx : ∀ k ∈ x.calls, Q k)
    (hc : Q { prim := Prim.data_transfer_to_device d m, operand := x.tensor }) :
    ∀ k ∈ (move_tensor_to_device P x d m).calls, Q k := by
  unfold move_tensor_to_device data_transfer_to_device
  split
  · exact forall_calls_invoke Q P x _ hx hc
  · exact hx

/-- The host part of `format_output_tensor` is its three steps in sequence. -/
theorem format_output_host_side_steps (P : Primitives) (formatted_output : Traced)
    (shape : Shape) (device : Device) (target_layout : Layout)
    (unpad_output convert_layout : Bool) (mem_config : MemoryConfig) :
    format_output_host_side P formatted_output shape device target_layout unpad_output
      convert_layout mem_config =
    format_output_placed P
      (format_output_converted P
        (format_output_unpadded P formatted_output shape target_layout unpad_output
          convert_layout) target_layout) device mem_config := rfl

/-- The host part of `format_input_tensor` is its steps in sequence. -/
theorem format_input_host_side_steps (P : Primitives) (formatted_input : Traced)
    (device : Device) (padded_shape : Shape) (pad_value : PadValue) (target_layout : Layout)
    (pad_input convert_layout : Bool) (mem_config : MemoryConfig) :
    format_input_host_side P formatted_input device padded_shape pad_value target_layout
      pad_input convert_layout mem_config =
    move_tensor_to_device P
      (if (format_input_padded P formatted_input padded_shape pad_value target_layout pad_input
          convert_layout).2 then
        layout_conversion_on_host P
          (format_input_padded P formatted_input padded_shape pad_value target_layout pad_input
            convert_layout).1 target_layout
      else
        (format_input_padded P formatted_input padded_shape pad_value target_layout pad_input
          convert_layout).1) device mem_config := rfl

/-- A call that is not a transfer to the device is a legal placement. -/
theorem Call.transfers_legal_of_other (c : Prim) (t : Tensor)
    (hc : c.is_transfer_to_device = false) :
    Call.transfers_legal { prim := c, operand := t } := by
  intro h
  simp only [hc] at h
  exact absurd h (by decide)

/-- The host part of `format_output_tensor` transfers only tensors of legal shape. -/
theorem format_output_host_side_transfers_legal (P : Primitives) (formatted_output : Traced)
    (shape : Shape) (device : Device) (target_layout : Layout)
    (unpad_output convert_layout : Bool) (mem_config : MemoryConfig)
    (hx : ∀ k ∈ formatted_output.calls, k.transfers_legal) :
    ∀ k ∈ (format_output_host_side P formatted_output shape device target_layout unpad_output
      convert_layout mem_config).calls, k.transfers_legal := by
  rw [format_output_host_side_steps]
  have h1 : ∀ k ∈ (format_output_unpadded P formatted_output shape target_layout unpad_output
      convert_layout).1.calls, k.transfers_legal := by
    unfold format_output_unpadded unpad_on_host layout_conversion_on_host
    split
    · split
      · exact forall_calls_invoke _ P _ _
          (forall_calls_invoke _ P _ _ hx (Call.transfers_legal_of_other _ _ rfl))
          (Call.transfers_legal_of_other _ _ rfl)
      · exact forall_calls_invoke _ P _ _ hx (Call.transfers_legal_of_other _ _ rfl)
    · exact hx
  have h2 : ∀ k ∈ (format_output_converted P
      (format_output_unpadded P formatted_output shape target_layout unpad_output
        convert_layout) target_layout).calls, k.transfers_legal := by
    unfold format_output_converted layout_conversion_on_host
    split
    · split
      · split
        · exact forall_calls_invoke _ P _ _ h1 (Call.transfers_legal_of_other _ _ rfl)
        · exact h1
      · exact forall_calls_invoke _ P _ _ h1 (Call.transfers_legal_of_other _ _ rfl)
    · exact h1
  unfold format_output_placed
  split
  · split
    · rename_i hlegal
      exact forall_calls_move _ P _ _ _ h2 (fun _ => hlegal)
    · exact h2
  · exact h2

/-- The device part of `format_output_tensor` calls device primitives only: a property that
holds of the calls so far and of every call that is neither a transfer to the device nor a
host pad or unpad holds of all calls of its result. -/
theorem format_output_device_side_calls (Q : Call → Prop) (P : Primitives)
    (formatted_output : Traced) (shape : Shape) (target_layout : Layout)
    (unpad_output convert_layout : Bool) (mem_config : MemoryConfig) (result : Traced)
    (hx : ∀ k ∈ formatted_output.calls, Q k)
    (hq : ∀ (c : Prim) (t : Tensor), c.is_transfer_to_device = false →
      c.is_host_pad_or_unpad = false → Q { prim := c, operand := t })
    (hr : format_output_device_side P formatted_output shape target_layout unpad_output
      convert_layout mem_config = some result) :
    ∀ k ∈ result.calls, Q k := by
  unfold format_output_device_side tilize untilize unpad untilize_with_unpadding at hr
  simp only at hr
  split_ifs at hr <;> cases hr <;>
    repeat (first | exact hx | exact hq _ _ rfl rfl | apply forall_calls_invoke)

/-- The device part of `format_input_tensor` calls device primitives only. -/
theorem format_input_device_side_calls (Q : Call → Prop) (P : Primitives)
    (formatted_input : Traced) (padded_shape : Shape) (pad_value : PadValue)
    (target_layout : Layout) (pad_input convert_layout : Bool) (mem_config : MemoryConfig)
    (result : Traced)
    (hx : ∀ k ∈ formatted_input.calls, Q k)
    (hq : ∀ (c : Prim) (t : Tensor), c.is_transfer_to_device = false →
      c.is_host_pad_or_unpad = false → Q { prim := c, operand := t })
    (hr : format_input_device_side P formatted_input padded_shape pad_value target_layout
      pad_input convert_layout mem_config = some result) :
    ∀ k ∈ result.calls, Q k := by
  unfold format_input_device_side tilize untilize pad tilize_with_val_padding at hr
  simp only at hr
  split_ifs at hr <;> cases hr <;>
    repeat (first | exact hx | exact hq _ _ rfl rfl | apply forall_calls_invoke)

/-- Every transfer to the device that `format_output_tensor` makes is of a tensor whose shape
is legal for its layout, whatever the primitives do. -/
theorem format_output_tensor_transfers_legal (P : Primitives) (output : Tensor) (shape : Shape)
    (device : Device) (target_layout : Layout) (target_mem_config : Option MemoryConfig) :
    ∀ k ∈ (format_output_tensor P output shape device target_layout target_mem_config).calls,
      k.transfers_legal := by
  have h0 : ∀ k ∈ (Traced.start output).calls, k.transfers_legal := by
    intro k hk
    simp [Traced.start] at hk
  unfold format_output_tensor
  simp only
  split
  · exact h0
  · split
    · split
      · rename_i result hr
        exact format_output_device_side_calls _ P _ _ _ _ _ _ result h0
          (fun c t hc _ => Call.transfers_legal_of_other c t hc) hr
      · exact format_output_host_side_transfers_legal P _ _ _ _ _ _ _
          (forall_calls_invoke _ P _ _ h0 (Call.transfers_legal_of_other _ _ rfl))
    · exact format_output_host_side_transfers_legal P _ _ _ _ _ _ _ h0

/-- Under the residency contract the device part of `format_input_tensor` returns
device-resident tensors. -/
theorem format_input_device_side_storage (P : Primitives) (hS : PrimitivesPlace P)
    (formatted_input : Traced) (padded_shape : Shape) (pad_value : PadValue)
    (target_layout : Layout) (pad_input convert_layout : Bool) (mem_config : MemoryConfig)
    (result : Traced)
    (hr : format_input_device_side P formatted_input padded_shape pad_value target_layout
      pad_input convert_layout mem_config = some result) :
    result.tensor.storage_type = StorageType.DEVICE := by
  unfold format_input_device_side tilize untilize pad tilize_with_val_padding at hr
  simp only at hr
  split_ifs at hr <;> cases hr <;> exact (hS _ _).trans rfl

/-- Under the residency contract `format_input_tensor` always returns a device-resident
tensor: its host part moves the result to the device whatever its shape and layout. -/
theorem format_input_tensor_storage (P : Primitives) (hS : PrimitivesPlace P)
    (input : Tensor) (device : Device) (padded_shape : Shape) (pad_value : PadValue)
    (target_layout : Layout) (target_mem_config : Option MemoryConfig) :
    (format_input_tensor P input device padded_shape pad_value target_layout
        target_mem_config).tensor.storage_type = StorageType.DEVICE := by
  unfold format_input_tensor
  simp only
  split
  · exact move_tensor_to_device_storage P hS _ _ _
  · split
    · split
      · rename_i result hr
        exact format_input_device_side_storage P hS _ _ _ _ _ _ _ result hr
      · rw [format_input_host_side_steps]
        exact move_tensor_to_device_storage P hS _ _ _
    · rw [format_input_host_side_steps]
      exact move_tensor_to_device_storage P hS _ _ _

/-- Counterexample to C17 as stated: the host-resident row-major `[1, 1, 30, 30]` tensor asked
for in tiled layout with its own shape as padded shape.  The host path of
`format_input_tensor` converts it to tiled and transfers it to the device although
`[1, 1, 30, 30]` is not legal for device placement in tiled layout. -/
theorem format_input_tensor_moves_illegal_counterexample :
    (format_input_tensor reference_primitives example_host_row_major 0 shape_30 0 Layout.TILE
        none).calls.map Call.prim =
      [Prim.layout_conversion_on_host Layout.TILE,
       Prim.data_transfer_to_device 0 DEFAULT_OUTPUT_MEMORY_CONFIG] ∧
    (format_input_tensor reference_primitives example_host_row_major 0 shape_30 0 Layout.TILE
        none).tensor.storage_type = StorageType.DEVICE ∧
    legal_device_shape
      (format_input_tensor reference_primitives example_host_row_major 0 shape_30 0
        Layout.TILE none).tensor.legacy_shape
      (format_input_tensor reference_primitives example_host_row_major 0 shape_30 0
        Layout.TILE none).tensor.layout = false := by
  decide

/-- Claim C17, amended: `format_output_tensor` moves a tensor to the device only if its shape
is legal for device placement in its layout (every transfer to the device it makes is of such
a tensor, so a result whose final shape is not legal is not moved); `format_input_tensor`
makes no such check and, with primitives that return their results where they work, always
returns a device-resident tensor. -/
theorem format_tensor_device_placement (P : Primitives) (hS : PrimitivesPlace P)
    (tensor : Tensor) (shape : Shape) (device : Device) (pad_value : PadValue)
    (target_layout : Layout) (target_mem_config : Option MemoryConfig) :
    (∀ k ∈ (format_output_tensor P tensor shape device target_layout target_mem_config).calls,
      k.prim.is_transfer_to_device = true →
        legal_device_shape k.operand.legacy_shape k.operand.layout = true) ∧
    (format_input_tensor P tensor device shape pad_value target_layout
        target_mem_config).tensor.storage_type = StorageType.DEVICE :=
  ⟨format_output_tensor_transfers_legal P tensor shape device target_layout target_mem_config,
    format_input_tensor_storage P hS tensor device shape pad_value target_layout
      target_mem_config⟩

/-- Witness of C17: the host-resident row-major `[1, 1, 30, 30]` tensor asked for in tiled
layout and its own shape: `format_output_tensor` leaves it row-major and transfers it,
`format_input_tensor` returns it on the device. -/
theorem format_tensor_device_placement_witness :
    PrimitivesPlace reference_primitives ∧
    (format_output_tensor reference_primitives example_host_row_major shape_30 0 Layout.TILE
        none).calls.map Call.prim =
      [Prim.data_transfer_to_device 0 DEFAULT_OUTPUT_MEMORY_CONFIG] ∧
    (format_input_tensor reference_primitives example_host_row_major 0 shape_30 0 Layout.TILE
        none).tensor.storage_type = StorageType.DEVICE :=
  ⟨reference_primitives_place, by decide,
    (format_tensor_device_placement reference_primitives reference_primitives_place
      example_host_row_major shape_30 0 0 Layout.TILE none).2⟩

/-- A call that is neither `pad_on_host` nor `unpad_on_host` respects the host padding
precondition. -/
theorem Call.pads_host_row_major_of_other (c : Prim) (t : Tensor)
    (hc : c.is_host_pad_or_unpad = false) :
    Call.pads_host_row_major { prim := c, operand := t } := by
  intro h
  simp only [hc] at h
  exact absurd h (by decide)

/-- A storage location other than the device is the host. -/
theorem StorageType.host_of_ne_device (s : StorageType) (h : ¬ s = StorageType.DEVICE) :
    s = StorageType.HOST := by
  cases s
  · rfl
  · exact absurd rfl h

/-- A layout that is not "not row-major" is row-major. -/
theorem Layout.row_major_of_not_ne (l : Layout) (h : ¬ l ≠ Layout.ROW_MAJOR) :
    l = Layout.ROW_MAJOR := not_not.mp h

/-- In the host part of `format_input_tensor`, entered with a host-resident tensor,
`pad_on_host` is applied to a host-resident row-major tensor. -/
theorem format_input_host_side_pads (P : Primitives) (hP : PrimitivesOk P)
    (hS : PrimitivesPlace P) (formatted_input : Traced) (device : Device)
    (padded_shape : Shape) (pad_value : PadValue) (target_layout : Layout)
    (pad_input convert_layout : Bool) (mem_config : MemoryConfig)
    (hhost : formatted_input.tensor.storage_type = StorageType.HOST)
    (hx : ∀ k ∈ formatted_input.calls, k.pads_host_row_major) :
    ∀ k ∈ (format_input_host_side P formatted_input device padded_shape pad_value target_layout
      pad_input convert_layout mem_config).calls, k.pads_host_row_major := by
  rw [format_input_host_side_steps]
  have h1 : ∀ k ∈ (format_input_padded P formatted_input padded_shape pad_value target_layout
      pad_input convert_layout).1.calls, k.pads_host_row_major := by
    unfold format_input_padded pad_on_host layout_conversion_on_host
    split
    · split
      · refine forall_calls_invoke _ P _ _
          (forall_calls_invoke _ P _ _ hx (Call.pads_host_row_major_of_other _ _ rfl)) ?_
        intro _
        exact ⟨(hS _ _).trans rfl, ((hP _ _).2).trans rfl⟩
      · rename_i hrm
        refine forall_calls_invoke _ P _ _ hx ?_
        intro _
        exact ⟨hhost, Layout.row_major_of_not_ne _ hrm⟩
    · exact hx
  apply forall_calls_move
  · split
    · exact forall_calls_invoke _ P _ _ h1 (Call.pads_host_row_major_of_other _ _ rfl)
    · exact h1
  · exact Call.pads_host_row_major_of_other _ _ rfl

/-- In the host part of `format_output_tensor`, entered with a host-resident tensor,
`unpad_on_host` is applied to a host-resident row-major tensor. -/
theorem format_output_host_side_pads (P : Primitives) (hP : PrimitivesOk P)
    (hS : PrimitivesPlace P) (formatted_output : Traced) (shape : Shape) (device : Device)
    (target_layout : Layout) (unpad_output convert_layout : Bool) (mem_config : MemoryConfig)
    (hhost : formatted_output.tensor.storage_type = StorageType.HOST)
    (hx : ∀ k ∈ formatted_output.calls, k.pads_host_row_major) :
    ∀ k ∈ (format_output_host_side P formatted_output shape device target_layout unpad_output
      convert_layout mem_config).calls, k.pads_host_row_major := by
  rw [format_output_host_side_steps]
  have h1 : ∀ k ∈ (format_output_unpadded P formatted_output shape target_layout unpad_output
      convert_layout).1.calls, k.pads_host_row_major := by
    unfold format_output_unpadded unpad_on_host layout_conversion_on_host
    split
    · split
      · refine forall_calls_invoke _ P _ _
          (forall_calls_invoke _ P _ _ hx (Call.pads_host_row_major_of_other _ _ rfl)) ?_
        intro _
        exact ⟨(hS _ _).trans rfl, ((hP _ _).2).trans rfl⟩
      · rename_i hrm
        refine forall_calls_invoke _ P _ _ hx ?_
        intro _
        exact ⟨hhost, Layout.row_major_of_not_ne _ hrm⟩
    · exact hx
  have h2 : ∀ k ∈ (format_output_converted P
      (format_output_unpadded P formatted_output shape target_layout unpad_output
        convert_layout) target_layout).calls, k.pads_host_row_major := by
    unfold format_output_converted layout_conversion_on_host
    split
    · split
      · split
        · exact forall_calls_invoke _ P _ _ h1 (Call.pads_host_row_major_of_other _ _ rfl)
        · exact h1
      · exact forall_calls_invoke _ P _ _ h1 (Call.pads_host_row_major_of_other _ _ rfl)
    · exact h1
  unfold format_output_placed
  split
  · split
    · exact forall_calls_move _ P _ _ _ h2 (Call.pads_host_row_major_of_other _ _ rfl)
    · exact h2
  · exact h2

/-- Claim C19: in every execution of `format_input_tensor` and of `format_output_tensor`, with
primitives that yield the layout they are asked for and return their results where they work,
`pad_on_host` and `unpad_on_host` are applied only to a host-resident row-major tensor. -/
theorem host_pad_and_unpad_on_host_row_major (P : Primitives) (hP : PrimitivesOk P)
    (hS : PrimitivesPlace P) (tensor : Tensor) (shape : Shape) (device : Device)
    (pad_value : PadValue) (target_layout : Layout)
    (target_mem_config : Option MemoryConfig) :
    (∀ k ∈ (format_input_tensor P tensor device shape pad_value target_layout
        target_mem_config).calls,
      k.prim.is_host_pad_or_unpad = true →
        k.operand.storage_type = StorageType.HOST ∧ k.operand.layout = Layout.ROW_MAJOR) ∧
    (∀ k ∈ (format_output_tensor P tensor shape device target_layout target_mem_config).calls,
      k.prim.is_host_pad_or_unpad = true →
        k.operand.storage_type = StorageType.HOST ∧ k.operand.layout = Layout.ROW_MAJOR) := by
  have h0 : ∀ k ∈ (Traced.start tensor).calls, k.pads_host_row_major := by
    intro k hk
    simp [Traced.start] at hk
  have hq : ∀ (c : Prim) (t : Tensor), c.is_transfer_to_device = false →
      c.is_host_pad_or_unpad = false → Call.pads_host_row_major { prim := c, operand := t } :=
    fun c t _ hc => Call.pads_host_row_major_of_other c t hc
  constructor
  · show ∀ k ∈ (format_input_tensor P tensor device shape pad_value target_layout
        target_mem_config).calls, k.pads_host_row_major
    unfold format_input_tensor
    simp only
    split
    · exact forall_calls_move _ P _ _ _ h0 (Call.pads_host_row_major_of_other _ _ rfl)
    · split
      · split
        · rename_i result hr
          exact format_input_device_side_calls _ P _ _ _ _ _ _ _ result h0 hq hr
        · exact format_input_host_side_pads P hP hS _ _ _ _ _ _ _ _ ((hS _ _).trans rfl)
            (forall_calls_invoke _ P _ _ h0 (Call.pads_host_row_major_of_other _ _ rfl))
      · rename_i hdev
        exact format_input_host_side_pads P hP hS _ _ _ _ _ _ _ _
          (StorageType.host_of_ne_device _ hdev) h0
  · show ∀ k ∈ (format_output_tensor P tensor shape device target_layout
        target_mem_config).calls, k.pads_host_row_major
    unfold format_output_tensor
    simp only
    split
    · exact h0
    · split
      · split
        · rename_i result hr
          exact format_output_device_side_calls _ P _ _ _ _ _ _ result h0 hq hr
        · exact format_output_host_side_pads P hP hS _ _ _ _ _ _ _ ((hS _ _).trans rfl)
            (forall_calls_invoke _ P _ _ h0 (Call.pads_host_row_major_of_other _ _ rfl))
      · rename_i hdev
        exact format_output_host_side_pads P hP hS _ _ _ _ _ _ _
          (StorageType.host_of_ne_device _ hdev) h0

/-- Witness of C19: the host-resident `[1, 1, 30, 30]` tensor marked tiled is converted to
row-major before `pad_on_host` pads it to `[1, 1, 32, 32]`. -/
theorem host_pad_and_unpad_on_host_row_major_witness :
    PrimitivesOk reference_primitives ∧ PrimitivesPlace reference_primitives ∧
    (format_input_tensor reference_primitives example_host_tiled_30 0 shape_32 0 Layout.TILE
        none).calls.map Call.prim =
      [Prim.layout_conversion_on_host Layout.ROW_MAJOR, Prim.pad_on_host shape_32 Shape.zero 0,
       Prim.layout_conversion_on_host Layout.TILE,
       Prim.data_transfer_to_device 0 DEFAULT_OUTPUT_MEMORY_CONFIG] ∧
    (∀ k ∈ (format_input_tensor reference_primitives example_host_tiled_30 0 shape_32 0
        Layout.TILE none).calls,
      k.prim.is_host_pad_or_unpad = true →
        k.operand.storage_type = StorageType.HOST ∧ k.operand.layout = Layout.ROW_MAJOR) :=
  ⟨reference_primitives_ok, reference_primitives_place, by decide,
    (host_pad_and_unpad_on_host_row_major reference_primitives reference_primitives_ok
      reference_primitives_place example_host_tiled_30 shape_32 0 0 Layout.TILE none).1⟩

/-- With a shape or layout mismatch the device branch of `format_input_tensor` returns: one of
its inner conditions holds, the layouts being row-major or tiled. -/
theorem format_input_device_side_returns (P : Primitives) (formatted_input : Traced)
    (padded_shape : Shape) (pad_value : PadValue) (target_layout : Layout)
    (mem_config : MemoryConfig)
    (hmis : formatted_input.tensor.legacy_shape ≠ padded_shape ∨
      formatted_input.tensor.layout ≠ target_layout) :
    ∃ result,
      format_input_device_side P formatted_input padded_shape pad_value target_layout
        (decide (formatted_input.tensor.legacy_shape ≠ padded_shape))
        (decide (formatted_input.tensor.layout ≠ target_layout)) mem_config = some result ∧
      result.calls ≠ formatted_input.calls ∧
      ∀ k ∈ result.calls, k ∈ formatted_input.calls ∨
        (k.prim.is_device_native_input = true ∧ k.prim.is_host_fallback = false) := by
  obtain ⟨⟨logical, shape, layout, storage, mc, data⟩, calls⟩ := formatted_input
  by_cases hpad : shape = padded_shape <;> cases layout <;> cases target_layout <;>
  simp [format_input_device_side, tilize, untilize, pad, tilize_with_val_padding,
    Traced.invoke, hpad, Prim.is_device_native_input, Prim.is_host_fallback] at hmis ⊢
  all_goals
    intro k hk
    rcases hk with hk | hk
    · exact Or.inl hk
    · right
      first
        | (subst hk; exact ⟨rfl, rfl⟩)
        | (rcases hk with hk | hk <;> subst hk <;> exact ⟨rfl, rfl⟩)

/-- On a device-resident input with a shape or layout mismatch, `format_input_tensor` returns
what its device branch returns. -/
theorem format_input_tensor_of_device_side (P : Primitives) (input : Tensor) (device : Device)
    (padded_shape : Shape) (pad_value : PadValue) (target_layout : Layout)
    (target_mem_config : Option MemoryConfig) (result : Traced)
    (hdev : input.storage_type = StorageType.DEVICE)
    (hmis : input.legacy_shape ≠ padded_shape ∨ input.layout ≠ target_layout)
    (hr : format_input_device_side P (Traced.start input) padded_shape pad_value target_layout
      (decide (input.legacy_shape ≠ padded_shape)) (decide (input.layout ≠ target_layout))
      (select_mem_config input target_mem_config) = some result) :
    format_input_tensor P input device padded_shape pad_value target_layout target_mem_config =
      result := by
  have hb : (!decide (input.legacy_shape ≠ padded_shape) &&
      !decide (input.layout ≠ target_layout)) = false := by
    rcases hmis with h | h <;> simp [h]
  unfold format_input_tensor
  simp only [hb, Traced.start, hdev, if_true, Bool.false_eq_true, if_false]
  simp only [Traced.start] at hr
  rw [hr]

/-- Claim C21: on a device-resident input `format_input_tensor` never executes the host
fallback.  Every call it makes is to one of the device-native primitives `tilize`, `untilize`,
`ttnn::pad`, `tilize_with_val_padding`, none to `data_transfer_to_host`, `pad_on_host` or
`layout_conversion_on_host`; and when the shape or the layout is mismatched, whatever the
combination of mismatches and of current and target layout (row-major or tiled), the device
branch returns, with at least one call made, and its result is the result of
`format_input_tensor`. -/
theorem format_input_tensor_device_native (P : Primitives) (input : Tensor) (device : Device)
    (padded_shape : Shape) (pad_value : PadValue) (target_layout : Layout)
    (target_mem_config : Option MemoryConfig)
    (hdev : input.storage_type = StorageType.DEVICE) :
    (∀ k ∈ (format_input_tensor P input device padded_shape pad_value target_layout
        target_mem_config).calls,
      k.prim.is_device_native_input = true ∧ k.prim.is_host_fallback = false) ∧
    (input.legacy_shape ≠ padded_shape ∨ input.layout ≠ target_layout →
      ∃ result,
        format_input_device_side P (Traced.start input) padded_shape pad_value target_layout
          (decide (input.legacy_shape ≠ padded_shape)) (decide (input.layout ≠ target_layout))
          (select_mem_config input target_mem_config) = some result ∧
        format_input_tensor P input device padded_shape pad_value target_layout
          target_mem_config = result ∧
        result.calls ≠ []) := by
  constructor
  · by_cases hmis : input.legacy_shape ≠ padded_shape ∨ input.layout ≠ target_layout
    · obtain ⟨result, hr, -, hcalls⟩ := format_input_device_side_returns P (Traced.start input)
        padded_shape pad_value target_layout (select_mem_config input target_mem_config) hmis
      rw [format_input_tensor_of_device_side P input device padded_shape pad_value target_layout
        target_mem_config result hdev hmis hr]
      intro k hk
      rcases hcalls k hk with h | h
      · simp [Traced.start] at h
      · exact h
    · have h1 : input.legacy_shape = padded_shape := by
        by_contra h
        exact hmis (Or.inl h)
      have h2 : input.layout = target_layout := by
        by_contra h
        exact hmis (Or.inr h)
      intro k hk
      simp [format_input_tensor, move_tensor_to_device, Traced.start, h1, h2, hdev] at hk
  · intro hmis
    obtain ⟨result, hr, hne, -⟩ := format_input_device_side_returns P (Traced.start input)
      padded_shape pad_value target_layout (select_mem_config input target_mem_config) hmis
    exact ⟨result, hr,
      format_input_tensor_of_device_side P input device padded_shape pad_value target_layout
        target_mem_config result hdev hmis hr, hne⟩

/-- Witness of C21: the device-resident tiled `[1, 1, 32, 32]` tensor asked for in row-major
layout is answered by one call of `untilize`. -/
theorem format_input_tensor_device_native_witness :
    example_device_tiled.storage_type = StorageType.DEVICE ∧
    example_device_tiled.layout ≠ Layout.ROW_MAJOR ∧
    (format_input_tensor reference_primitives example_device_tiled 0 shape_32 0
        Layout.ROW_MAJOR none).calls.map Call.prim = [Prim.untilize L1_MEMORY_CONFIG] ∧
    (∀ k ∈ (format_input_tensor reference_primitives example_device_tiled 0 shape_32 0
        Layout.ROW_MAJOR none).calls,
      k.prim.is_device_native_input = true ∧ k.prim.is_host_fallback = false) ∧
    (∃ result,
      format_input_device_side reference_primitives (Traced.start example_device_tiled) shape_32
        0 Layout.ROW_MAJOR (decide (example_device_tiled.legacy_shape ≠ shape_32))
        (decide (example_device_tiled.layout ≠ Layout.ROW_MAJOR))
        (select_mem_config example_device_tiled none) = some result ∧
      format_input_tensor reference_primitives example_device_tiled 0 shape_32 0
        Layout.ROW_MAJOR none = result ∧
      result.calls ≠ []) :=
  ⟨rfl, by decide, by decide,
    (format_input_tensor_device_native reference_primitives example_device_tiled 0 shape_32 0
      Layout.ROW_MAJOR none rfl).1,
    (format_input_tensor_device_native reference_primitives example_device_tiled 0 shape_32 0
      Layout.ROW_MAJOR none rfl).2 (Or.inr (by decide))⟩

/-- With a shape or layout mismatch the device branch of `format_output_tensor` falls through
to the host fallback in exactly one case: the shape is mismatched, the current layout is
row-major, the target layout is tiled and the target shape is not tile-legal. -/
theorem format_output_device_side_none_iff (P : Primitives) (formatted_output : Traced)
    (shape : Shape) (target_layout : Layout) (mem_config : MemoryConfig)
    (hmis : formatted_output.tensor.legacy_shape ≠ shape ∨
      formatted_output.tensor.layout ≠ target_layout) :
    format_output_device_side P formatted_output shape target_layout
        (decide (formatted_output.tensor.legacy_shape ≠ shape))
        (decide (formatted_output.tensor.layout ≠ target_layout)) mem_config = none ↔
      (formatted_output.tensor.legacy_shape ≠ shape ∧
        formatted_output.tensor.layout = Layout.ROW_MAJOR ∧ target_layout = Layout.TILE ∧
        legal_tile_shape shape = false) := by
  obtain ⟨⟨logical, s, layout, storage, mc, data⟩, calls⟩ := formatted_output
  by_cases hpad : s = shape <;> by_cases hleg : legal_tile_shape shape = true <;>
  cases layout <;> cases target_layout <;>
  simp [format_output_device_side, legal_rm_shape, hpad, hleg] at hmis ⊢

/-- The device branch of `format_output_tensor` calls device-native primitives only. -/
theorem format_output_device_side_native (Q : Call → Prop) (P : Primitives)
    (formatted_output : Traced) (shape : Shape) (target_layout : Layout)
    (unpad_output convert_layout : Bool) (mem_config : MemoryConfig) (result : Traced)
    (hx : ∀ k ∈ formatted_output.calls, Q k)
    (hq : ∀ (c : Prim) (t : Tensor), c.is_device_native_output = true →
      Q { prim := c, operand := t })
    (hr : format_output_device_side P formatted_output shape target_layout unpad_output
      convert_layout mem_config = some result) :
    ∀ k ∈ result.calls, Q k := by
  unfold format_output_device_side tilize untilize unpad untilize_with_unpadding at hr
  simp only at hr
  split_ifs at hr <;> cases hr <;>
    repeat (first | exact hx | exact hq _ _ rfl | apply forall_calls_invoke)

/-- Under the residency contract the device branch of `format_output_tensor`, entered with a
device-resident tensor, returns device-resident tensors. -/
theorem format_output_device_side_storage (P : Primitives) (hS : PrimitivesPlace P)
    (formatted_output : Traced) (shape : Shape) (target_layout : Layout)
    (unpad_output convert_layout : Bool) (mem_config : MemoryConfig) (result : Traced)
    (hdev : formatted_output.tensor.storage_type = StorageType.DEVICE)
    (hr : format_output_device_side P formatted_output shape target_layout unpad_output
      convert_layout mem_config = some result) :
    result.tensor.storage_type = StorageType.DEVICE := by
  unfold format_output_device_side tilize untilize unpad untilize_with_unpadding at hr
  simp only at hr
  split_ifs at hr <;> cases hr <;> first | exact hdev | exact (hS _ _).trans rfl

/-- After the unpadding step of `format_output_tensor`, entered with a shape or layout
mismatch, a layout conversion is still pending or the tensor is row-major. -/
theorem format_output_unpadded_row_major (P : Primitives) (hP : PrimitivesOk P)
    (formatted_output : Traced) (shape : Shape) (target_layout : Layout)
    (hmis : formatted_output.tensor.legacy_shape ≠ shape ∨
      formatted_output.tensor.layout ≠ target_layout)
    (hflag : (format_output_unpadded P formatted_output shape target_layout
      (decide (formatted_output.tensor.legacy_shape ≠ shape))
      (decide (formatted_output.tensor.layout ≠ target_layout))).2 = false) :
    (format_output_unpadded P formatted_output shape target_layout
      (decide (formatted_output.tensor.legacy_shape ≠ shape))
      (decide (formatted_output.tensor.layout ≠ target_layout))).1.tensor.layout =
      Layout.ROW_MAJOR := by
  have hlay := fun c t => (hP c t).2
  by_cases hpad : formatted_output.tensor.legacy_shape = shape
  · have hl : formatted_output.tensor.layout ≠ target_layout := by
      rcases hmis with h | h
      · exact absurd hpad h
      · exact h
    simp [format_output_unpadded, hpad, hl] at hflag
  · by_cases hrm : formatted_output.tensor.layout = Layout.ROW_MAJOR
    · simp [format_output_unpadded, unpad_on_host, Traced.invoke, hpad, hrm, hlay,
        Prim.asked_layout]
    · simp [format_output_unpadded, unpad_on_host, layout_conversion_on_host, Traced.invoke,
        hpad, hrm, hlay, Prim.asked_layout]

/-- With primitives that yield what they are asked for, the layout conversion step of
`format_output_tensor` (lines 213-222) yields a shape that is legal for its layout, when the
tensor is row-major in case no conversion is pending. -/
theorem format_output_converted_legal_of (P : Primitives) (hP : PrimitivesOk P)
    (unpadded : Traced × Bool) (target_layout : Layout)
    (hrm : unpadded.2 = false → unpadded.1.tensor.layout = Layout.ROW_MAJOR) :
    legal_device_shape (format_output_converted P unpadded target_layout).tensor.legacy_shape
      (format_output_converted P unpadded target_layout).tensor.layout = true := by
  have hsh := fun c t => (hP c t).1
  have hlay := fun c t => (hP c t).2
  by_cases hflag : unpadded.2 = true
  · by_cases hleg : legal_tile_shape unpadded.1.tensor.legacy_shape = true
    · cases target_layout <;>
      simp [format_output_converted, layout_conversion_on_host, Traced.invoke, hflag, hleg,
        hsh, hlay, Prim.asked_shape, Prim.asked_layout, legal_device_shape, legal_rm_shape]
    · by_cases hl : unpadded.1.tensor.layout = Layout.ROW_MAJOR
      · cases target_layout <;>
        simp [format_output_converted, layout_conversion_on_host, Traced.invoke, hflag, hleg,
          hl, hsh, hlay, Prim.asked_shape, Prim.asked_layout, legal_device_shape,
          legal_rm_shape]
      · cases target_layout <;>
        simp [format_output_converted, layout_conversion_on_host, Traced.invoke, hflag, hleg,
          hl, hsh, hlay, Prim.asked_shape, Prim.asked_layout, legal_device_shape,
          legal_rm_shape]
  · have h0 : unpadded.2 = false := by
      cases h : unpadded.2
      · rfl
      · exact absurd h hflag
    simp [format_output_converted, h0, hrm h0, legal_device_shape, legal_rm_shape]

/-- With primitives that yield what they are asked for, the tensor that reaches the placement
check of `format_output_tensor` (line 227) has a shape that is legal for its layout, when
the host part is entered with a shape or layout mismatch. -/
theorem format_output_converted_legal (P : Primitives) (hP : PrimitivesOk P)
    (formatted_output : Traced) (shape : Shape) (target_layout : Layout)
    (hmis : formatted_output.tensor.legacy_shape ≠ shape ∨
      formatted_output.tensor.layout ≠ target_layout) :
    legal_device_shape
      (format_output_converted P
        (format_output_unpadded P formatted_output shape target_layout
          (decide (formatted_output.tensor.legacy_shape ≠ shape))
          (decide (formatted_output.tensor.layout ≠ target_layout)))
        target_layout).tensor.legacy_shape
      (format_output_converted P
        (format_output_unpadded P formatted_output shape target_layout
          (decide (formatted_output.tensor.legacy_shape ≠ shape))
          (decide (formatted_output.tensor.layout ≠ target_layout)))
        target_layout).tensor.layout = true :=
  format_output_converted_legal_of P hP _ target_layout
    (format_output_unpadded_row_major P hP formatted_output shape target_layout hmis)

/-- A tensor whose shape is legal for its layout is placed by `move_tensor_to_device`: the
branch of lines 226-230 that leaves it where it is is not taken. -/
theorem format_output_placed_of_legal (P : Primitives) (x : Traced) (device : Device)
    (mem_config : MemoryConfig)
    (hlegal : legal_device_shape x.tensor.legacy_shape x.tensor.layout = true) :
    format_output_placed P x device mem_config =
      move_tensor_to_device P x device mem_config := by
  unfold format_output_placed move_tensor_to_device
  by_cases h : x.tensor.storage_type = StorageType.DEVICE
  · simp [h]
  · simp [h, hlegal]

/-- A call in the log stays in the log when a primitive is called. -/
theorem mem_calls_invoke (P : Primitives) (x : Traced) (c : Prim) (k : Call)
    (hk : k ∈ x.calls) : k ∈ (x.invoke P c).calls := by
  simp only [Traced.invoke]
  exact List.mem_append_left _ hk

/-- A call in the log stays in the log through `move_tensor_to_device`. -/
theorem mem_calls_move (P : Primitives) (x : Traced) (d : Device) (m : MemoryConfig)
    (k : Call) (hk : k ∈ x.calls) : k ∈ (move_tensor_to_device P x d m).calls := by
  unfold move_tensor_to_device data_transfer_to_device
  split
  · exact mem_calls_invoke P x _ k hk
  · exact hk

/-- A call in the log stays in the log through the host part of `format_output_tensor`. -/
theorem mem_calls_format_output_host_side (P : Primitives) (formatted_output : Traced)
    (shape : Shape) (device : Device) (target_layout : Layout)
    (unpad_output convert_layout : Bool) (mem_config : MemoryConfig) (k : Call)
    (hk : k ∈ formatted_output.calls) :
    k ∈ (format_output_host_side P formatted_output shape device target_layout unpad_output
      convert_layout mem_config).calls := by
  rw [format_output_host_side_steps]
  have h1 : k ∈ (format_output_unpadded P formatted_output shape target_layout unpad_output
      convert_layout).1.calls := by
    unfold format_output_unpadded unpad_on_host layout_conversion_on_host
    split
    · split
      · exact mem_calls_invoke P _ _ k (mem_calls_invoke P _ _ k hk)
      · exact mem_calls_invoke P _ _ k hk
    · exact hk
  have h2 : k ∈ (format_output_converted P
      (format_output_unpadded P formatted_output shape target_layout unpad_output
        convert_layout) target_layout).calls := by
    unfold format_output_converted layout_conversion_on_host
    split
    · split
      · split
        · exact mem_calls_invoke P _ _ k h1
        · exact h1
      · exact mem_calls_invoke P _ _ k h1
    · exact h1
  unfold format_output_placed
  split
  · split
    · exact mem_calls_move P _ _ _ k h2
    · exact h2
  · exact h2

/-- With primitives that yield what they are asked for, the host part of
`format_output_tensor`, entered with a tensor of shape `s` and layout `l` one of which is
mismatched, reaches the placement check with a shape that is legal for the layout, and ends in
`move_tensor_to_device`. -/
theorem format_output_host_side_moves (P : Primitives) (hP : PrimitivesOk P)
    (formatted_output : Traced) (shape : Shape) (device : Device) (target_layout : Layout)
    (mem_config : MemoryConfig) (s : Shape) (l : Layout)
    (hs : formatted_output.tensor.legacy_shape = s) (hl : formatted_output.tensor.layout = l)
    (hmis : s ≠ shape ∨ l ≠ target_layout) :
    legal_device_shape
      (format_output_converted P
        (format_output_unpadded P formatted_output shape target_layout (decide (s ≠ shape))
          (decide (l ≠ target_layout))) target_layout).tensor.legacy_shape
      (format_output_converted P
        (format_output_unpadded P formatted_output shape target_layout (decide (s ≠ shape))
          (decide (l ≠ target_layout))) target_layout).tensor.layout = true ∧
    format_output_host_side P formatted_output shape device target_layout (decide (s ≠ shape))
        (decide (l ≠ target_layout)) mem_config =
      move_tensor_to_device P
        (format_output_converted P
          (format_output_unpadded P formatted_output shape target_layout (decide (s ≠ shape))
            (decide (l ≠ target_layout))) target_layout) device mem_config := by
  subst hs hl
  have hlegal := format_output_converted_legal P hP formatted_output shape target_layout hmis
  refine ⟨hlegal, ?_⟩
  rw [format_output_host_side_steps, format_output_placed_of_legal P _ device mem_config hlegal]

/-- On a shape or layout mismatch `format_output_tensor` goes past its early return: a
device-resident output gets the result of the device branch or, when that falls through, of
the host part entered after the transfer to the host; a host-resident output gets the result
of the host part. -/
theorem format_output_tensor_of_mismatch (P : Primitives) (output : Tensor) (shape : Shape)
    (device : Device) (target_layout : Layout) (target_mem_config : Option MemoryConfig)
    (hmis : output.legacy_shape ≠ shape ∨ output.layout ≠ target_layout) :
    format_output_tensor P output shape device target_layout target_mem_config =
      if output.storage_type = StorageType.DEVICE then
        match format_output_device_side P (Traced.start output) shape target_layout
            (decide (output.legacy_shape ≠ shape)) (decide (output.layout ≠ target_layout))
            (select_mem_config output target_mem_config) with
        | some result => result
        | none =>
          format_output_host_side P (data_transfer_to_host P (Traced.start output)) shape device
            target_layout (decide (output.legacy_shape ≠ shape))
            (decide (output.layout ≠ target_layout))
            (select_mem_config output target_mem_config)
      else
        format_output_host_side P (Traced.start output) shape device target_layout
          (decide (output.legacy_shape ≠ shape)) (decide (output.layout ≠ target_layout))
          (select_mem_config output target_mem_config) := by
  have hb : (!decide (output.legacy_shape ≠ shape) &&
      !decide (output.layout ≠ target_layout)) = false := by
    rcases hmis with h | h <;> simp [h]
  unfold format_output_tensor
  simp only [hb, Bool.false_eq_true, if_false]
  rfl

/-- Under the contract of the primitives, `format_output_tensor` returns a device-resident
tensor whenever the shape or the layout is mismatched. -/
theorem format_output_tensor_storage (P : Primitives) (hP : PrimitivesOk P)
    (hS : PrimitivesPlace P) (output : Tensor) (shape : Shape) (device : Device)
    (target_layout : Layout) (target_mem_config : Option MemoryConfig)
    (hmis : output.legacy_shape ≠ shape ∨ output.layout ≠ target_layout) :
    (format_output_tensor P output shape device target_layout
      target_mem_config).tensor.storage_type = StorageType.DEVICE := by
  rw [format_output_tensor_of_mismatch P output shape device target_layout target_mem_config
    hmis]
  split
  · rename_i hdev
    split
    · rename_i result hr
      exact format_output_device_side_storage P hS _ _ _ _ _ _ result hdev hr
    · rw [(format_output_host_side_moves P hP (data_transfer_to_host P (Traced.start output))
        shape device target_layout _ output.legacy_shape output.layout
        ((hP _ _).1.trans rfl) ((hP _ _).2.trans rfl) hmis).2]
      exact move_tensor_to_device_storage P hS _ _ _
  · rw [(format_output_host_side_moves P hP (Traced.start output) shape device target_layout _
      output.legacy_shape output.layout rfl rfl hmis).2]
    exact move_tensor_to_device_storage P hS _ _ _

/-- A device-resident output with a shape or layout mismatch is transferred to the host by
`format_output_tensor` exactly when the shape is mismatched, the current layout is row-major,
the target layout is tiled and the target shape is not tile-legal. -/
theorem format_output_tensor_host_fallback_iff (P : Primitives) (output : Tensor)
    (shape : Shape) (device : Device) (target_layout : Layout)
    (target_mem_config : Option MemoryConfig)
    (hdev : output.storage_type = StorageType.DEVICE)
    (hmis : output.legacy_shape ≠ shape ∨ output.layout ≠ target_layout) :
    (∃ k ∈ (format_output_tensor P output shape device target_layout target_mem_config).calls,
      k.prim = Prim.data_transfer_to_host) ↔
    (output.legacy_shape ≠ shape ∧ output.layout = Layout.ROW_MAJOR ∧
      target_layout = Layout.TILE ∧ legal_tile_shape shape = false) := by
  have hiff := format_output_device_side_none_iff P (Traced.start output) shape target_layout
    (select_mem_config output target_mem_config) hmis
  rw [format_output_tensor_of_mismatch P output shape device target_layout target_mem_config
    hmis, if_pos hdev]
  cases hside : format_output_device_side P (Traced.start output) shape target_layout
      (decide (output.legacy_shape ≠ shape)) (decide (output.layout ≠ target_layout))
      (select_mem_config output target_mem_config) with
  | none =>
    simp only
    constructor
    · intro _
      exact hiff.mp hside
    · intro _
      refine ⟨{ prim := Prim.data_transfer_to_host, operand := output }, ?_, rfl⟩
      apply mem_calls_format_output_host_side
      simp [data_transfer_to_host, Traced.invoke, Traced.start]
  | some result =>
    simp only
    constructor
    · rintro ⟨k, hk, hprim⟩
      have hnative : k.prim.is_device_native_output = true :=
        format_output_device_side_native
          (fun k => k.prim.is_device_native_output = true) P (Traced.start output) shape
          target_layout _ _ _ result (by intro k hk; simp [Traced.start] at hk)
          (fun c t hc => hc) hside k hk
      rw [hprim] at hnative
      exact absurd hnative (by decide)
    · intro hcond
      have hnone := hiff.mpr hcond
      simp only [Traced.start] at hnone hside
      rw [hside] at hnone
      exact absurd hnone (by simp)

/-- Claim C22: let the primitives yield the shape and layout they are asked for and return
their results where they work, tile legality being divisibility of the last two dimensions by
32 and every shape being legal for row-major.  Whenever the shape or the layout is
mismatched, for every output (host- or device-resident): `format_output_tensor` returns a
device-resident tensor; from both entries of the host part (the output itself, or the output
transferred to the host) the tensor that reaches the final placement check has a shape that
is legal for its layout, so that the host part ends in `move_tensor_to_device` and the branch
that leaves the result on the host is not taken; and a device-resident output is transferred
to the host (the device branch falls through) exactly when the shape is mismatched, the
current layout is row-major, the target layout is tiled and the target shape is not
tile-legal. -/
theorem format_output_tensor_device_resident (P : Primitives) (hP : PrimitivesOk P)
    (hS : PrimitivesPlace P) (output : Tensor) (shape : Shape) (device : Device)
    (target_layout : Layout) (target_mem_config : Option MemoryConfig)
    (hmis : output.legacy_shape ≠ shape ∨ output.layout ≠ target_layout) :
    (format_output_tensor P output shape device target_layout
      target_mem_config).tensor.storage_type = StorageType.DEVICE ∧
    (∀ formatted_output : Traced,
      formatted_output = Traced.start output ∨
        formatted_output = data_transfer_to_host P (Traced.start output) →
      legal_device_shape
        (format_output_converted P
          (format_output_unpadded P formatted_output shape target_layout
            (decide (output.legacy_shape ≠ shape)) (decide (output.layout ≠ target_layout)))
          target_layout).tensor.legacy_shape
        (format_output_converted P
          (format_output_unpadded P formatted_output shape target_layout
            (decide (output.legacy_shape ≠ shape)) (decide (output.layout ≠ target_layout)))
          target_layout).tensor.layout = true ∧
      format_output_host_side P formatted_output shape device target_layout
          (decide (output.legacy_shape ≠ shape)) (decide (output.layout ≠ target_layout))
          (select_mem_config output target_mem_config) =
        move_tensor_to_device P
          (format_output_converted P
            (format_output_unpadded P formatted_output shape target_layout
              (decide (output.legacy_shape ≠ shape)) (decide (output.layout ≠ target_layout)))
            target_layout) device (select_mem_config output target_mem_config)) ∧
    (output.storage_type = StorageType.DEVICE →
      ((format_output_device_side P (Traced.start output) shape target_layout
          (decide (output.legacy_shape ≠ shape)) (decide (output.layout ≠ target_layout))
          (select_mem_config output target_mem_config) = none ↔
        (output.legacy_shape ≠ shape ∧ output.layout = Layout.ROW_MAJOR ∧
          target_layout = Layout.TILE ∧ legal_tile_shape shape = false)) ∧
      ((∃ k ∈ (format_output_tensor P output shape device target_layout
          target_mem_config).calls, k.prim = Prim.data_transfer_to_host) ↔
        (output.legacy_shape ≠ shape ∧ output.layout = Layout.ROW_MAJOR ∧
          target_layout = Layout.TILE ∧ legal_tile_shape shape = false)))) := by
  refine ⟨format_output_tensor_storage P hP hS output shape device target_layout
    target_mem_config hmis, ?_, ?_⟩
  · intro formatted_output hentry
    rcases hentry with h | h
    · subst h
      exact format_output_host_side_moves P hP (Traced.start output) shape device target_layout
        _ output.legacy_shape output.layout rfl rfl hmis
    · subst h
      exact format_output_host_side_moves P hP (data_transfer_to_host P (Traced.start output))
        shape device target_layout _ output.legacy_shape output.layout
        ((hP _ _).1.trans rfl) ((hP _ _).2.trans rfl) hmis
  · intro hdev
    exact ⟨format_output_device_side_none_iff P (Traced.start output) shape target_layout
        (select_mem_config output target_mem_config) hmis,
      format_output_tensor_host_fallback_iff P output shape device target_layout
        target_mem_config hdev hmis⟩

/-- Witness of C22: the device-resident row-major `[1, 1, 32, 32]` tensor asked for as
`[1, 1, 30, 30]` tiled goes through the host fallback (transfer to the host, unpadding on the
host, no conversion to tiled) and comes back device-resident. -/
theorem format_output_tensor_device_resident_witness :
    PrimitivesOk reference_primitives ∧ PrimitivesPlace reference_primitives ∧
    (example_device_row_major.legacy_shape ≠ shape_30 ∨
      example_device_row_major.layout ≠ Layout.TILE) ∧
    (format_output_tensor reference_primitives example_device_row_major shape_30 0 Layout.TILE
        none).calls.map Call.prim =
      [Prim.data_transfer_to_host, Prim.unpad_on_host Shape.zero shape_30.last_index,
       Prim.data_transfer_to_device 0 L1_MEMORY_CONFIG] ∧
    (format_output_tensor reference_primitives example_device_row_major shape_30 0 Layout.TILE
        none).tensor.layout = Layout.ROW_MAJOR ∧
    (format_output_tensor reference_primitives example_device_row_major shape_30 0 Layout.TILE
        none).tensor.storage_type = StorageType.DEVICE ∧
    (∃ k ∈ (format_output_tensor reference_primitives example_device_row_major shape_30 0
        Layout.TILE none).calls, k.prim = Prim.data_transfer_to_host) :=
  ⟨reference_primitives_ok, reference_primitives_place, Or.inl (by decide), by decide,
    by decide,
    (format_output_tensor_device_resident reference_primitives reference_primitives_ok
      reference_primitives_place example_device_row_major shape_30 0 Layout.TILE none
      (Or.inl (by decide))).1,
    ((format_output_tensor_device_resident reference_primitives reference_primitives_ok
      reference_primitives_place example_device_row_major shape_30 0 Layout.TILE none
      (Or.inl (by decide))).2.2 rfl).2.mpr ⟨by decide, rfl, rfl, by decide⟩⟩

/-- The third dimension requested by `move_tensor_to_device_and_pad`: always a multiple of 32,
the dimension itself exactly when that is one, and for a dimension of at most `2^32 - 32` the
smallest multiple of 32 that is not below the dimension. -/
theorem new_device_shape_d2 (s : Shape) :
    (new_device_shape s).d2 % 32 = 0 ∧
    ((new_device_shape s).d2 = s.d2 ↔ s.d2 % 32 = 0) ∧
    (s.d2 ≤ U32 - 32 →
      s.d2 ≤ (new_device_shape s).d2 ∧
      ∀ m, m % 32 = 0 → s.d2 ≤ m → (new_device_shape s).d2 ≤ m) := by
  simp only [new_device_shape, TILE_HEIGHT, U32]
  refine ⟨?_, ?_, fun h => ⟨?_, fun m hm hle => ?_⟩⟩ <;> split_ifs <;> omega

/-- The fourth dimension requested by `move_tensor_to_device_and_pad`, likewise. -/
theorem new_device_shape_d3 (s : Shape) :
    (new_device_shape s).d3 % 32 = 0 ∧
    ((new_device_shape s).d3 = s.d3 ↔ s.d3 % 32 = 0) ∧
    (s.d3 ≤ U32 - 32 →
      s.d3 ≤ (new_device_shape s).d3 ∧
      ∀ m, m % 32 = 0 → s.d3 ≤ m → (new_device_shape s).d3 ≤ m) := by
  simp only [new_device_shape, TILE_WIDTH, U32]
  refine ⟨?_, ?_, fun h => ⟨?_, fun m hm hle => ?_⟩⟩ <;> split_ifs <;> omega

/-- Claim C23: `move_tensor_to_device_and_pad` is `format_input_tensor` called with pad value
0 and the padded shape `new_device_shape` of the input's device shape, the logical shape being
the input's.  The first two dimensions of that padded shape are the device shape's; each of
the last two, for a device dimension of at most `2^32 - 32`, is the smallest multiple of 32
that is not below the device dimension.  The requested shape is always tile-legal, and it is
the input's device shape exactly when that shape is tile-legal. -/
theorem move_tensor_to_device_and_pad_request (P : Primitives) (input : Tensor)
    (device : Device) (target_layout : Layout) (target_mem_config : Option MemoryConfig) :
    move_tensor_to_device_and_pad P input device target_layout target_mem_config =
      format_input_tensor P input device (new_device_shape input.legacy_shape) 0 target_layout
        target_mem_config ∧
    new_intended_shape input.shape = input.shape ∧
    (new_device_shape input.legacy_shape).d0 = input.legacy_shape.d0 ∧
    (new_device_shape input.legacy_shape).d1 = input.legacy_shape.d1 ∧
    (input.legacy_shape.d2 ≤ U32 - 32 →
      (new_device_shape input.legacy_shape).d2 % 32 = 0 ∧
      input.legacy_shape.d2 ≤ (new_device_shape input.legacy_shape).d2 ∧
      ∀ m, m % 32 = 0 → input.legacy_shape.d2 ≤ m →
        (new_device_shape input.legacy_shape).d2 ≤ m) ∧
    (input.legacy_shape.d3 ≤ U32 - 32 →
      (new_device_shape input.legacy_shape).d3 % 32 = 0 ∧
      input.legacy_shape.d3 ≤ (new_device_shape input.legacy_shape).d3 ∧
      ∀ m, m % 32 = 0 → input.legacy_shape.d3 ≤ m →
        (new_device_shape input.legacy_shape).d3 ≤ m) ∧
    legal_tile_shape (new_device_shape input.legacy_shape) = true ∧
    (new_device_shape input.legacy_shape = input.legacy_shape ↔
      legal_tile_shape input.legacy_shape = true) := by
  have h2 := new_device_shape_d2 input.legacy_shape
  have h3 := new_device_shape_d3 input.legacy_shape
  refine ⟨rfl, rfl, rfl, rfl, fun h => ⟨h2.1, (h2.2.2 h).1, (h2.2.2 h).2⟩,
    fun h => ⟨h3.1, (h3.2.2 h).1, (h3.2.2 h).2⟩, ?_, ?_⟩
  · simp [legal_tile_shape, TILE_HEIGHT, TILE_WIDTH, h2.1, h3.1]
  · have hlegal : legal_tile_shape input.legacy_shape = true ↔
        input.legacy_shape.d2 % 32 = 0 ∧ input.legacy_shape.d3 % 32 = 0 := by
      simp [legal_tile_shape, TILE_HEIGHT, TILE_WIDTH]
    rw [hlegal]
    constructor
    · intro h
      exact ⟨h2.2.1.mp (congrArg Shape.d2 h), h3.2.1.mp (congrArg Shape.d3 h)⟩
    · rintro ⟨ha, hb⟩
      have e2 := h2.2.1.mpr ha
      have e3 := h3.2.1.mpr hb
      cases hs : input.legacy_shape
      rw [hs] at e2 e3
      simp only [new_device_shape] at e2 e3 ⊢
      simp only [Shape.mk.injEq, true_and]
      exact ⟨e2, e3⟩

/-- Witness of C23: for the host-resident row-major `[1, 1, 30, 30]` tensor the requested
shape is `[1, 1, 32, 32]`. -/
theorem move_tensor_to_device_and_pad_request_witness :
    example_host_row_major.legacy_shape.d2 ≤ U32 - 32 ∧
    example_host_row_major.legacy_shape.d3 ≤ U32 - 32 ∧
    new_device_shape example_host_row_major.legacy_shape = shape_32 ∧
    (move_tensor_to_device_and_pad reference_primitives example_host_row_major 0 Layout.TILE
        none).tensor.legacy_shape = shape_32 ∧
    ((new_device_shape example_host_row_major.legacy_shape).d2 % 32 = 0 ∧
      example_host_row_major.legacy_shape.d2 ≤
        (new_device_shape example_host_row_major.legacy_shape).d2 ∧
      ∀ m, m % 32 = 0 → example_host_row_major.legacy_shape.d2 ≤ m →
        (new_device_shape example_host_row_major.legacy_shape).d2 ≤ m) ∧
    ((new_device_shape example_host_row_major.legacy_shape).d3 % 32 = 0 ∧
      example_host_row_major.legacy_shape.d3 ≤
        (new_device_shape example_host_row_major.legacy_shape).d3 ∧
      ∀ m, m % 32 = 0 → example_host_row_major.legacy_shape.d3 ≤ m →
        (new_device_shape example_host_row_major.legacy_shape).d3 ≤ m) :=
  ⟨by decide, by decide, by decide, by decide,
    (move_tensor_to_device_and_pad_request reference_primitives example_host_row_major 0
      Layout.TILE none).2.2.2.2.1 (by decide),
    (move_tensor_to_device_and_pad_request reference_primitives example_host_row_major 0
      Layout.TILE none).2.2.2.2.2.1 (by decide)⟩

end AutoFormat

end tt_metal

/-! ## Properties of the program factory -/

namespace ttnn.operations.unary

open tt_metal

/-- The example tables are well-formed. -/
theorem example_externals_ok : example_externals.ok := by
  refine ⟨fun df => ?_, by decide, by decide⟩
  cases df <;> decide

/-- For a footprint that is a multiple of the tile size, the rounding-up quotient is the
quotient. -/
theorem div_ceil_of_dvd (F T : Nat) (hT : 0 < T) (hdvd : F % T = 0) :
    (F + T - 1) / T = F / T := by
  obtain ⟨k, rfl⟩ := Nat.dvd_of_mod_eq_zero hdvd
  have h1 : T * k + T - 1 = T * k + (T - 1) := by omega
  rw [h1, Nat.mul_add_div hT, Nat.mul_div_cancel_left k hT, Nat.div_eq_of_lt (by omega)]
  rfl

/-- For a footprint that is a multiple of the tile size, the ceiling of the rational quotient
is the quotient. -/
theorem ceil_rat_of_dvd (F T : Nat) (hT : 0 < T) (hdvd : F % T = 0) :
    Nat.ceil ((F : ℚ) / (T : ℚ)) = F / T := by
  obtain ⟨k, rfl⟩ := Nat.dvd_of_mod_eq_zero hdvd
  have hT0 : (T : ℚ) ≠ 0 := by exact_mod_cast hT.ne'
  rw [Nat.mul_div_cancel_left k hT]
  push_cast
  rw [mul_div_cancel_left₀ _ hT0]
  exact Nat.ceil_natCast k

/-- Values up to `2^24` are converted to `float` exactly. -/
theorem float_of_u32_exact (n : Nat) (h : n ≤ 16777216) : float_of_u32 n = n := by
  by_cases h1 : n < 16777216
  · simp [float_of_u32, h1]
  · have h2 : n = 16777216 := by omega
    subst h2
    decide

/-- The tile count of the block format branch. -/
theorem num_tile_per_core_block (E : Externals) (shard_spec : ShardSpec) (act_df : DataFormat)
    (input_tile_size : Nat) :
    num_tile_per_core E shard_spec DataType.BFLOAT8_B act_df input_tile_size =
      Except.ok ((ceil_div_float shard_spec.shape.2 TILE_WIDTH *
        ceil_div_float shard_spec.shape.1 TILE_HEIGHT) % U32) := by
  simp [num_tile_per_core]

/-- On shards of at most `2^24` rows and columns the block format branch computes
`ceil(w / 32) x ceil(h / 32)`, as long as that product fits a `uint32_t`. -/
theorem num_tile_per_core_block_exact (E : Externals) (shard_spec : ShardSpec)
    (act_df : DataFormat) (input_tile_size : Nat)
    (hh : shard_spec.shape.1 ≤ 16777216) (hw : shard_spec.shape.2 ≤ 16777216)
    (hfit : (shard_spec.shape.2 + 31) / 32 * ((shard_spec.shape.1 + 31) / 32) < U32) :
    num_tile_per_core E shard_spec DataType.BFLOAT8_B act_df input_tile_size =
      Except.ok ((shard_spec.shape.2 + 31) / 32 * ((shard_spec.shape.1 + 31) / 32)) := by
  rw [num_tile_per_core_block]
  have e1 : ceil_div_float shard_spec.shape.2 TILE_WIDTH = (shard_spec.shape.2 + 31) / 32 := by
    simp only [ceil_div_float, float_of_u32_exact _ hw, TILE_WIDTH, U32]
    omega
  have e2 : ceil_div_float shard_spec.shape.1 TILE_HEIGHT = (shard_spec.shape.1 + 31) / 32 := by
    simp only [ceil_div_float, float_of_u32_exact _ hh, TILE_HEIGHT, U32]
    omega
  rw [e1, e2, Nat.mod_eq_of_lt hfit]

/-- The tile count of the other branch, for `uint32_t` shard dimensions. -/
theorem num_tile_per_core_plain (E : Externals) (shard_spec : ShardSpec) (dtype : DataType)
    (act_df : DataFormat) (input_tile_size : Nat) (hd : dtype ≠ DataType.BFLOAT8_B)
    (hh : shard_spec.shape.1 < U32) (hw : shard_spec.shape.2 < U32) :
    num_tile_per_core E shard_spec dtype act_df input_tile_size =
      if ¬ ((shard_spec.shape.2 * E.datum_size act_df) % U32) % E.L1_ALIGNMENT = 0 then
        Except.error (Failure.fatal "Shard width should be multiple of L1_ADRESS_ALIGNMENT" [])
      else if ¬ ((shard_spec.shape.1 * round_up_to_mul16 shard_spec.shape.2 *
          E.datum_size act_df) % U64) % input_tile_size = 0 then
        Except.error (Failure.fatal "Shard Size must be multiple of input_tile_size" [])
      else
        Except.ok (((((shard_spec.shape.1 * round_up_to_mul16 shard_spec.shape.2 *
          E.datum_size act_df) % U64 + input_tile_size - 1) % U64) / input_tile_size) % U32) := by
  have e1 : shard_spec.shape.1 % U64 = shard_spec.shape.1 := by
    apply Nat.mod_eq_of_lt
    simp only [U32, U64] at *
    omega
  have e2 : round_up_to_mul16 shard_spec.shape.2 % U64 = round_up_to_mul16 shard_spec.shape.2 := by
    apply Nat.mod_eq_of_lt
    simp only [U32, U64, round_up_to_mul16] at *
    omega
  simp only [num_tile_per_core, hd, if_false, e1, e2]

/-- The part of `unary_sharded` after the tile count, in closed form. -/
theorem unary_sharded_build_eq (E : Externals) (input output : DeviceTensor)
    (op_chain : List UnaryWithParam) (f1 f2 : Bool) (n : Nat) :
    unary_sharded_build E input output op_chain f1 f2 CreateProgram input.shard_spec.grid
      (E.datatype_to_dataformat_converter input.dtype)
      (E.datatype_to_dataformat_converter output.dtype)
      (E.TileSize (E.datatype_to_dataformat_converter input.dtype)) n =
    if input.buffer.buffer_type = BufferType.DRAM then
      Except.error (Failure.fatal "Input buffer should be in L1" [])
    else if output.buffer.buffer_type = BufferType.DRAM then
      Except.error (Failure.fatal "Output buffer should be in L1" [])
    else
      Except.ok
        { program := built_program E input output op_chain f1 f2 n,
          override_runtime_arguments_callback := override_runtime_args_callback 0 0 1 } := by
  unfold unary_sharded_build
  by_cases h1 : input.buffer.buffer_type = BufferType.DRAM
  · simp [h1]
  · by_cases h2 : output.buffer.buffer_type = BufferType.DRAM
    · simp [h1, h2]
    · simp [h1, h2, built_program, CreateProgram, CreateCircularBuffer, CreateKernel,
        SetRuntimeArgs, CircularBufferConfig.create, CircularBufferConfig.set_page_size,
        CircularBufferConfig.set_globally_allocated_address]

/-- What a success of `unary_sharded` tells: the tile count was computed, the validations
passed, and the plan is the built program with the override callback. -/
theorem unary_sharded_ok_inv (E : Externals) (input output : DeviceTensor)
    (op_chain : List UnaryWithParam) (f1 f2 : Bool) (plan : ProgramWithCallbacks)
    (hok : unary_sharded E input output op_chain f1 f2 = Except.ok plan) :
    ∃ n, num_tile_per_core E input.shard_spec input.dtype
          (E.datatype_to_dataformat_converter input.dtype)
          (E.TileSize (E.datatype_to_dataformat_converter input.dtype)) = Except.ok n ∧
      output.shard_spec.num_cores = input.shard_spec.num_cores ∧
      E.TileSize (E.datatype_to_dataformat_converter input.dtype) =
        E.TileSize (E.datatype_to_dataformat_converter output.dtype) ∧
      input.buffer.buffer_type = BufferType.L1 ∧
      output.buffer.buffer_type = BufferType.L1 ∧
      plan = { program := built_program E input output op_chain f1 f2 n,
               override_runtime_arguments_callback := override_runtime_args_callback 0 0 1 } := by
  unfold unary_sharded at hok
  simp only at hok
  split at hok
  · exact absurd hok (by simp)
  · rename_i hc
    split at hok
    · exact absurd hok (by simp)
    · rename_i ht
      split at hok
      · exact absurd hok (by simp)
      · rename_i n hn
        rw [unary_sharded_build_eq] at hok
        split at hok
        · exact absurd hok (by simp)
        · rename_i h1
          split at hok
          · exact absurd hok (by simp)
          · rename_i h2
            refine ⟨n, hn, not_not.mp hc, not_not.mp ht, ?_, ?_, ?_⟩
            · cases hb : input.buffer.buffer_type
              · exact absurd hb h1
              · rfl
            · cases hb : output.buffer.buffer_type
              · exact absurd hb h2
              · rfl
            · exact (Except.ok.inj hok).symm

/-- The converse: when the tile count is computed and the validations pass, `unary_sharded`
returns the built program with the override callback. -/
theorem unary_sharded_ok_of (E : Externals) (input output : DeviceTensor)
    (op_chain : List UnaryWithParam) (f1 f2 : Bool) (n : Nat)
    (hn : num_tile_per_core E input.shard_spec input.dtype
          (E.datatype_to_dataformat_converter input.dtype)
          (E.TileSize (E.datatype_to_dataformat_converter input.dtype)) = Except.ok n)
    (hc : output.shard_spec.num_cores = input.shard_spec.num_cores)
    (ht : E.TileSize (E.datatype_to_dataformat_converter input.dtype) =
        E.TileSize (E.datatype_to_dataformat_converter output.dtype))
    (h1 : input.buffer.buffer_type = BufferType.L1)
    (h2 : output.buffer.buffer_type = BufferType.L1) :
    unary_sharded E input output op_chain f1 f2 =
      Except.ok { program := built_program E input output op_chain f1 f2 n,
                  override_runtime_arguments_callback := override_runtime_args_callback 0 0 1 } := by
  unfold unary_sharded
  simp only [hc, not_true_eq_false, if_false, ht]
  rw [← ht, hn]
  simp only
  rw [unary_sharded_build_eq]
  simp [h1, h2]

/-- The example plan is what `unary_sharded` returns for the four-core example pair. -/
theorem example_plan_built :
    unary_sharded example_externals example_input_4 example_output_4 [] false false =
      Except.ok example_plan := by
  exact unary_sharded_ok_of example_externals example_input_4 example_output_4 [] false false 1
    rfl (by decide) (by decide) rfl rfl

/-- The callback on a program whose first two staging resources are the input and the output
resource. -/
theorem callback_at_heads (cb_in cb_out : CircularBuffer) (rest : List CircularBuffer)
    (kernels : List Kernel) (runtime_args : List RuntimeArgs) (k : Nat)
    (input0 : DeviceTensor) (inputs : List DeviceTensor)
    (optional : List (Option DeviceTensor)) (output0 : DeviceTensor)
    (outputs : List DeviceTensor) :
    override_runtime_args_callback k 0 1
        { circular_buffers := cb_in :: cb_out :: rest, kernels := kernels,
          runtime_args := runtime_args }
        (input0 :: inputs) optional (output0 :: outputs) =
      Except.ok
        { circular_buffers :=
            { cb_in with config :=
                { cb_in.config with globally_allocated_address := some input0.buffer.address } } ::
            { cb_out with config :=
                { cb_out.config with
                    globally_allocated_address := some output0.buffer.address } } :: rest,
          kernels := kernels,
          runtime_args := runtime_args } := by
  simp [override_runtime_args_callback, at0, UpdateDynamicCircularBufferAddress,
    CircularBufferConfig.set_globally_allocated_address, List.modify]

/-- The callback never touches kernel tasks, runtime arguments or the number of staging
resources. -/
theorem callback_frame (k a b : Nat) (program : Program)
    (input0 : DeviceTensor) (inputs : List DeviceTensor)
    (optional : List (Option DeviceTensor)) (output0 : DeviceTensor)
    (outputs : List DeviceTensor) :
    ∃ updated, override_runtime_args_callback k a b program (input0 :: inputs) optional
        (output0 :: outputs) = Except.ok updated ∧
      updated.kernels = program.kernels ∧ updated.runtime_args = program.runtime_args ∧
      updated.circular_buffers.length = program.circular_buffers.length := by
  refine ⟨_, rfl, rfl, rfl, ?_⟩
  simp [UpdateDynamicCircularBufferAddress]

/-- Claim C5: for every input/output pair whose shard specs have different core counts,
`unary_sharded` fails fatally, returns no plan, and the failure carries both core counts (the
output's, then the input's, in the order of the message). -/
theorem unary_sharded_core_count_mismatch (E : Externals) (input output : DeviceTensor)
    (op_chain : List UnaryWithParam) (fp32_dest_acc_en preserve_fp32_precision : Bool)
    (h : input.shard_spec.num_cores ≠ output.shard_spec.num_cores) :
    unary_sharded E input output op_chain fp32_dest_acc_en preserve_fp32_precision =
      Except.error (Failure.fatal
        "Output tensor should have same number of cores \x7b\x7d as input tensor \x7b\x7d"
        [output.shard_spec.num_cores, input.shard_spec.num_cores]) := by
  have h2 : ¬ output.shard_spec.num_cores = input.shard_spec.num_cores := fun e => h e.symm
  simp [unary_sharded, h2]

/-- Witness of C5: an input on 4 cores and an output on 3 cores; the failure reports 3
and 4. -/
theorem unary_sharded_core_count_mismatch_witness :
    example_input_4.shard_spec.num_cores = 4 ∧ example_output_3.shard_spec.num_cores = 3 ∧
    example_input_4.shard_spec.num_cores ≠ example_output_3.shard_spec.num_cores ∧
    unary_sharded example_externals example_input_4 example_output_3 [] false false =
      Except.error (Failure.fatal
        "Output tensor should have same number of cores \x7b\x7d as input tensor \x7b\x7d"
        [3, 4]) :=
  ⟨by decide, by decide, by decide,
    unary_sharded_core_count_mismatch example_externals example_input_4 example_output_3 []
      false false (by decide)⟩

/-- Counterexample to C6 as stated: bfloat16 shards of 64 rows of 4 elements on four cores.
Core counts and tile sizes agree, both buffers are core-local and the footprint
`64 x round_up(4, 16) x 2 = 2048` is a multiple of the tile size 2048, yet `unary_sharded`
fails: the row width of `4 x 2 = 8` bytes is not a multiple of the L1 alignment. -/
theorem unary_sharded_alignment_counterexample :
    example_output_64x4.shard_spec.num_cores = example_input_64x4.shard_spec.num_cores ∧
    example_externals.TileSize
        (example_externals.datatype_to_dataformat_converter example_input_64x4.dtype) =
      example_externals.TileSize
        (example_externals.datatype_to_dataformat_converter example_output_64x4.dtype) ∧
    example_input_64x4.buffer.buffer_type = BufferType.L1 ∧
    example_output_64x4.buffer.buffer_type = BufferType.L1 ∧
    (64 * round_up_to_mul16 4 * 2) % 2048 = 0 ∧
    unary_sharded example_externals example_input_64x4 example_output_64x4 [] false false =
      Except.error
        (Failure.fatal "Shard width should be multiple of L1_ADRESS_ALIGNMENT" []) :=
  ⟨by decide, by decide, rfl, rfl, by decide, rfl⟩

/-- Claim C6, amended: for `uint32_t` shard dimensions `h` and `w`, `unary_sharded` returns a
plan if and only if the core counts are equal, the tile byte sizes are equal, both buffers are
core-local and, for an input type other than `BFLOAT8_B`, the row byte width `w x element_size`
is a multiple of the L1 alignment and the footprint `h x round_up(w, 16) x element_size` is a
multiple of the tile byte size (both as the code computes them, in 32 and 64 bits). -/
theorem unary_sharded_succeeds_iff (E : Externals) (_hE : E.ok) (input output : DeviceTensor)
    (op_chain : List UnaryWithParam) (fp32_dest_acc_en preserve_fp32_precision : Bool)
    (hh : input.shard_spec.shape.1 < U32) (hw : input.shard_spec.shape.2 < U32) :
    (∃ plan, unary_sharded E input output op_chain fp32_dest_acc_en preserve_fp32_precision =
        Except.ok plan) ↔
      (output.shard_spec.num_cores = input.shard_spec.num_cores ∧
        E.TileSize (E.datatype_to_dataformat_converter input.dtype) =
          E.TileSize (E.datatype_to_dataformat_converter output.dtype) ∧
        input.buffer.buffer_type = BufferType.L1 ∧
        output.buffer.buffer_type = BufferType.L1 ∧
        (input.dtype ≠ DataType.BFLOAT8_B →
          ((input.shard_spec.shape.2 *
              E.datum_size (E.datatype_to_dataformat_converter input.dtype)) % U32) %
            E.L1_ALIGNMENT = 0 ∧
          ((input.shard_spec.shape.1 * round_up_to_mul16 input.shard_spec.shape.2 *
              E.datum_size (E.datatype_to_dataformat_converter input.dtype)) % U64) %
            E.TileSize (E.datatype_to_dataformat_converter input.dtype) = 0)) := by
  constructor
  · rintro ⟨plan, hok⟩
    obtain ⟨n, hn, hc, ht, h1, h2, -⟩ := unary_sharded_ok_inv E input output op_chain _ _ plan hok
    refine ⟨hc, ht, h1, h2, ?_⟩
    intro hd
    rw [num_tile_per_core_plain E _ _ _ _ hd hh hw] at hn
    split at hn
    · exact absurd hn (by simp)
    · rename_i ha
      split at hn
      · exact absurd hn (by simp)
      · rename_i hf
        exact ⟨not_not.mp ha, not_not.mp hf⟩
  · rintro ⟨hc, ht, h1, h2, hcond⟩
    by_cases hd : input.dtype = DataType.BFLOAT8_B
    · exact ⟨_, unary_sharded_ok_of E input output op_chain _ _ _
        (by rw [hd]; exact num_tile_per_core_block E _ _ _) hc ht h1 h2⟩
    · obtain ⟨ha, hf⟩ := hcond hd
      have hn := num_tile_per_core_plain E input.shard_spec input.dtype
        (E.datatype_to_dataformat_converter input.dtype)
        (E.TileSize (E.datatype_to_dataformat_converter input.dtype)) hd hh hw
      simp only [ha, hf, not_true_eq_false, if_false] at hn
      exact ⟨_, unary_sharded_ok_of E input output op_chain _ _ _ hn hc ht h1 h2⟩

/-- Witness of C6: the scenario of four cores on both sides, tile size 2048 on both sides,
both buffers core-local, with bfloat16 shards of 32 x 32 elements: `unary_sharded` succeeds. -/
theorem unary_sharded_succeeds_iff_witness :
    example_externals.ok ∧ example_input_4.shard_spec.shape.1 < U32 ∧
    example_input_4.shard_spec.shape.2 < U32 ∧
    example_input_4.shard_spec.num_cores = 4 ∧
    example_output_4.shard_spec.num_cores = 4 ∧
    example_externals.TileSize
      (example_externals.datatype_to_dataformat_converter example_input_4.dtype) = 2048 ∧
    (∃ plan, unary_sharded example_externals example_input_4 example_output_4 [] false false =
      Except.ok plan) :=
  ⟨example_externals_ok, by decide, by decide, by decide, by decide, by decide,
    (unary_sharded_succeeds_iff example_externals example_externals_ok example_input_4
      example_output_4 [] false false (by decide) (by decide)).mpr
      ⟨by decide, by decide, rfl, rfl, fun _ => by decide⟩⟩

/-- Claim C7: the override callback of a plan returned by `unary_sharded`, applied to a state
of the plan's program (the input and the output staging resource first, whatever they and the
rest of the program hold) and to non-empty tensor lists, sets the backing address of the input
resource to the first input tensor's buffer and that of the output resource to the first
output tensor's buffer and changes nothing else: sizes, page sizes, core sets, further
resources, kernel tasks with their compile-time arguments and runtime arguments stay as they
are.  On any program whatever it leaves kernel tasks and runtime arguments unchanged. -/
theorem override_callback_rewrites_addresses_only (E : Externals)
    (input output : DeviceTensor) (op_chain : List UnaryWithParam)
    (fp32_dest_acc_en preserve_fp32_precision : Bool) (plan : ProgramWithCallbacks)
    (hok : unary_sharded E input output op_chain fp32_dest_acc_en preserve_fp32_precision =
      Except.ok plan)
    (cb_in cb_out : CircularBuffer) (rest : List CircularBuffer)
    (kernels : List Kernel) (runtime_args : List RuntimeArgs)
    (input0 : DeviceTensor) (inputs : List DeviceTensor)
    (optional : List (Option DeviceTensor)) (output0 : DeviceTensor)
    (outputs : List DeviceTensor) :
    plan.override_runtime_arguments_callback
        { circular_buffers := cb_in :: cb_out :: rest, kernels := kernels,
          runtime_args := runtime_args }
        (input0 :: inputs) optional (output0 :: outputs) =
      Except.ok
        { circular_buffers :=
            { cb_in with config :=
                { cb_in.config with globally_allocated_address := some input0.buffer.address } } ::
            { cb_out with config :=
                { cb_out.config with
                    globally_allocated_address := some output0.buffer.address } } :: rest,
          kernels := kernels,
          runtime_args := runtime_args } ∧
    (∀ program : Program, ∃ updated,
      plan.override_runtime_arguments_callback program (input0 :: inputs) optional
        (output0 :: outputs) = Except.ok updated ∧
      updated.kernels = program.kernels ∧ updated.runtime_args = program.runtime_args ∧
      updated.circular_buffers.length = program.circular_buffers.length) := by
  obtain ⟨n, -, -, -, -, -, hplan⟩ := unary_sharded_ok_inv E input output op_chain _ _ plan hok
  subst hplan
  exact ⟨callback_at_heads cb_in cb_out rest kernels runtime_args 0 input0 inputs optional
      output0 outputs,
    fun program => callback_frame 0 0 1 program input0 inputs optional output0 outputs⟩

/-- Witness of C7: the callback of the example plan, run on the plan's own program with the
tensors moved to other buffers. -/
theorem override_callback_rewrites_addresses_only_witness :
    unary_sharded example_externals example_input_4 example_output_4 [] false false =
      Except.ok example_plan ∧
    example_plan.override_runtime_arguments_callback example_plan.program
        [example_input_moved] [] [example_output_moved] =
      Except.ok (built_program example_externals example_input_moved example_output_moved []
        false false 1) :=
  ⟨example_plan_built,
    (override_callback_rewrites_addresses_only example_externals example_input_4
      example_output_4 [] false false example_plan example_plan_built _ _ [] _ _
      example_input_moved [] [] example_output_moved []).1⟩

/-- Claim C8: cache reuse.  For two input/output pairs that agree on data types, shard specs
and buffer placement (same op-chain and precision flags), `unary_sharded` succeeds on both or
on neither; when it succeeds the two plans have the same kernel tasks (compile-time arguments
included) and runtime arguments, their staging resources agree up to the backing addresses,
and the first plan's callback run on the first program with the second pair yields the second
program. -/
theorem unary_sharded_cache_reuse (E : Externals)
    (input1 output1 input2 output2 : DeviceTensor)
    (op_chain : List UnaryWithParam) (fp32_dest_acc_en preserve_fp32_precision : Bool)
    (hid : input1.dtype = input2.dtype) (his : input1.shard_spec = input2.shard_spec)
    (hib : input1.buffer.buffer_type = input2.buffer.buffer_type)
    (hod : output1.dtype = output2.dtype) (hos : output1.shard_spec = output2.shard_spec)
    (hob : output1.buffer.buffer_type = output2.buffer.buffer_type) :
    ((∃ plan1, unary_sharded E input1 output1 op_chain fp32_dest_acc_en
        preserve_fp32_precision = Except.ok plan1) ↔
      (∃ plan2, unary_sharded E input2 output2 op_chain fp32_dest_acc_en
        preserve_fp32_precision = Except.ok plan2)) ∧
    (∀ plan1 plan2,
      unary_sharded E input1 output1 op_chain fp32_dest_acc_en preserve_fp32_precision =
        Except.ok plan1 →
      unary_sharded E input2 output2 op_chain fp32_dest_acc_en preserve_fp32_precision =
        Except.ok plan2 →
      plan1.program.kernels = plan2.program.kernels ∧
      plan1.program.runtime_args = plan2.program.runtime_args ∧
      plan1.program.circular_buffers.map CircularBuffer.without_address =
        plan2.program.circular_buffers.map CircularBuffer.without_address ∧
      plan1.override_runtime_arguments_callback plan1.program [input2] [] [output2] =
        Except.ok plan2.program) := by
  constructor
  · constructor
    · rintro ⟨plan1, hok⟩
      obtain ⟨n, hn, hc, ht, h1, h2, -⟩ := unary_sharded_ok_inv E _ _ op_chain _ _ plan1 hok
      rw [hid, his] at hn
      rw [hos, his] at hc
      rw [hid, hod] at ht
      exact ⟨_, unary_sharded_ok_of E input2 output2 op_chain _ _ n hn hc ht
        (hib ▸ h1) (hob ▸ h2)⟩
    · rintro ⟨plan2, hok⟩
      obtain ⟨n, hn, hc, ht, h1, h2, -⟩ := unary_sharded_ok_inv E _ _ op_chain _ _ plan2 hok
      rw [← hid, ← his] at hn
      rw [← hos, ← his] at hc
      rw [← hid, ← hod] at ht
      exact ⟨_, unary_sharded_ok_of E input1 output1 op_chain _ _ n hn hc ht
        (hib ▸ h1) (hob ▸ h2)⟩
  · intro plan1 plan2 hok1 hok2
    obtain ⟨n1, hn1, -, -, -, -, hp1⟩ := unary_sharded_ok_inv E _ _ op_chain _ _ plan1 hok1
    obtain ⟨n2, hn2, -, -, -, -, hp2⟩ := unary_sharded_ok_inv E _ _ op_chain _ _ plan2 hok2
    rw [hid, his, hn2] at hn1
    have hn : n2 = n1 := Except.ok.inj hn1
    subst hp1 hp2 hn
    simp [built_program, hid, his, hod, CircularBuffer.without_address,
      override_runtime_args_callback, at0, UpdateDynamicCircularBufferAddress,
      CircularBufferConfig.set_globally_allocated_address, List.modify]

/-- Witness of C8: the four-core pair and the same pair in other buffers. -/
theorem unary_sharded_cache_reuse_witness :
    example_input_4.dtype = example_input_moved.dtype ∧
    example_input_4.shard_spec = example_input_moved.shard_spec ∧
    example_input_4.buffer.buffer_type = example_input_moved.buffer.buffer_type ∧
    example_output_4.dtype = example_output_moved.dtype ∧
    example_output_4.shard_spec = example_output_moved.shard_spec ∧
    example_output_4.buffer.buffer_type = example_output_moved.buffer.buffer_type ∧
    example_input_4.buffer ≠ example_input_moved.buffer ∧
    example_output_4.buffer ≠ example_output_moved.buffer ∧
    ((∃ plan1, unary_sharded example_externals example_input_4 example_output_4 [] false
        false = Except.ok plan1) ↔
      (∃ plan2, unary_sharded example_externals example_input_moved example_output_moved []
        false false = Except.ok plan2)) :=
  ⟨rfl, rfl, rfl, rfl, rfl, rfl, by decide, by decide,
    (unary_sharded_cache_reuse example_externals example_input_4 example_output_4
      example_input_moved example_output_moved [] false false rfl rfl rfl rfl rfl rfl).1⟩

/-- Counterexample to C9 as stated: a bfloat16 shard of `2^22` rows of `2^21` elements.
`unary_sharded` succeeds, the exact quotient `(h x round_up(w, 16) x 2) / 2048` is `2^33`, and
the per-core tile count, a `uint32_t`, is 0. -/
theorem unary_sharded_tile_count_wraps_counterexample :
    example_input_huge.dtype ≠ DataType.BFLOAT8_B ∧
    (∃ plan, unary_sharded example_externals example_input_huge example_output_huge [] false
        false = Except.ok plan ∧
      plan.program.runtime_args = [{ kernel := 0, core_spec := grid_1, args := [0] }]) ∧
    num_tile_per_core example_externals example_input_huge.shard_spec DataType.BFLOAT16
      DataFormat.Float16_b 2048 = Except.ok 0 ∧
    4194304 * round_up_to_mul16 2097152 * 2 / 2048 = 8589934592 :=
  ⟨by decide, ⟨_, unary_sharded_ok_of example_externals example_input_huge
    example_output_huge [] false false 0 rfl (by decide) (by decide) rfl rfl, rfl⟩,
    rfl, by decide⟩

/-- Claim C9, amended: for an input type other than `BFLOAT8_B` with element byte size `Esz`
and tile byte size `T`, and a shard of `uint32_t` height `h` and width `w` whose quotient
`(h x round_up(w, 16) x Esz) / T` fits the `uint32_t` tile counter: whenever `unary_sharded`
succeeds the footprint is a multiple of `T`, the rounding-up quotient
`(footprint + T - 1) / T` of the code is the exact quotient, which is the ceiling of
`footprint / T`, and the per-core tile count (the runtime argument of the data-supply task)
is that quotient. -/
theorem unary_sharded_tile_count_exact (E : Externals) (hE : E.ok)
    (input output : DeviceTensor) (op_chain : List UnaryWithParam)
    (fp32_dest_acc_en preserve_fp32_precision : Bool) (plan : ProgramWithCallbacks)
    (h w Esz T : Nat)
    (hshape : input.shard_spec.shape = (h, w))
    (hEsz : E.datum_size (E.datatype_to_dataformat_converter input.dtype) = Esz)
    (hT : E.TileSize (E.datatype_to_dataformat_converter input.dtype) = T)
    (hd : input.dtype ≠ DataType.BFLOAT8_B)
    (hh : h < U32) (hw : w < U32)
    (hcnt : h * round_up_to_mul16 w * Esz / T < U32)
    (hok : unary_sharded E input output op_chain fp32_dest_acc_en preserve_fp32_precision =
      Except.ok plan) :
    (h * round_up_to_mul16 w * Esz) % T = 0 ∧
    (h * round_up_to_mul16 w * Esz + T - 1) / T = h * round_up_to_mul16 w * Esz / T ∧
    Nat.ceil (((h * round_up_to_mul16 w * Esz : Nat) : ℚ) / (T : ℚ)) =
      h * round_up_to_mul16 w * Esz / T ∧
    num_tile_per_core E input.shard_spec input.dtype
        (E.datatype_to_dataformat_converter input.dtype) T =
      Except.ok (h * round_up_to_mul16 w * Esz / T) ∧
    plan.program.runtime_args =
      [{ kernel := 0, core_spec := input.shard_spec.grid,
         args := [h * round_up_to_mul16 w * Esz / T] }] ∧
    plan.program = built_program E input output op_chain fp32_dest_acc_en
      preserve_fp32_precision (h * round_up_to_mul16 w * Esz / T) := by
  subst hEsz hT
  obtain ⟨n, hn, -, -, -, -, hplan⟩ := unary_sharded_ok_inv E input output op_chain _ _ plan hok
  have hTpos : 0 < E.TileSize (E.datatype_to_dataformat_converter input.dtype) := (hE.1 _).1
  have hTlt : E.TileSize (E.datatype_to_dataformat_converter input.dtype) < U32 :=
    (hE.1 _).2.1
  have hfit : h * round_up_to_mul16 w *
      E.datum_size (E.datatype_to_dataformat_converter input.dtype) +
      E.TileSize (E.datatype_to_dataformat_converter input.dtype) ≤ U64 := by
    have h1 := (Nat.div_lt_iff_lt_mul hTpos).mp hcnt
    simp only [U32, U64] at *
    omega
  have hh' : input.shard_spec.shape.1 < U32 := by rw [hshape]; exact hh
  have hw' : input.shard_spec.shape.2 < U32 := by rw [hshape]; exact hw
  have hn0 := hn
  rw [num_tile_per_core_plain E _ _ _ _ hd hh' hw', hshape] at hn
  simp only at hn
  rw [Nat.mod_eq_of_lt (show h * round_up_to_mul16 w *
    E.datum_size (E.datatype_to_dataformat_converter input.dtype) < U64 by omega)] at hn
  split at hn
  · exact absurd hn (by simp)
  · split at hn
    · exact absurd hn (by simp)
    · rename_i hf
      have hdvd := not_not.mp hf
      have hc := div_ceil_of_dvd _ _ hTpos hdvd
      rw [Nat.mod_eq_of_lt (show h * round_up_to_mul16 w *
          E.datum_size (E.datatype_to_dataformat_converter input.dtype) +
          E.TileSize (E.datatype_to_dataformat_converter input.dtype) - 1 < U64 by omega),
        hc, Nat.mod_eq_of_lt hcnt] at hn
      have hn' : h * round_up_to_mul16 w *
          E.datum_size (E.datatype_to_dataformat_converter input.dtype) /
          E.TileSize (E.datatype_to_dataformat_converter input.dtype) = n := Except.ok.inj hn
      subst hplan
      rw [hn']
      exact ⟨hdvd, hn' ▸ hc, hn' ▸ ceil_rat_of_dvd _ _ hTpos hdvd, hn0, rfl, rfl⟩

/-- Witness of C9: bfloat16 shards of 32 x 32 elements, one tile of 2048 bytes per core. -/
theorem unary_sharded_tile_count_exact_witness :
    example_externals.ok ∧ example_input_4.shard_spec.shape = (32, 32) ∧
    example_input_4.dtype ≠ DataType.BFLOAT8_B ∧
    32 * round_up_to_mul16 32 * 2 / 2048 < U32 ∧
    unary_sharded example_externals example_input_4 example_output_4 [] false false =
      Except.ok example_plan ∧
    num_tile_per_core example_externals example_input_4.shard_spec example_input_4.dtype
        (example_externals.datatype_to_dataformat_converter example_input_4.dtype) 2048 =
      Except.ok (32 * round_up_to_mul16 32 * 2 / 2048) :=
  ⟨example_externals_ok, rfl, by decide, by decide, example_plan_built,
    (unary_sharded_tile_count_exact example_externals example_externals_ok example_input_4
      example_output_4 [] false false example_plan 32 32 2 2048 rfl rfl rfl (by decide)
      (by decide) (by decide) (by decide) example_plan_built).2.2.2.1⟩

/-- Claim C10, at the failing input: for a `BFLOAT8_B` shard of 32 rows of `2^24 + 1`
elements the code computes 524288 tiles per core (the width is rounded to `2^24` when it is
converted to `float`), while `ceil(w / 32) x ceil(h / 32)` is 524289. -/
theorem unary_sharded_block_tile_count_at_16777217 :
    num_tile_per_core example_externals example_input_block.shard_spec DataType.BFLOAT8_B
      DataFormat.Bfp8_b 1088 = Except.ok 524288 ∧
    (∃ plan, unary_sharded example_externals example_input_block example_output_block [] false
        false = Except.ok plan ∧
      plan.program.runtime_args = [{ kernel := 0, core_spec := grid_1, args := [524288] }]) ∧
    Nat.ceil ((16777217 : ℚ) / 32) * Nat.ceil ((32 : ℚ) / 32) = 524289 := by
  refine ⟨rfl, ⟨_, unary_sharded_ok_of example_externals example_input_block
    example_output_block [] false false 524288 rfl (by decide) (by decide) rfl rfl,
    rfl⟩, ?_⟩
  have h1 : Nat.ceil ((16777217 : ℚ) / 32) = 524289 := by
    rw [Nat.ceil_eq_iff (by norm_num)]
    constructor <;> norm_num
  have h2 : Nat.ceil ((32 : ℚ) / 32) = 1 := by
    rw [Nat.ceil_eq_iff (by norm_num)]
    constructor <;> norm_num
  rw [h1, h2]

/-- The per-core tile count is a `uint32_t`. -/
theorem num_tile_per_core_lt (E : Externals) (shard_spec : ShardSpec) (dtype : DataType)
    (act_df : DataFormat) (input_tile_size n : Nat)
    (h : num_tile_per_core E shard_spec dtype act_df input_tile_size = Except.ok n) :
    n < U32 := by
  unfold num_tile_per_core at h
  split at h
  · have e := Except.ok.inj h
    rw [← e]
    exact Nat.mod_lt _ (by decide)
  · split at h
    · exact absurd h (by simp)
    · simp only at h
      split at h
      · exact absurd h (by simp)
      · have e := Except.ok.inj h
        rw [← e]
        exact Nat.mod_lt _ (by decide)

/-- Claim C13: `unary_sharded` returns a plan only if both buffers are core-local: when the
input buffer or the output buffer is not in L1, it fails and returns no plan. -/
theorem unary_sharded_requires_l1 (E : Externals) (input output : DeviceTensor)
    (op_chain : List UnaryWithParam) (fp32_dest_acc_en preserve_fp32_precision : Bool)
    (h : input.buffer.buffer_type ≠ BufferType.L1 ∨ output.buffer.buffer_type ≠ BufferType.L1) :
    ∃ e, unary_sharded E input output op_chain fp32_dest_acc_en preserve_fp32_precision =
      Except.error e := by
  cases hres : unary_sharded E input output op_chain fp32_dest_acc_en preserve_fp32_precision with
  | error e => exact ⟨e, rfl⟩
  | ok plan =>
    obtain ⟨n, -, -, -, h1, h2, -⟩ := unary_sharded_ok_inv E input output op_chain _ _ plan hres
    rcases h with h | h
    · exact absurd h1 h
    · exact absurd h2 h

/-- Witness of C13: the four-core pair with the input in a DRAM buffer; the failure is
"Input buffer should be in L1". -/
theorem unary_sharded_requires_l1_witness :
    (example_input_dram.buffer.buffer_type ≠ BufferType.L1 ∨
      example_output_4.buffer.buffer_type ≠ BufferType.L1) ∧
    (∃ e, unary_sharded example_externals example_input_dram example_output_4 [] false false =
      Except.error e) ∧
    unary_sharded example_externals example_input_dram example_output_4 [] false false =
      Except.error (Failure.fatal "Input buffer should be in L1" []) :=
  ⟨Or.inl (by decide),
    unary_sharded_requires_l1 example_externals example_input_dram example_output_4 [] false
      false (Or.inl (by decide)),
    rfl⟩

/-- Claim C14: for every input/output pair whose tile byte sizes, derived from the data
formats of the two tensors, differ, `unary_sharded` fails and returns no plan. -/
theorem unary_sharded_requires_equal_tile_size (E : Externals) (input output : DeviceTensor)
    (op_chain : List UnaryWithParam) (fp32_dest_acc_en preserve_fp32_precision : Bool)
    (h : E.TileSize (E.datatype_to_dataformat_converter input.dtype) ≠
      E.TileSize (E.datatype_to_dataformat_converter output.dtype)) :
    ∃ e, unary_sharded E input output op_chain fp32_dest_acc_en preserve_fp32_precision =
      Except.error e := by
  cases hres : unary_sharded E input output op_chain fp32_dest_acc_en preserve_fp32_precision with
  | error e => exact ⟨e, rfl⟩
  | ok plan =>
    obtain ⟨n, -, -, ht, -, -, -⟩ := unary_sharded_ok_inv E input output op_chain _ _ plan hres
    exact absurd ht h

/-- Witness of C14: a bfloat16 input (tiles of 2048 bytes) with a float32 output (tiles of
4096 bytes). -/
theorem unary_sharded_requires_equal_tile_size_witness :
    example_externals.TileSize
        (example_externals.datatype_to_dataformat_converter example_input_4.dtype) ≠
      example_externals.TileSize
        (example_externals.datatype_to_dataformat_converter example_output_float32.dtype) ∧
    (∃ e, unary_sharded example_externals example_input_4 example_output_float32 [] false
      false = Except.error e) :=
  ⟨by decide,
    unary_sharded_requires_equal_tile_size example_externals example_input_4
      example_output_float32 [] false false (by decide)⟩

/-- Counterexample to C11 as stated: a bfloat16 shard of `2^16` rows of `2^15` elements.
`unary_sharded` succeeds with `2^21` tiles per core and page size 2048; page size x tile count
is `2^32`, and the total size of both staging resources, a `uint32_t`, is 0. -/
theorem unary_sharded_staging_size_wraps_counterexample :
    num_tile_per_core example_externals example_input_4g.shard_spec DataType.BFLOAT16
      DataFormat.Float16_b 2048 = Except.ok 2097152 ∧
    round_up_to_mul32 2048 * 2097152 = 4294967296 ∧
    (∃ plan, unary_sharded example_externals example_input_4g example_output_4g [] false
        false = Except.ok plan ∧
      plan.program.circular_buffers.map (fun cb => cb.config.total_size) = [0, 0] ∧
      plan.program.circular_buffers.map (fun cb => cb.config.page_sizes) =
        [[(0, 2048)], [(16, 2048)]]) :=
  ⟨rfl, by decide, ⟨_, unary_sharded_ok_of example_externals example_input_4g
    example_output_4g [] false false 2097152 rfl (by decide) (by decide) rfl rfl, rfl, rfl⟩⟩

/-- Claim C11, amended: whenever `unary_sharded` succeeds with per-core tile count `n` and the
page size `round_up(T, 32)` and the product page size x `n` fit a `uint32_t` (`T` the input
tile byte size): the program has exactly two staging resources, both on the input shard grid;
the input resource has page size `round_up(T, 32)`, total size page size x `n` and the input
buffer's address; the output resource has page size `round_up(T_out, 32)` for the output tile
byte size `T_out`, total size that page size x `n` and the output buffer's address. -/
theorem unary_sharded_staging_resources (E : Externals) (input output : DeviceTensor)
    (op_chain : List UnaryWithParam) (fp32_dest_acc_en preserve_fp32_precision : Bool)
    (plan : ProgramWithCallbacks) (n T : Nat)
    (hT : E.TileSize (E.datatype_to_dataformat_converter input.dtype) = T)
    (hn : num_tile_per_core E input.shard_spec input.dtype
      (E.datatype_to_dataformat_converter input.dtype) T = Except.ok n)
    (hps : round_up_to_mul32 T < U32)
    (hfit : round_up_to_mul32 T * n < U32)
    (hok : unary_sharded E input output op_chain fp32_dest_acc_en preserve_fp32_precision =
      Except.ok plan) :
    plan.program.circular_buffers =
      [{ core_ranges := input.shard_spec.grid,
         config :=
          { total_size := round_up_to_mul32 T * n,
            data_format_spec := [(E.c_in0, E.datatype_to_dataformat_converter input.dtype)],
            page_sizes := [(E.c_in0, round_up_to_mul32 T)],
            globally_allocated_address := some input.buffer.address } },
       { core_ranges := input.shard_spec.grid,
         config :=
          { total_size :=
              round_up_to_mul32 (E.TileSize (E.datatype_to_dataformat_converter output.dtype)) *
                n,
            data_format_spec := [(E.c_out0, E.datatype_to_dataformat_converter output.dtype)],
            page_sizes :=
              [(E.c_out0,
                round_up_to_mul32
                  (E.TileSize (E.datatype_to_dataformat_converter output.dtype)))],
            globally_allocated_address := some output.buffer.address } }] := by
  subst hT
  obtain ⟨m, hm, -, ht, -, -, hplan⟩ :=
    unary_sharded_ok_inv E input output op_chain _ _ plan hok
  rw [hn] at hm
  have hnm : n = m := Except.ok.inj hm
  subst hnm hplan
  have hn32 : n * 1 % U32 = n := by
    rw [Nat.mul_one]
    exact Nat.mod_eq_of_lt (num_tile_per_core_lt E _ _ _ _ n hn)
  simp only [built_program, hn32, Nat.mod_eq_of_lt hps, Nat.mod_eq_of_lt hfit, ← ht]

/-- The approximate-evaluation flags of the tasks of the built program: one, of the compute
task. -/
theorem built_program_math_approx_mode (E : Externals) (input output : DeviceTensor)
    (op_chain : List UnaryWithParam) (f1 f2 : Bool) (n : Nat) :
    (built_program E input output op_chain f1 f2 n).kernels.filterMap Kernel.math_approx_mode =
      [op_chain.all (fun u => E.get_op_approx_mode u.op_type)] := by
  simp [built_program, Kernel.math_approx_mode]

/-- Claim C12: whenever `unary_sharded` succeeds, the compute task is the one task with an
approximate-evaluation flag, and the flag is true if and only if every operation of the
op-chain permits approximate evaluation; it is true for the empty chain, and it is the same
for every reordering of the chain. -/
theorem unary_sharded_math_approx_mode (E : Externals) (input output : DeviceTensor)
    (op_chain : List UnaryWithParam) (fp32_dest_acc_en preserve_fp32_precision : Bool)
    (plan : ProgramWithCallbacks)
    (hok : unary_sharded E input output op_chain fp32_dest_acc_en preserve_fp32_precision =
      Except.ok plan) :
    (∃ flag, plan.program.kernels.filterMap Kernel.math_approx_mode = [flag] ∧
      (flag = true ↔ ∀ u ∈ op_chain, E.get_op_approx_mode u.op_type = true)) ∧
    (op_chain = [] → plan.program.kernels.filterMap Kernel.math_approx_mode = [true]) ∧
    (∀ (reordered : List UnaryWithParam) (plan2 : ProgramWithCallbacks),
      reordered.Perm op_chain →
      unary_sharded E input output reordered fp32_dest_acc_en preserve_fp32_precision =
        Except.ok plan2 →
      plan2.program.kernels.filterMap Kernel.math_approx_mode =
        plan.program.kernels.filterMap Kernel.math_approx_mode) := by
  obtain ⟨n, -, -, -, -, -, hplan⟩ := unary_sharded_ok_inv E input output op_chain _ _ plan hok
  subst hplan
  refine ⟨⟨_, built_program_math_approx_mode E input output op_chain _ _ n, ?_⟩, ?_, ?_⟩
  · simp [List.all_eq_true]
  · intro hnil
    subst hnil
    simp [built_program_math_approx_mode]
  · intro reordered plan2 hperm hok2
    obtain ⟨n2, -, -, -, -, -, hplan2⟩ :=
      unary_sharded_ok_inv E input output reordered _ _ plan2 hok2
    subst hplan2
    simp only [built_program_math_approx_mode, List.cons.injEq, and_true]
    rw [Bool.eq_iff_iff]
    simp only [List.all_eq_true]
    exact ⟨fun h u hu => h u (hperm.symm.subset hu), fun h u hu => h u (hperm.subset hu)⟩

/-- Witness of C12: a chain of two operations of which the second does not permit
approximate evaluation: the flag is false. -/
theorem unary_sharded_math_approx_mode_witness :
    unary_sharded example_externals_approx example_input_4 example_output_4 example_op_chain
        false false =
      Except.ok
        { program := built_program example_externals_approx example_input_4 example_output_4
            example_op_chain false false 1,
          override_runtime_arguments_callback := override_runtime_args_callback 0 0 1 } ∧
    (built_program example_externals_approx example_input_4 example_output_4 example_op_chain
        false false 1).kernels.filterMap Kernel.math_approx_mode = [false] ∧
    ∃ flag, (built_program example_externals_approx example_input_4 example_output_4
        example_op_chain false false 1).kernels.filterMap Kernel.math_approx_mode = [flag] ∧
      (flag = true ↔
        ∀ u ∈ example_op_chain, example_externals_approx.get_op_approx_mode u.op_type = true) :=
  ⟨rfl, by decide,
    (unary_sharded_math_approx_mode example_externals_approx example_input_4 example_output_4
      example_op_chain false false _ rfl).1⟩

/-- Claim C20: whenever `unary_sharded` succeeds with per-core tile count `n`, the program has
two tasks on the input shard grid: the data-supply task with compile-time arguments
`[c_in0]`, the identifier of the input staging resource, and runtime arguments `[n]`, and the
compute task with compile-time arguments `[1, n]` and the two precision flags as passed. -/
theorem unary_sharded_kernel_tasks (E : Externals) (input output : DeviceTensor)
    (op_chain : List UnaryWithParam) (fp32_dest_acc_en preserve_fp32_precision : Bool)
    (plan : ProgramWithCallbacks) (n : Nat)
    (hn : num_tile_per_core E input.shard_spec input.dtype
      (E.datatype_to_dataformat_converter input.dtype)
      (E.TileSize (E.datatype_to_dataformat_converter input.dtype)) = Except.ok n)
    (hok : unary_sharded E input output op_chain fp32_dest_acc_en preserve_fp32_precision =
      Except.ok plan) :
    plan.program.kernels =
      [{ file_name :=
          "ttnn/cpp/ttnn/operations/eltwise/unary/device/kernels/dataflow/reader_unary_sharded.cpp",
         core_spec := input.shard_spec.grid,
         config := KernelConfig.reader { compile_args := [E.c_in0], defines := [] } },
       { file_name := "tt_metal/kernels/compute/eltwise_sfpu.cpp",
         core_spec := input.shard_spec.grid,
         config := KernelConfig.compute
          { math_fidelity := MathFidelity.HiFi4,
            fp32_dest_acc_en := fp32_dest_acc_en,
            preserve_fp32_precision := preserve_fp32_precision,
            math_approx_mode := op_chain.all (fun u => E.get_op_approx_mode u.op_type),
            compile_args := [1, n],
            defines := E.get_block_defines op_chain } }] ∧
    plan.program.runtime_args =
      [{ kernel := 0, core_spec := input.shard_spec.grid, args := [n] }] ∧
    (plan.program.circular_buffers.map (fun cb => cb.config.data_format_spec)).head? =
      some [(E.c_in0, E.datatype_to_dataformat_converter input.dtype)] := by
  obtain ⟨m, hm, -, -, -, -, hplan⟩ :=
    unary_sharded_ok_inv E input output op_chain _ _ plan hok
  rw [hn] at hm
  have hnm : n = m := Except.ok.inj hm
  subst hnm hplan
  exact ⟨rfl, rfl, rfl⟩

/-- Witness of C20: the four-core example pair, one tile per core. -/
theorem unary_sharded_kernel_tasks_witness :
    num_tile_per_core example_externals example_input_4.shard_spec example_input_4.dtype
      (example_externals.datatype_to_dataformat_converter example_input_4.dtype)
      (example_externals.TileSize
        (example_externals.datatype_to_dataformat_converter example_input_4.dtype)) =
      Except.ok 1 ∧
    unary_sharded example_externals example_input_4 example_output_4 [] false false =
      Except.ok example_plan ∧
    example_plan.program.runtime_args = [{ kernel := 0, core_spec := grid_4, args := [1] }] :=
  ⟨rfl, example_plan_built,
    (unary_sharded_kernel_tasks example_externals example_input_4 example_output_4 [] false
      false example_plan 1 rfl example_plan_built).2.1⟩

/-- The two failures of the tile count computation. -/
theorem num_tile_per_core_error (E : Externals) (shard_spec : ShardSpec) (dtype : DataType)
    (act_df : DataFormat) (input_tile_size : Nat) (e : Failure)
    (h : num_tile_per_core E shard_spec dtype act_df input_tile_size = Except.error e) :
    dtype ≠ DataType.BFLOAT8_B ∧
    (e = Failure.fatal "Shard width should be multiple of L1_ADRESS_ALIGNMENT" [] ∨
      e = Failure.fatal "Shard Size must be multiple of input_tile_size" []) := by
  unfold num_tile_per_core at h
  split at h
  · exact absurd h (by simp)
  · rename_i hd
    refine ⟨hd, ?_⟩
    split at h
    · exact Or.inl (Except.error.inj h).symm
    · simp only at h
      split at h
      · exact Or.inr (Except.error.inj h).symm
      · exact absurd h (by simp)

/-- Counterexample to C18 as stated: a bfloat16 input with a float32 output.  The tile sizes
2048 and 4096 differ and the failure carries the message "Input and output tile size should
be same" with no value: neither size is reported. -/
theorem unary_sharded_tile_size_message_counterexample :
    example_externals.TileSize
      (example_externals.datatype_to_dataformat_converter example_input_4.dtype) = 2048 ∧
    example_externals.TileSize
      (example_externals.datatype_to_dataformat_converter example_output_float32.dtype) =
        4096 ∧
    unary_sharded example_externals example_input_4 example_output_float32 [] false false =
      Except.error (Failure.fatal "Input and output tile size should be same" []) :=
  ⟨by decide, by decide, rfl⟩

/-- Claim C18, amended: every failure of `unary_sharded` is one of six fatal validations and
carries a message that names the violated invariant.  The shard-count mismatch reports the
two core counts; the messages for the tile-size mismatch, the row width alignment, the shard
footprint and the input and output buffer placement report no values. -/
theorem unary_sharded_failure_messages (E : Externals) (input output : DeviceTensor)
    (op_chain : List UnaryWithParam) (fp32_dest_acc_en preserve_fp32_precision : Bool)
    (e : Failure)
    (herr : unary_sharded E input output op_chain fp32_dest_acc_en preserve_fp32_precision =
      Except.error e) :
    (e = Failure.fatal
        "Output tensor should have same number of cores \x7b\x7d as input tensor \x7b\x7d"
        [output.shard_spec.num_cores, input.shard_spec.num_cores] ∧
      output.shard_spec.num_cores ≠ input.shard_spec.num_cores) ∨
    (e = Failure.fatal "Input and output tile size should be same" [] ∧
      E.TileSize (E.datatype_to_dataformat_converter input.dtype) ≠
        E.TileSize (E.datatype_to_dataformat_converter output.dtype)) ∨
    (e = Failure.fatal "Shard width should be multiple of L1_ADRESS_ALIGNMENT" [] ∧
      input.dtype ≠ DataType.BFLOAT8_B) ∨
    (e = Failure.fatal "Shard Size must be multiple of input_tile_size" [] ∧
      input.dtype ≠ DataType.BFLOAT8_B) ∨
    (e = Failure.fatal "Input buffer should be in L1" [] ∧
      input.buffer.buffer_type = BufferType.DRAM) ∨
    (e = Failure.fatal "Output buffer should be in L1" [] ∧
      output.buffer.buffer_type = BufferType.DRAM) := by
  unfold unary_sharded at herr
  simp only at herr
  split at herr
  · rename_i hc
    exact Or.inl ⟨(Except.error.inj herr).symm, hc⟩
  · split at herr
    · rename_i ht
      exact Or.inr (Or.inl ⟨(Except.error.inj herr).symm, ht⟩)
    · split at herr
      · rename_i e2 hn
        have he : e2 = e := Except.error.inj herr
        subst he
        obtain ⟨hd, hmsg⟩ := num_tile_per_core_error E _ _ _ _ _ hn
        rcases hmsg with hmsg | hmsg
        · exact Or.inr (Or.inr (Or.inl ⟨hmsg, hd⟩))
        · exact Or.inr (Or.inr (Or.inr (Or.inl ⟨hmsg, hd⟩)))
      · rw [unary_sharded_build_eq] at herr
        split at herr
        · rename_i h1
          exact Or.inr (Or.inr (Or.inr (Or.inr (Or.inl ⟨(Except.error.inj herr).symm, h1⟩))))
        · split at herr
          · rename_i h2
            exact Or.inr (Or.inr (Or.inr (Or.inr (Or.inr
              ⟨(Except.error.inj herr).symm, h2⟩))))
          · exact absurd herr (by simp)

/-- Witness of C18: the input on four and the output on three cores; the failure reports the
core counts 3 and 4. -/
theorem unary_sharded_failure_messages_witness :
    unary_sharded example_externals example_input_4 example_output_3 [] false false =
      Except.error (Failure.fatal
        "Output tensor should have same number of cores \x7b\x7d as input tensor \x7b\x7d"
        [3, 4]) ∧
    ((Failure.fatal
        "Output tensor should have same number of cores \x7b\x7d as input tensor \x7b\x7d"
        [3, 4] =
      Failure.fatal
        "Output tensor should have same number of cores \x7b\x7d as input tensor \x7b\x7d"
        [example_output_3.shard_spec.num_cores, example_input_4.shard_spec.num_cores] ∧
      example_output_3.shard_spec.num_cores ≠ example_input_4.shard_spec.num_cores) ∨
    (Failure.fatal
        "Output tensor should have same number of cores \x7b\x7d as input tensor \x7b\x7d"
        [3, 4] = Failure.fatal "Input and output tile size should be same" [] ∧
      example_externals.TileSize
          (example_externals.datatype_to_dataformat_converter example_input_4.dtype) ≠
        example_externals.TileSize
          (example_externals.datatype_to_dataformat_converter example_output_3.dtype)) ∨
    (Failure.fatal
        "Output tensor should have same number of cores \x7b\x7d as input tensor \x7b\x7d"
        [3, 4] = Failure.fatal "Shard width should be multiple of L1_ADRESS_ALIGNMENT" [] ∧
      example_input_4.dtype ≠ DataType.BFLOAT8_B) ∨
    (Failure.fatal
        "Output tensor should have same number of cores \x7b\x7d as input tensor \x7b\x7d"
        [3, 4] = Failure.fatal "Shard Size must be multiple of input_tile_size" [] ∧
      example_input_4.dtype ≠ DataType.BFLOAT8_B) ∨
    (Failure.fatal
        "Output tensor should have same number of cores \x7b\x7d as input tensor \x7b\x7d"
        [3, 4] = Failure.fatal "Input buffer should be in L1" [] ∧
      example_input_4.buffer.buffer_type = BufferType.DRAM) ∨
    (Failure.fatal
        "Output tensor should have same number of cores \x7b\x7d as input tensor \x7b\x7d"
        [3, 4] = Failure.fatal "Output buffer should be in L1" [] ∧
      example_output_3.buffer.buffer_type = BufferType.DRAM)) :=
  ⟨rfl,
    unary_sharded_failure_messages example_externals example_input_4 example_output_3 [] false
      false _ rfl⟩


/-- Witness of C11: the four-core example pair, one tile of 2048 bytes per core: both staging
resources have page size 2048 and total size 2048. -/
theorem unary_sharded_staging_resources_witness :
    round_up_to_mul32 2048 < U32 ∧ round_up_to_mul32 2048 * 1 < U32 ∧
    unary_sharded example_externals example_input_4 example_output_4 [] false false =
      Except.ok example_plan ∧
    example_plan.program.circular_buffers.map (fun cb => cb.config.total_size) =
      [2048, 2048] ∧
    example_plan.program.circular_buffers =
      [{ core_ranges := grid_4,
         config :=
          { total_size := round_up_to_mul32 2048 * 1,
            data_format_spec := [(0, DataFormat.Float16_b)],
            page_sizes := [(0, round_up_to_mul32 2048)],
            globally_allocated_address := some 4096 } },
       { core_ranges := grid_4,
         config :=
          { total_size := round_up_to_mul32 2048 * 1,
            data_format_spec := [(16, DataFormat.Float16_b)],
            page_sizes := [(16, round_up_to_mul32 2048)],
            globally_allocated_address := some 8192 } }] :=
  ⟨by decide, by decide, example_plan_built, by decide,
    unary_sharded_staging_resources example_externals example_input_4 example_output_4 []
      false false example_plan 1 2048 rfl rfl (by decide) (by decide) example_plan_built⟩


/-- The output tensor enters `unary_sharded` through its data type, its buffer and the core
count of its shard spec only. -/
theorem unary_sharded_output_congr (E : Externals) (input output other : DeviceTensor)
    (op_chain : List UnaryWithParam) (f1 f2 : Bool)
    (hdtype : other.dtype = output.dtype) (hbuffer : other.buffer = output.buffer)
    (hcores : other.shard_spec.num_cores = output.shard_spec.num_cores) :
    unary_sharded E input other op_chain f1 f2 = unary_sharded E input output op_chain f1 f2 := by
  unfold unary_sharded unary_sharded_build
  simp only [hdtype, hbuffer, hcores]

/-- Claim C24: every core set of the plan built by `unary_sharded` is the grid of the input
tensor's shard spec: the input and the output staging resource, the data-supply and the
compute task, and the runtime arguments of the data-supply task all carry the input shard
grid, whatever the grid of the output tensor.  The output shard spec contributes its core
count only: an output tensor of the same data type and buffer whose shard spec has the same
core count, on whatever grid and with whatever shard shape, gives the same result, plan or
failure. -/
theorem unary_sharded_core_sets (E : Externals) (input output : DeviceTensor)
    (op_chain : List UnaryWithParam) (fp32_dest_acc_en preserve_fp32_precision : Bool)
    (plan : ProgramWithCallbacks)
    (hok : unary_sharded E input output op_chain fp32_dest_acc_en preserve_fp32_precision =
      Except.ok plan) :
    plan.program.circular_buffers.map CircularBuffer.core_ranges =
      [input.shard_spec.grid, input.shard_spec.grid] ∧
    plan.program.kernels.map Kernel.core_spec =
      [input.shard_spec.grid, input.shard_spec.grid] ∧
    plan.program.runtime_args.map RuntimeArgs.core_spec = [input.shard_spec.grid] ∧
    (∀ cores ∈ plan.program.core_sets, cores = input.shard_spec.grid) ∧
    (∀ other : DeviceTensor, other.dtype = output.dtype → other.buffer = output.buffer →
      other.shard_spec.num_cores = output.shard_spec.num_cores →
      unary_sharded E input other op_chain fp32_dest_acc_en preserve_fp32_precision =
        Except.ok plan) := by
  obtain ⟨n, -, -, -, -, -, hplan⟩ := unary_sharded_ok_inv E input output op_chain _ _ plan hok
  subst hplan
  refine ⟨rfl, rfl, rfl, ?_, ?_⟩
  · intro cores hcores
    simp [Program.core_sets, built_program] at hcores
    exact hcores
  · intro other hdtype hbuffer hcores
    rw [unary_sharded_output_congr E input output other op_chain _ _ hdtype hbuffer hcores]
    exact hok

/-- Witness of C24: the input on the row of four cores and the output on a square of four
other cores; the plan is built on the input's row of cores. -/
theorem unary_sharded_core_sets_witness :
    example_output_4_square.shard_spec.grid ≠ example_input_4.shard_spec.grid ∧
    example_output_4_square.shard_spec.num_cores = example_input_4.shard_spec.num_cores ∧
    unary_sharded example_externals example_input_4 example_output_4_square [] false false =
      Except.ok example_plan ∧
    example_plan.program.circular_buffers.map CircularBuffer.core_ranges = [grid_4, grid_4] ∧
    example_plan.program.kernels.map Kernel.core_spec = [grid_4, grid_4] :=
  ⟨by decide, by decide, rfl,
    (unary_sharded_core_sets example_externals example_input_4 example_output_4_square []
      false false example_plan rfl).1,
    (unary_sharded_core_sets example_externals example_input_4 example_output_4_square []
      false false example_plan rfl).2.1⟩

end ttnn.operations.unary
